import Mathlib

/-!
# Alarm controller of `src/main.cpp`: a shallow embedding

The program is a polling loop over a set of global variables.  The embedding
collects the globals (and the one function-local `static`) in a record `State`
and turns every function of the main loop into a total function on `State`.

Conventions of the embedding:

* `bool` is `Bool` (`ON`/`HIGH` is `true`, `OFF`/`LOW` is `false`).
* `int` counters and indices are `Nat`: every `int` of the program starts at `0`
  and is only incremented, increased by `TIME_INCREMENT_MS` or reset to `0`.
  Arithmetic is exact (signed overflow, which C++ leaves undefined, would need
  more than two thousand million increments of one counter).
* `char` is `Char`; the C++ character `'\0'` is `NUL`.
* `float` values are exact rationals.
* Fixed-size arrays are lists; reads are `List.getD`, writes are `List.set`.
  A write past the end of an array has no effect on the list.  C++ leaves such
  a write undefined (it lands in whatever object follows the array), so the one
  store of the program that can run past its array also has a checked form,
  `keypadStoreKeyChecked`, which returns `none` where the source is undefined.
* Hardware reads (`lm35.read()`, `mq2`, `alarmTestButton`, the keypad column
  pins, `uartUsb`, `time(NULL)`) are explicit arguments.  Serial output is not
  part of the state.
-/

namespace AlarmSystem

/-! ## Constants (`#define`s) -/

def NUMBER_OF_KEYS : Nat := 4
def BLINKING_TIME_GAS_ALARM : Nat := 1000
def BLINKING_TIME_OVER_TEMP_ALARM : Nat := 500
def BLINKING_TIME_GAS_AND_OVER_TEMP_ALARM : Nat := 100
def NUMBER_OF_AVG_SAMPLES : Nat := 100
def OVER_TEMP_LEVEL : ℚ := 50
def TIME_INCREMENT_MS : Nat := 10
def DEBOUNCE_KEY_TIME_MS : Nat := 40
def KEYPAD_NUMBER_OF_ROWS : Nat := 4
def KEYPAD_NUMBER_OF_COLS : Nat := 4
def EVENT_MAX_STORAGE : Nat := 100
def EVENT_NAME_MAX_LENGTH : Nat := 14

/-- The C++ character `'\0'`. -/
def NUL : Char := Char.ofNat 0

/-- The C++ character `'#'`. -/
def HASH : Char := Char.ofNat 35

/-! ## Data types -/

/-- States of the matrix keypad FSM (`matrixKeypadState_t`). -/
inductive matrixKeypadState_t where
  | MATRIX_KEYPAD_SCANNING
  | MATRIX_KEYPAD_DEBOUNCE
  | MATRIX_KEYPAD_KEY_HOLD_PRESSED
deriving DecidableEq

open matrixKeypadState_t

/-- One record of the event log (`systemEvent_t`). -/
structure systemEvent_t where
  seconds : Nat
  typeOfEvent : String
deriving DecidableEq

/-- The global variables of `main.cpp`, the `static` local `lm35SampleIndex` of
`alarmActivationUpdate`, and the output objects the program drives (the global
`potentiometerReading`, which no function uses, is left out). -/
structure State where
  alarmLed : Bool
  incorrectCodeLed : Bool
  systemBlockedLed : Bool
  /-- Direction of `sirenPin`: `true` after `sirenPin.output()`, `false` after `sirenPin.input()`. -/
  sirenPinIsOutput : Bool
  /-- Output latch of `sirenPin` (the value last assigned to it). -/
  sirenPinValue : Bool
  alarmState : Bool
  incorrectCode : Bool
  overTempDetector : Bool
  numberOfIncorrectCodes : Nat
  numberOfHashKeyReleasedEvents : Nat
  keyBeingCompared : Nat
  codeSequence : List Char
  keyPressed : List Char
  accumulatedTimeAlarm : Nat
  alarmLastState : Bool
  gasLastState : Bool
  tempLastState : Bool
  ICLastState : Bool
  SBLastState : Bool
  gasDetectorState : Bool
  overTempDetectorState : Bool
  lm35ReadingsAverage : ℚ
  lm35ReadingsSum : ℚ
  lm35ReadingsArray : List ℚ
  lm35TempC : ℚ
  accumulatedDebounceMatrixKeypadTime : Nat
  matrixKeypadCodeIndex : Nat
  matrixKeypadLastKeyPressed : Char
  matrixKeypadState : matrixKeypadState_t
  eventsIndex : Nat
  arrayOfStoredEvents : List systemEvent_t
  lm35SampleIndex : Nat
deriving DecidableEq

/-- The key map `matrixKeypadIndexToCharArray`. -/
def matrixKeypadIndexToCharArray : List Char :=
  ['1', '2', '3', 'A',
   '4', '5', '6', 'B',
   '7', '8', '9', 'C',
   '*', '0', HASH, 'D']

/-- The values the globals have from their initialisers, before `main` runs
(objects without an initialiser are zero-initialised). -/
def globalsInit : State where
  alarmLed := false
  incorrectCodeLed := false
  systemBlockedLed := false
  sirenPinIsOutput := false
  sirenPinValue := false
  alarmState := false
  incorrectCode := false
  overTempDetector := false
  numberOfIncorrectCodes := 0
  numberOfHashKeyReleasedEvents := 0
  keyBeingCompared := 0
  codeSequence := ['1', '8', '0', '5']
  keyPressed := ['0', '0', '0', '0']
  accumulatedTimeAlarm := 0
  alarmLastState := false
  gasLastState := false
  tempLastState := false
  ICLastState := false
  SBLastState := false
  gasDetectorState := false
  overTempDetectorState := false
  lm35ReadingsAverage := 0
  lm35ReadingsSum := 0
  lm35ReadingsArray := List.replicate NUMBER_OF_AVG_SAMPLES 0
  lm35TempC := 0
  accumulatedDebounceMatrixKeypadTime := 0
  matrixKeypadCodeIndex := 0
  matrixKeypadLastKeyPressed := NUL
  matrixKeypadState := MATRIX_KEYPAD_SCANNING
  eventsIndex := 0
  arrayOfStoredEvents := List.replicate EVENT_MAX_STORAGE ⟨0, ""⟩
  lm35SampleIndex := 0

/-! ## Initialisation -/

/-- The function `lm35ReadingsArrayInit`: every slot of the sample buffer is set to `0`. -/
def lm35ReadingsArrayInit (s : State) : State :=
  { s with lm35ReadingsArray :=
      (List.range NUMBER_OF_AVG_SAMPLES).foldl (fun a i => a.set i 0) s.lm35ReadingsArray }

/-- The function `matrixKeypadInit` (the pull-up configuration of the column pins is
hardware set-up outside the state). -/
def matrixKeypadInit (s : State) : State :=
  { s with matrixKeypadState := MATRIX_KEYPAD_SCANNING }

/-- The function `inputsInit`. -/
def inputsInit (s : State) : State :=
  matrixKeypadInit { lm35ReadingsArrayInit s with sirenPinIsOutput := false }

/-- The function `outputsInit`. -/
def outputsInit (s : State) : State :=
  { s with alarmLed := false, incorrectCodeLed := false, systemBlockedLed := false }

/-- The state in which `main` enters its `while (true)` loop. -/
def initialState : State :=
  outputsInit (inputsInit globalsInit)

/-! ## Sensor filter and alarm activation -/

/-- The function `analogReadingScaledWithTheLM35Formula`. -/
def analogReadingScaledWithTheLM35Formula (analogReading : ℚ) : ℚ :=
  analogReading * (33 / 10) / (1 / 100)

/-- First part of `alarmActivationUpdate` (up to the assignment of `overTempDetector`):
store the new sample `reading` = `lm35.read()` at the cursor, advance the cursor, sum all
slots, and derive the average, the temperature and the over-temperature flag. -/
def lm35Sample (s : State) (reading : ℚ) : State :=
  let lm35ReadingsArray := s.lm35ReadingsArray.set s.lm35SampleIndex reading
  let lm35SampleIndex := s.lm35SampleIndex + 1
  let lm35SampleIndex :=
    if lm35SampleIndex ≥ NUMBER_OF_AVG_SAMPLES then 0 else lm35SampleIndex
  let lm35ReadingsSum :=
    (List.range NUMBER_OF_AVG_SAMPLES).foldl
      (fun sum i => sum + lm35ReadingsArray.getD i 0) 0
  let lm35ReadingsAverage := lm35ReadingsSum / (NUMBER_OF_AVG_SAMPLES : ℚ)
  let lm35TempC := analogReadingScaledWithTheLM35Formula lm35ReadingsAverage
  { s with
    lm35ReadingsArray := lm35ReadingsArray
    lm35SampleIndex := lm35SampleIndex
    lm35ReadingsSum := lm35ReadingsSum
    lm35ReadingsAverage := lm35ReadingsAverage
    lm35TempC := lm35TempC
    overTempDetector := decide (lm35TempC > OVER_TEMP_LEVEL) }

/-- The blink step shared by the three branches of `alarmActivationUpdate`:
`if (accumulatedTimeAlarm >= period) { accumulatedTimeAlarm = 0; alarmLed = !alarmLed; }`. -/
def blinkIfDue (s : State) (period : Nat) : State :=
  if s.accumulatedTimeAlarm ≥ period then
    { s with accumulatedTimeAlarm := 0, alarmLed := !s.alarmLed }
  else s

/-- Lines 197-209 of `alarmActivationUpdate`: the gas sensor (`mq2`, active low), the
over-temperature flag and the test button each set their sub-flags and switch the alarm on. -/
def alarmTriggers (s : State) (mq2 alarmTestButton : Bool) : State :=
  let s := if !mq2 then { s with gasDetectorState := true, alarmState := true } else s
  let s := if s.overTempDetector then
      { s with overTempDetectorState := true, alarmState := true } else s
  if alarmTestButton then
    { s with overTempDetectorState := true, gasDetectorState := true, alarmState := true }
  else s

/-- Lines 210-236 of `alarmActivationUpdate`: with the alarm on, the blink timer advances, the
siren is driven low and the LED blinks with the period selected by the sub-flags; with the
alarm off, the LED and the sub-flags are cleared and the siren pin is released. -/
def alarmDrive (s : State) : State :=
  if s.alarmState then
    let s := { s with
      accumulatedTimeAlarm := s.accumulatedTimeAlarm + TIME_INCREMENT_MS
      sirenPinIsOutput := true
      sirenPinValue := false }
    if s.gasDetectorState && s.overTempDetectorState then
      blinkIfDue s BLINKING_TIME_GAS_AND_OVER_TEMP_ALARM
    else if s.gasDetectorState then
      blinkIfDue s BLINKING_TIME_GAS_ALARM
    else if s.overTempDetectorState then
      blinkIfDue s BLINKING_TIME_OVER_TEMP_ALARM
    else s
  else
    { s with
      alarmLed := false
      gasDetectorState := false
      overTempDetectorState := false
      sirenPinIsOutput := false }

/-- The function `alarmActivationUpdate`; `reading` is `lm35.read()`, `mq2` and
`alarmTestButton` are the levels read from the two input pins. -/
def alarmActivationUpdate (s : State) (reading : ℚ) (mq2 alarmTestButton : Bool) : State :=
  alarmDrive (alarmTriggers (lm35Sample s reading) mq2 alarmTestButton)

/-! ## Matrix keypad -/

/-- The function `matrixKeypadScan`.  `keypad row col` tells whether column pin `col`
reads `OFF` while row pin `row` is the one driven `OFF`. -/
def matrixKeypadScan (keypad : Nat → Nat → Bool) : Char :=
  match (List.range KEYPAD_NUMBER_OF_ROWS).findSome? (fun row =>
      (List.range KEYPAD_NUMBER_OF_COLS).findSome? (fun col =>
        if keypad row col then
          some (matrixKeypadIndexToCharArray.getD (row * KEYPAD_NUMBER_OF_ROWS + col) NUL)
        else none)) with
  | some key => key
  | none => NUL

/-- The function `matrixKeypadUpdate`: returns `keyReleased` and the new state.  The
`default:` branch of the `switch` is not reachable for a value of the enumeration. -/
def matrixKeypadUpdate (s : State) (keypad : Nat → Nat → Bool) : Char × State :=
  match s.matrixKeypadState with
  | MATRIX_KEYPAD_SCANNING =>
    let keyDetected := matrixKeypadScan keypad
    if keyDetected ≠ NUL then
      (NUL, { s with
        matrixKeypadLastKeyPressed := keyDetected
        accumulatedDebounceMatrixKeypadTime := 0
        matrixKeypadState := MATRIX_KEYPAD_DEBOUNCE })
    else (NUL, s)
  | MATRIX_KEYPAD_DEBOUNCE =>
    let s1 :=
      if s.accumulatedDebounceMatrixKeypadTime ≥ DEBOUNCE_KEY_TIME_MS then
        let keyDetected := matrixKeypadScan keypad
        if keyDetected = s.matrixKeypadLastKeyPressed then
          { s with matrixKeypadState := MATRIX_KEYPAD_KEY_HOLD_PRESSED }
        else
          { s with matrixKeypadState := MATRIX_KEYPAD_SCANNING }
      else s
    (NUL, { s1 with
      accumulatedDebounceMatrixKeypadTime :=
        s1.accumulatedDebounceMatrixKeypadTime + TIME_INCREMENT_MS })
  | MATRIX_KEYPAD_KEY_HOLD_PRESSED =>
    let keyDetected := matrixKeypadScan keypad
    if keyDetected ≠ s.matrixKeypadLastKeyPressed then
      let keyReleased := if keyDetected = NUL then s.matrixKeypadLastKeyPressed else NUL
      (keyReleased, { s with matrixKeypadState := MATRIX_KEYPAD_SCANNING })
    else (NUL, s)

/-- Successive calls of `matrixKeypadUpdate`, one per element of `keypads`: the list of
returned characters and the final state. -/
def matrixKeypadRun (s : State) : List (Nat → Nat → Bool) → List Char × State
  | [] => ([], s)
  | keypad :: rest =>
    let r := matrixKeypadUpdate s keypad
    let rs := matrixKeypadRun r.2 rest
    (r.1 :: rs.1, rs.2)

/-! ## Alarm deactivation -/

/-- The function `areEqual`. -/
def areEqual (s : State) : Bool :=
  (List.range NUMBER_OF_KEYS).all
    (fun i => s.codeSequence.getD i NUL == s.keyPressed.getD i NUL)

/-- Lines 243-250 of `alarmDeactivationUpdate`: a released key other than `#` is stored in
the code buffer at `matrixKeypadCodeIndex`, and the index is advanced.  The source stores
first and tests the index afterwards, so the store can run with
`matrixKeypadCodeIndex = NUMBER_OF_KEYS`, one past the array `keyPressed`; C++ leaves that
store undefined.  This total function then changes no array and resets the index;
`keypadStoreKeyChecked` is the same step with the undefined store made explicit. -/
def keypadStoreKey (s : State) (keyReleased : Char) : State :=
  if keyReleased ≠ NUL ∧ keyReleased ≠ HASH then
    let s := { s with keyPressed := s.keyPressed.set s.matrixKeypadCodeIndex keyReleased }
    if s.matrixKeypadCodeIndex ≥ NUMBER_OF_KEYS then
      { s with matrixKeypadCodeIndex := 0 }
    else
      { s with matrixKeypadCodeIndex := s.matrixKeypadCodeIndex + 1 }
  else s

/-- Lines 243-250 of `alarmDeactivationUpdate` with the bounds of the array `keyPressed`
checked: `none` when the store `keyPressed[matrixKeypadCodeIndex] = keyReleased` is made
outside the `NUMBER_OF_KEYS` elements of the array, where the behaviour of the source is
undefined, and the result of `keypadStoreKey` otherwise. -/
def keypadStoreKeyChecked (s : State) (keyReleased : Char) : Option State :=
  if keyReleased ≠ NUL ∧ keyReleased ≠ HASH then
    if s.matrixKeypadCodeIndex < NUMBER_OF_KEYS then some (keypadStoreKey s keyReleased)
    else none
  else some s

/-- Lines 251-271 of `alarmDeactivationUpdate`: a released `#` compares the code buffer with
the secret while the alarm is on.  The branch guarded by the constant `false`
(`if( false /*incorrectCodeLed*/ )`) is dead code and so is left out. -/
def keypadCheckCode (s : State) (keyReleased : Char) : State :=
  if keyReleased = HASH then
    if s.alarmState then
      if areEqual s then
        { s with alarmState := false, numberOfIncorrectCodes := 0, matrixKeypadCodeIndex := 0 }
      else
        { s with incorrectCodeLed := true, numberOfIncorrectCodes := s.numberOfIncorrectCodes + 1 }
    else s
  else s

/-- The function `alarmDeactivationUpdate`. -/
def alarmDeactivationUpdate (s : State) (keypad : Nat → Nat → Bool) : State :=
  if s.numberOfIncorrectCodes < 5 then
    let r := matrixKeypadUpdate s keypad
    let keyReleased := r.1
    keypadCheckCode (keypadStoreKey r.2 keyReleased) keyReleased
  else
    { s with systemBlockedLed := true }

/-- The function `alarmDeactivationUpdate` with the store into `keyPressed` checked: `none`
when the call makes that store outside the array. -/
def alarmDeactivationUpdateChecked (s : State) (keypad : Nat → Nat → Bool) : Option State :=
  if s.numberOfIncorrectCodes < 5 then
    let r := matrixKeypadUpdate s keypad
    let keyReleased := r.1
    match keypadStoreKeyChecked r.2 keyReleased with
    | some t => some (keypadCheckCode t keyReleased)
    | none => none
  else
    some { s with systemBlockedLed := true }

/-! ## Serial console -/

/-- Body of the `for` loop of command `4` in `uartTask`: the next character is read and
compared with `codeSequence[keyBeingCompared]`. -/
def uartCompareKey (rx : Nat → Char) (s : State) (keyBeingCompared : Nat) : State :=
  let s := { s with keyBeingCompared := keyBeingCompared }
  if s.codeSequence.getD keyBeingCompared NUL ≠ rx (1 + keyBeingCompared) then
    { s with incorrectCode := true }
  else s

/-- The `for` loop of command `4` in `uartTask`: the characters `rx 1 .. rx 4` are read one
by one and compared with `codeSequence`. -/
def uartCompareCode (s : State) (rx : Nat → Char) : State :=
  (List.range NUMBER_OF_KEYS).foldl (uartCompareKey rx) s

/-- Command `4` of `uartTask`, after the command character has been read. -/
def uartEnterCode (s : State) (rx : Nat → Char) : State :=
  let s := { s with incorrectCode := false }
  let s := uartCompareCode s rx
  let s := { s with keyBeingCompared := NUMBER_OF_KEYS }
  if s.incorrectCode = false then
    { s with alarmState := false, incorrectCodeLed := false, numberOfIncorrectCodes := 0 }
  else
    { s with incorrectCodeLed := true, numberOfIncorrectCodes := s.numberOfIncorrectCodes + 1 }

/-- The function `uartTask`.  `readable` is `uartUsb.readable()`, and `rx i` is the character
delivered by the `i`-th `uartUsb.read` of this call (reads block until a character arrives).
The result is the new state and the number of characters consumed.  Commands `1`, `2`, `3`,
`c`, `f`, `t`, `e`, `q` and the help menu only write to the console; command `5` reads four
characters and drops them; command `s` reads 14 digits and sets the external clock. -/
def uartTask (s : State) (readable : Bool) (rx : Nat → Char) : State × Nat :=
  if readable then
    let receivedChar := rx 0
    if receivedChar = '4' then
      (uartEnterCode s rx, 1 + NUMBER_OF_KEYS)
    else if receivedChar = '5' then
      ({ s with keyBeingCompared := NUMBER_OF_KEYS }, 1 + NUMBER_OF_KEYS)
    else if receivedChar = 's' ∨ receivedChar = 'S' then
      (s, 1 + 14)
    else
      (s, 1)
  else (s, 0)

/-! ## Event log -/

/-- The function `systemElementStateUpdate`; `now` is the value of `time(NULL)`.  The source
builds the label in a buffer of `EVENT_NAME_MAX_LENGTH` bytes; here it is a string. -/
def systemElementStateUpdate (s : State) (lastState currentState : Bool)
    (elementName : String) (now : Nat) : State :=
  if lastState ≠ currentState then
    let eventAndStateStr := ""
    let eventAndStateStr := eventAndStateStr ++ elementName
    let eventAndStateStr :=
      if currentState then eventAndStateStr ++ "_ON" else eventAndStateStr ++ "_OFF"
    let arrayOfStoredEvents :=
      s.arrayOfStoredEvents.set s.eventsIndex ⟨now, eventAndStateStr⟩
    if s.eventsIndex < EVENT_MAX_STORAGE - 1 then
      { s with arrayOfStoredEvents := arrayOfStoredEvents, eventsIndex := s.eventsIndex + 1 }
    else
      { s with arrayOfStoredEvents := arrayOfStoredEvents, eventsIndex := 0 }
  else s

/-- The function `eventLogUpdate`; `mq2` is the level of the gas sensor pin and `now` the
value of `time(NULL)` during the call. -/
def eventLogUpdate (s : State) (mq2 : Bool) (now : Nat) : State :=
  let s := systemElementStateUpdate s s.alarmLastState s.alarmState "ALARM" now
  let s := { s with alarmLastState := s.alarmState }
  let s := systemElementStateUpdate s s.gasLastState (!mq2) "GAS_DET" now
  let s := { s with gasLastState := !mq2 }
  let s := systemElementStateUpdate s s.tempLastState s.overTempDetector "OVER_TEMP" now
  let s := { s with tempLastState := s.overTempDetector }
  let s := systemElementStateUpdate s s.ICLastState s.incorrectCodeLed "LED_IC" now
  let s := { s with ICLastState := s.incorrectCodeLed }
  let s := systemElementStateUpdate s s.SBLastState s.systemBlockedLed "LED_SB" now
  { s with SBLastState := s.systemBlockedLed }

/-! ## Main loop -/

/-- What the hardware delivers during one iteration of the `while (true)` loop of `main`. -/
structure TickInput where
  /-- The value of `lm35.read()`. -/
  lm35 : ℚ
  /-- Level of the `mq2` pin when `alarmActivationUpdate` reads it. -/
  mq2 : Bool
  alarmTestButton : Bool
  /-- The keypad as seen by `matrixKeypadScan`. -/
  keypad : Nat → Nat → Bool
  /-- The value of `uartUsb.readable()`. -/
  uartReadable : Bool
  /-- The characters delivered by the successive `uartUsb.read` calls. -/
  uartRx : Nat → Char
  /-- Level of the `mq2` pin when `eventLogUpdate` reads it. -/
  mq2Log : Bool
  /-- The value of `time(NULL)`. -/
  now : Nat

/-- One iteration of the `while (true)` loop of `main`. -/
def mainLoopTick (s : State) (inp : TickInput) : State :=
  let s := alarmActivationUpdate s inp.lm35 inp.mq2 inp.alarmTestButton
  let s := alarmDeactivationUpdate s inp.keypad
  let s := (uartTask s inp.uartReadable inp.uartRx).1
  eventLogUpdate s inp.mq2Log inp.now

/-- The main loop run on a finite sequence of per-iteration inputs. -/
def mainLoop (s : State) (inputs : List TickInput) : State :=
  inputs.foldl mainLoopTick s

/-- Successive calls of `alarmActivationUpdate`, one per input. -/
def alarmActivationRun (s : State) (inputs : List (ℚ × Bool × Bool)) : State :=
  inputs.foldl (fun s inp => alarmActivationUpdate s inp.1 inp.2.1 inp.2.2) s

/-- The records written to the console by command `e` / `E` of `uartTask` (the loop
`for (int i = 0; i < eventsIndex; i++)`, which prints the label and the time of slot `i`); no
other command prints event records. -/
def uartTaskPrintedEvents (s : State) (readable : Bool) (rx : Nat → Char) :
    List systemEvent_t :=
  if readable then
    if rx 0 = 'e' ∨ rx 0 = 'E' then
      (List.range s.eventsIndex).map (fun i => s.arrayOfStoredEvents.getD i ⟨0, ""⟩)
    else []
  else []

/-- Successive calls of `alarmDeactivationUpdate`, one per keypad reading. -/
def alarmDeactivationRun (s : State) (keypads : List (Nat → Nat → Bool)) : State :=
  keypads.foldl alarmDeactivationUpdate s

/-- Successive calls of `alarmDeactivationUpdateChecked`, one per keypad reading: `none` as
soon as one call stores outside `keyPressed`. -/
def alarmDeactivationRunChecked (s : State) : List (Nat → Nat → Bool) → Option State
  | [] => some s
  | keypad :: rest =>
    match alarmDeactivationUpdateChecked s keypad with
    | some t => alarmDeactivationRunChecked t rest
    | none => none

/-- Whether the console input of an iteration is command `4` followed by four characters
equal to `code` (the one input with which `uartTask` takes its "code is correct" branch). -/
def consoleDisarms (code : List Char) (inp : TickInput) : Bool :=
  inp.uartReadable && decide (inp.uartRx 0 = '4') &&
    (List.range NUMBER_OF_KEYS).all (fun i => decide (inp.uartRx (1 + i) = code.getD i NUL))

/-- Successive calls of `systemElementStateUpdate` that each record an event: for every
element `(currentState, elementName, now)` the call is made with `lastState = !currentState`. -/
def recordEvents (s : State) (events : List (Bool × String × Nat)) : State :=
  events.foldl (fun s e => systemElementStateUpdate s (!e.1) e.1 e.2.1 e.2.2) s

/-- The record a monitored signal contributes to one call of `eventLogUpdate`: one event
`(currentState, elementName, now)` when the signal differs from its stored last value, none
otherwise. -/
def eventIfChanged (lastState currentState : Bool) (elementName : String) (now : Nat) :
    List (Bool × String × Nat) :=
  if lastState ≠ currentState then [(currentState, elementName, now)] else []

/-- The events one call of `eventLogUpdate` is to record, as the specification words it: one
per monitored signal whose current value differs from its stored last value, in the order
`ALARM`, `GAS_DET`, `OVER_TEMP`, `LED_IC`, `LED_SB`. -/
def pendingEvents (s : State) (mq2 : Bool) (now : Nat) : List (Bool × String × Nat) :=
  eventIfChanged s.alarmLastState s.alarmState "ALARM" now ++
  eventIfChanged s.gasLastState (!mq2) "GAS_DET" now ++
  eventIfChanged s.tempLastState s.overTempDetector "OVER_TEMP" now ++
  eventIfChanged s.ICLastState s.incorrectCodeLed "LED_IC" now ++
  eventIfChanged s.SBLastState s.systemBlockedLed "LED_SB" now

/-! ## Predicates used in the proofs -/

/-- What `eventLogUpdate` may change: the log, its cursor and the five stored last values. -/
def EventLogFrame (s s' : State) : Prop :=
  s' = { s with
    alarmLastState := s'.alarmLastState
    gasLastState := s'.gasLastState
    tempLastState := s'.tempLastState
    ICLastState := s'.ICLastState
    SBLastState := s'.SBLastState
    eventsIndex := s'.eventsIndex
    arrayOfStoredEvents := s'.arrayOfStoredEvents }

/-- The event log has `EVENT_MAX_STORAGE` slots and its cursor points at one of them. -/
def EventLogBounded (s : State) : Prop :=
  s.eventsIndex < EVENT_MAX_STORAGE ∧ s.arrayOfStoredEvents.length = EVENT_MAX_STORAGE

/-- The state `x` is the state `s` after the events `evs` have been recorded, with the five
stored last values set to `a`, `g`, `t`, `i`, `b`. -/
def EventLogAfter (s x : State) (evs : List (Bool × String × Nat)) (a g t i b : Bool) : Prop :=
  x = { recordEvents s evs with
    alarmLastState := a
    gasLastState := g
    tempLastState := t
    ICLastState := i
    SBLastState := b }

/-- An iteration of the gas scenario: the gas sensor is asserted (the `mq2` pin reads low)
whenever it is read, the test button is inactive, no key is pressed and no console byte is
available. -/
def GasTick (inp : TickInput) : Prop :=
  inp.mq2 = false ∧ inp.mq2Log = false ∧ inp.alarmTestButton = false ∧
  matrixKeypadScan inp.keypad = NUL ∧ inp.uartReadable = false

/-- The state of the gas scenario after `ticks` iterations, the first of which ran at time
`t0`: alarm on because of gas only, siren driven low, LED never toggled, and exactly the two
records `ALARM_ON` and `GAS_DET_ON` in the log. -/
def GasAlarmRunning (s : State) (t0 ticks : Nat) : Prop :=
  s.alarmState = true ∧ s.sirenPinIsOutput = true ∧ s.sirenPinValue = false ∧
  s.gasDetectorState = true ∧ s.overTempDetectorState = false ∧ s.alarmLed = false ∧
  s.accumulatedTimeAlarm = TIME_INCREMENT_MS * ticks ∧
  s.eventsIndex = 2 ∧
  s.arrayOfStoredEvents =
    ⟨t0, "ALARM_ON"⟩ :: ⟨t0, "GAS_DET_ON"⟩ :: List.replicate 98 ⟨0, ""⟩ ∧
  s.alarmLastState = true ∧ s.gasLastState = true ∧ s.tempLastState = false ∧
  s.ICLastState = false ∧ s.SBLastState = false ∧
  s.overTempDetector = false ∧ s.incorrectCodeLed = false ∧ s.systemBlockedLed = false ∧
  s.numberOfIncorrectCodes = 0 ∧ s.matrixKeypadState = MATRIX_KEYPAD_SCANNING

/-- The state `alarmActivationUpdate` produces from `s` and the sample `x` in the gas
scenario: the sample is taken, gas is flagged, the alarm is on, the blink timer has advanced
by one period of the scheduler and the siren is driven low. -/
def afterGasActivation (s : State) (x : ℚ) : State :=
  { lm35Sample s x with
    gasDetectorState := true
    alarmState := true
    accumulatedTimeAlarm := s.accumulatedTimeAlarm + TIME_INCREMENT_MS
    sirenPinIsOutput := true
    sirenPinValue := false }

/-- The element names `eventLogUpdate` passes to `systemElementStateUpdate`, in the order of
its five calls. -/
def monitoredElementNames : List String :=
  ["ALARM", "GAS_DET", "OVER_TEMP", "LED_IC", "LED_SB"]

/-- While the keypad FSM is debouncing or holding a key, the recorded key is not `'\0'`. -/
def KeypadKeyRecorded (s : State) : Prop :=
  s.matrixKeypadState = MATRIX_KEYPAD_DEBOUNCE ∨
    s.matrixKeypadState = MATRIX_KEYPAD_KEY_HOLD_PRESSED →
  s.matrixKeypadLastKeyPressed ≠ NUL

/-- No key of the keypad is pressed. -/
def keypadIdle : Nat → Nat → Bool := fun _ _ => false

/-- Exactly the key in row `row`, column `col` is pressed. -/
def keypadKey (row col : Nat) : Nat → Nat → Bool := fun r c => r == row && c == col

/-- Alarm on, the keypad FSM holding `#`, and `code` in the keypad code buffer. -/
def stateHashHeld (code : List Char) (failures : Nat) : State :=
  { initialState with
    alarmState := true
    gasDetectorState := true
    keyPressed := code
    numberOfIncorrectCodes := failures
    matrixKeypadLastKeyPressed := HASH
    matrixKeypadState := MATRIX_KEYPAD_KEY_HOLD_PRESSED }

/-- The keypad FSM holding the key `key` (state of the initial state otherwise). -/
def stateKeyHeld (key : Char) : State :=
  { initialState with
    matrixKeypadLastKeyPressed := key
    matrixKeypadState := MATRIX_KEYPAD_KEY_HOLD_PRESSED }

/-- The alarm on with both sub-flags set and the blink timer at 0. -/
def stateBothAlarms : State :=
  { initialState with
    alarmState := true
    gasDetectorState := true
    overTempDetectorState := true }

/-- The alarm on because of gas only, the blink timer at 0. -/
def stateGasAlarm : State :=
  { initialState with
    alarmState := true
    gasDetectorState := true }

/-- The keys `6` (row 1, column 2) and `7` (row 2, column 0) pressed together. -/
def keypadTwoKeys : Nat → Nat → Bool :=
  fun r c => (r == 1 && c == 2) || (r == 2 && c == 0)

/-- Keypad readings of one press of the key in row `row`, column `col`: the key is seen on
six calls (detection, four debounce waits, confirmation) and has gone on the seventh, which
reports the release. -/
def keyPressRelease (row col : Nat) : List (Nat → Nat → Bool) :=
  List.replicate 6 (keypadKey row col) ++ [keypadIdle]

/-- One hundred events, alternately `GAS_DET_ON` and `GAS_DET_OFF`, at times 0 to 99. -/
def hundredEvents : List (Bool × String × Nat) :=
  (List.range 100).map (fun i => (i % 2 == 0, "GAS_DET", i))

/-- A console stream that delivers the characters of `text` and then `NUL`s. -/
def rxOf (text : List Char) : Nat → Char := fun i => text.getD i NUL

/-- An iteration in which every sensor is quiet, no key is pressed and the console is silent. -/
def tickIdle : TickInput where
  lm35 := 0
  mq2 := true
  alarmTestButton := false
  keypad := keypadIdle
  uartReadable := false
  uartRx := fun _ => NUL
  mq2Log := true
  now := 0

/-- An iteration at time 7 in which the gas sensor is asserted, the temperature sample is 0,
no key is pressed and the console is silent. -/
def tickGas : TickInput :=
  { tickIdle with mq2 := false, mq2Log := false, now := 7 }

/-- An iteration like `tickIdle` in which the console delivers the characters of `text`. -/
def tickConsole (text : List Char) : TickInput :=
  { tickIdle with uartReadable := true, uartRx := rxOf text }

/-! ## Frame lemmas -/

theorem matrixKeypadUpdate_frame (s : State) (keypad : Nat → Nat → Bool) :
    (matrixKeypadUpdate s keypad).2 =
      { s with
        matrixKeypadLastKeyPressed := (matrixKeypadUpdate s keypad).2.matrixKeypadLastKeyPressed
        accumulatedDebounceMatrixKeypadTime :=
          (matrixKeypadUpdate s keypad).2.accumulatedDebounceMatrixKeypadTime
        matrixKeypadState := (matrixKeypadUpdate s keypad).2.matrixKeypadState } := by
  cases s
  unfold matrixKeypadUpdate
  split <;> rename_i h <;> simp only [] at h <;> subst h <;> dsimp only <;> split_ifs <;> rfl

theorem areEqual_iff (s : State) :
    areEqual s = true ↔ ∀ i, i < 4 → s.keyPressed.getD i NUL = s.codeSequence.getD i NUL := by
  simp only [areEqual, NUMBER_OF_KEYS, List.all_eq_true, List.mem_range, beq_iff_eq]
  constructor
  · intro h i hi
    exact (h i hi).symm
  · intro h i hi
    exact (h i hi).symm

theorem uartCompareKey_frame (rx : Nat → Char) (s : State) (k : Nat) :
    uartCompareKey rx s k =
      { s with
        keyBeingCompared := k
        incorrectCode :=
          s.incorrectCode || decide (s.codeSequence.getD k NUL ≠ rx (1 + k)) } := by
  cases s
  unfold uartCompareKey
  dsimp only
  split_ifs with h <;> simp_all

theorem uartCompareKey_foldl (rx : Nat → Char) (l : List Nat) (s : State) :
    l.foldl (uartCompareKey rx) s =
      { s with
        keyBeingCompared := (l.foldl (uartCompareKey rx) s).keyBeingCompared
        incorrectCode :=
          s.incorrectCode || l.any (fun k => decide (s.codeSequence.getD k NUL ≠ rx (1 + k))) } := by
  induction l generalizing s with
  | nil => cases s; simp
  | cons k l ih =>
    rw [List.foldl_cons]
    have hk := uartCompareKey_frame rx s k
    have hl := ih (uartCompareKey rx s k)
    generalize List.foldl (uartCompareKey rx) (uartCompareKey rx s k) l = G at hl ⊢
    generalize uartCompareKey rx s k = s1 at hk hl
    rw [hl, hk]
    simp [Bool.or_assoc]

theorem range_any_mismatch (code : List Char) (rx : Nat → Char) :
    (List.range NUMBER_OF_KEYS).any (fun k => decide (code.getD k NUL ≠ rx (1 + k))) = false ↔
      ∀ i, i < 4 → rx (1 + i) = code.getD i NUL := by
  rw [Bool.eq_false_iff]
  simp only [ne_eq, List.any_eq_true, List.mem_range, NUMBER_OF_KEYS, decide_eq_true_eq,
    not_exists, not_and, not_not]
  constructor
  · intro h i hi
    exact (h i hi).symm
  · intro h i hi
    exact (h i hi).symm

theorem uartEnterCode_fold (s : State) (rx : Nat → Char) :
    uartEnterCode s rx =
      if (List.range NUMBER_OF_KEYS).any
          (fun k => decide (s.codeSequence.getD k NUL ≠ rx (1 + k))) = false then
        { s with
          incorrectCode := false
          keyBeingCompared := NUMBER_OF_KEYS
          alarmState := false
          incorrectCodeLed := false
          numberOfIncorrectCodes := 0 }
      else
        { s with
          incorrectCode := true
          keyBeingCompared := NUMBER_OF_KEYS
          incorrectCodeLed := true
          numberOfIncorrectCodes := s.numberOfIncorrectCodes + 1 } := by
  have hfold := uartCompareKey_foldl rx (List.range NUMBER_OF_KEYS) { s with incorrectCode := false }
  unfold uartEnterCode uartCompareCode
  dsimp only at hfold ⊢
  generalize List.foldl (uartCompareKey rx) _ (List.range NUMBER_OF_KEYS) = G at hfold ⊢
  rw [hfold]
  dsimp only
  rw [Bool.false_or]
  cases (List.range NUMBER_OF_KEYS).any
        (fun k => decide (s.codeSequence.getD k NUL ≠ rx (1 + k))) <;> simp

/-- Command `4` with the four characters equal to the secret. -/
theorem uartEnterCode_correct (s : State) (rx : Nat → Char)
    (hcode : ∀ i, i < 4 → rx (1 + i) = s.codeSequence.getD i NUL) :
    uartEnterCode s rx =
      { s with
        incorrectCode := false
        keyBeingCompared := NUMBER_OF_KEYS
        alarmState := false
        incorrectCodeLed := false
        numberOfIncorrectCodes := 0 } := by
  rw [uartEnterCode_fold, if_pos ((range_any_mismatch s.codeSequence rx).mpr hcode)]

/-- Command `4` with a character that differs from the secret. -/
theorem uartEnterCode_incorrect (s : State) (rx : Nat → Char)
    (hcode : ¬ ∀ i, i < 4 → rx (1 + i) = s.codeSequence.getD i NUL) :
    uartEnterCode s rx =
      { s with
        incorrectCode := true
        keyBeingCompared := NUMBER_OF_KEYS
        incorrectCodeLed := true
        numberOfIncorrectCodes := s.numberOfIncorrectCodes + 1 } := by
  rw [uartEnterCode_fold,
    if_neg (fun h => hcode ((range_any_mismatch s.codeSequence rx).mp h))]

/-! ## Disarming by keypad and by console -/

/-- C1: in `alarmDeactivationUpdate`, with fewer than 5 incorrect codes, the alarm on and the
keypad FSM returning a released `#`: if the code buffer equals the secret at all four
positions, the alarm is switched off and the failure counter and the buffer index are reset
to 0; otherwise the alarm stays on, the failure counter grows by exactly 1 and
`incorrectCodeLed` is on. -/
theorem alarmDeactivationUpdate_hash_compares (s : State) (keypad : Nat → Nat → Bool)
    (hlt : s.numberOfIncorrectCodes < 5) (hon : s.alarmState = true)
    (hkey : (matrixKeypadUpdate s keypad).1 = HASH) :
    ((∀ i, i < 4 → s.keyPressed.getD i NUL = s.codeSequence.getD i NUL) →
      (alarmDeactivationUpdate s keypad).alarmState = false ∧
      (alarmDeactivationUpdate s keypad).numberOfIncorrectCodes = 0 ∧
      (alarmDeactivationUpdate s keypad).matrixKeypadCodeIndex = 0) ∧
    (¬ (∀ i, i < 4 → s.keyPressed.getD i NUL = s.codeSequence.getD i NUL) →
      (alarmDeactivationUpdate s keypad).alarmState = true ∧
      (alarmDeactivationUpdate s keypad).numberOfIncorrectCodes =
        s.numberOfIncorrectCodes + 1 ∧
      (alarmDeactivationUpdate s keypad).incorrectCodeLed = true) := by
  have hframe := matrixKeypadUpdate_frame s keypad
  have hstore : keypadStoreKey (matrixKeypadUpdate s keypad).2 HASH =
      (matrixKeypadUpdate s keypad).2 := by
    unfold keypadStoreKey
    rw [if_neg (by simp)]
  have hstep : alarmDeactivationUpdate s keypad =
      keypadCheckCode (matrixKeypadUpdate s keypad).2 HASH := by
    unfold alarmDeactivationUpdate
    rw [if_pos hlt]
    dsimp only
    rw [hkey, hstore]
  generalize (matrixKeypadUpdate s keypad).2 = s1 at hframe hstep
  have heq : areEqual s1 = areEqual s := by rw [hframe]; rfl
  have halarm : s1.alarmState = true := by rw [hframe]; exact hon
  have hcount : s1.numberOfIncorrectCodes = s.numberOfIncorrectCodes := by rw [hframe]
  rw [← areEqual_iff, hstep]
  unfold keypadCheckCode
  rw [if_pos rfl, if_pos halarm, heq]
  constructor
  · intro hcode
    rw [if_pos hcode]
    exact ⟨rfl, rfl, rfl⟩
  · intro hcode
    rw [if_neg hcode]
    exact ⟨halarm, by rw [← hcount], rfl⟩

/-- Witness for C1: buffer `1805` against the secret `1805` disarms, buffer `1806` adds one
failure and does not disarm. -/
theorem alarmDeactivationUpdate_hash_compares_witness :
    (alarmDeactivationUpdate (stateHashHeld ['1', '8', '0', '5'] 0) keypadIdle).alarmState
        = false ∧
    (alarmDeactivationUpdate (stateHashHeld ['1', '8', '0', '5'] 0)
        keypadIdle).numberOfIncorrectCodes = 0 ∧
    (alarmDeactivationUpdate (stateHashHeld ['1', '8', '0', '5'] 0)
        keypadIdle).matrixKeypadCodeIndex = 0 ∧
    (alarmDeactivationUpdate (stateHashHeld ['1', '8', '0', '6'] 2) keypadIdle).alarmState
        = true ∧
    (alarmDeactivationUpdate (stateHashHeld ['1', '8', '0', '6'] 2)
        keypadIdle).numberOfIncorrectCodes =
      (stateHashHeld ['1', '8', '0', '6'] 2).numberOfIncorrectCodes + 1 ∧
    (alarmDeactivationUpdate (stateHashHeld ['1', '8', '0', '6'] 2)
        keypadIdle).incorrectCodeLed = true :=
  ⟨((alarmDeactivationUpdate_hash_compares (stateHashHeld ['1', '8', '0', '5'] 0) keypadIdle
      (by decide) (by decide) (by decide)).1 (by decide)).1,
    ((alarmDeactivationUpdate_hash_compares (stateHashHeld ['1', '8', '0', '5'] 0) keypadIdle
      (by decide) (by decide) (by decide)).1 (by decide)).2.1,
    ((alarmDeactivationUpdate_hash_compares (stateHashHeld ['1', '8', '0', '5'] 0) keypadIdle
      (by decide) (by decide) (by decide)).1 (by decide)).2.2,
    (alarmDeactivationUpdate_hash_compares (stateHashHeld ['1', '8', '0', '6'] 2) keypadIdle
      (by decide) (by decide) (by decide)).2 (by decide)⟩

/-- C2: console command `4` followed by four characters: if every character equals the secret
at its position, the alarm is switched off, the failure counter is reset to 0 and
`incorrectCodeLed` is off; otherwise the alarm is unchanged, the failure counter grows by
exactly 1 and `incorrectCodeLed` is on.  In both cases the command and the four characters
are consumed, and the keypad code buffer, its index and the keypad FSM are unchanged. -/
theorem uartTask_enter_code (s : State) (rx : Nat → Char) (hcmd : rx 0 = '4') :
    ((∀ i, i < 4 → rx (1 + i) = s.codeSequence.getD i NUL) →
      (uartTask s true rx).1.alarmState = false ∧
      (uartTask s true rx).1.numberOfIncorrectCodes = 0 ∧
      (uartTask s true rx).1.incorrectCodeLed = false) ∧
    (¬ (∀ i, i < 4 → rx (1 + i) = s.codeSequence.getD i NUL) →
      (uartTask s true rx).1.alarmState = s.alarmState ∧
      (uartTask s true rx).1.numberOfIncorrectCodes = s.numberOfIncorrectCodes + 1 ∧
      (uartTask s true rx).1.incorrectCodeLed = true) ∧
    (uartTask s true rx).2 = 1 + 4 ∧
    (uartTask s true rx).1.keyPressed = s.keyPressed ∧
    (uartTask s true rx).1.matrixKeypadCodeIndex = s.matrixKeypadCodeIndex ∧
    (uartTask s true rx).1.matrixKeypadState = s.matrixKeypadState ∧
    (uartTask s true rx).1.matrixKeypadLastKeyPressed = s.matrixKeypadLastKeyPressed ∧
    (uartTask s true rx).1.accumulatedDebounceMatrixKeypadTime =
      s.accumulatedDebounceMatrixKeypadTime := by
  have hrun : uartTask s true rx = (uartEnterCode s rx, 1 + NUMBER_OF_KEYS) := by
    unfold uartTask
    rw [if_pos rfl]
    dsimp only
    rw [if_pos hcmd]
  rw [hrun]
  dsimp only
  by_cases hcode : ∀ i, i < 4 → rx (1 + i) = s.codeSequence.getD i NUL
  · rw [uartEnterCode_correct s rx hcode]
    exact ⟨fun _ => ⟨rfl, rfl, rfl⟩, fun h => absurd hcode h, rfl, rfl, rfl, rfl, rfl, rfl⟩
  · rw [uartEnterCode_incorrect s rx hcode]
    exact ⟨fun h => absurd h hcode, fun _ => ⟨rfl, rfl, rfl⟩, rfl, rfl, rfl, rfl, rfl, rfl⟩

/-- Witness for C2: the console delivers `4`, `1`, `8`, `0`, `5` (the secret) and
`4`, `1`, `8`, `0`, `6` (one wrong digit). -/
theorem uartTask_enter_code_witness :
    rxOf ['4', '1', '8', '0', '5'] 0 = '4' ∧
    (uartTask (stateHashHeld ['0', '0', '0', '0'] 2) true
      (rxOf ['4', '1', '8', '0', '5'])).1.alarmState = false ∧
    (uartTask (stateHashHeld ['0', '0', '0', '0'] 2) true
      (rxOf ['4', '1', '8', '0', '5'])).1.numberOfIncorrectCodes = 0 ∧
    (uartTask (stateHashHeld ['0', '0', '0', '0'] 2) true
      (rxOf ['4', '1', '8', '0', '6'])).1.numberOfIncorrectCodes =
        (stateHashHeld ['0', '0', '0', '0'] 2).numberOfIncorrectCodes + 1 :=
  ⟨by decide,
    ((uartTask_enter_code (stateHashHeld ['0', '0', '0', '0'] 2)
      (rxOf ['4', '1', '8', '0', '5']) (by decide)).1 (by decide)).1,
    ((uartTask_enter_code (stateHashHeld ['0', '0', '0', '0'] 2)
      (rxOf ['4', '1', '8', '0', '5']) (by decide)).1 (by decide)).2.1,
    ((uartTask_enter_code (stateHashHeld ['0', '0', '0', '0'] 2)
      (rxOf ['4', '1', '8', '0', '6']) (by decide)).2.1 (by decide)).2.1⟩

/-- C3: once the failure counter is 5 or more, `alarmDeactivationUpdate` only switches
`systemBlockedLed` on: the keypad FSM is not run and every other variable (alarm state,
failure counter, code buffer and its index, `incorrectCodeLed`, keypad FSM) keeps its value,
whatever the keypad shows. -/
theorem alarmDeactivationUpdate_blocked (s : State) (keypad : Nat → Nat → Bool)
    (hblocked : 5 ≤ s.numberOfIncorrectCodes) :
    alarmDeactivationUpdate s keypad = { s with systemBlockedLed := true } := by
  unfold alarmDeactivationUpdate
  rw [if_neg (by omega)]

/-- Witness for C3: five failures, the correct code in the buffer and `#` being released. -/
theorem alarmDeactivationUpdate_blocked_witness :
    5 ≤ (stateHashHeld ['1', '8', '0', '5'] 5).numberOfIncorrectCodes ∧
    alarmDeactivationUpdate (stateHashHeld ['1', '8', '0', '5'] 5) keypadIdle =
      { stateHashHeld ['1', '8', '0', '5'] 5 with systemBlockedLed := true } :=
  ⟨by decide, alarmDeactivationUpdate_blocked _ _ (by decide)⟩


theorem consoleDisarms_iff (code : List Char) (inp : TickInput) :
    consoleDisarms code inp = true ↔
      (inp.uartReadable = true ∧ inp.uartRx 0 = '4' ∧
        ∀ i, i < 4 → inp.uartRx (1 + i) = code.getD i NUL) := by
  simp only [consoleDisarms, Bool.and_eq_true, decide_eq_true_eq, List.all_eq_true,
    List.mem_range, NUMBER_OF_KEYS, and_assoc]

/-! ## Frame lemmas for the main loop -/

theorem alarmTriggers_eq (s : State) (mq2 alarmTestButton : Bool) :
    alarmTriggers s mq2 alarmTestButton =
      { s with
        gasDetectorState := s.gasDetectorState || !mq2 || alarmTestButton
        overTempDetectorState :=
          s.overTempDetectorState || s.overTempDetector || alarmTestButton
        alarmState := s.alarmState || !mq2 || s.overTempDetector || alarmTestButton } := by
  obtain ⟨_, _, _, _, _, alarm, _, overTemp, _, _, _, _, _, _, _, _, _, _, _, gas, temp,
    _, _, _, _, _, _, _, _, _, _, _⟩ := s
  cases mq2 <;> cases alarmTestButton <;> cases overTemp <;> cases alarm <;> cases gas <;>
    cases temp <;> rfl

theorem blinkIfDue_frame (s : State) (period : Nat) :
    blinkIfDue s period =
      { s with
        alarmLed := (blinkIfDue s period).alarmLed
        accumulatedTimeAlarm := (blinkIfDue s period).accumulatedTimeAlarm } := by
  cases s
  unfold blinkIfDue
  dsimp only
  split_ifs <;> rfl

theorem alarmDrive_frame (s : State) :
    alarmDrive s =
      { s with
        alarmLed := (alarmDrive s).alarmLed
        sirenPinIsOutput := (alarmDrive s).sirenPinIsOutput
        sirenPinValue := (alarmDrive s).sirenPinValue
        accumulatedTimeAlarm := (alarmDrive s).accumulatedTimeAlarm
        gasDetectorState := (alarmDrive s).gasDetectorState
        overTempDetectorState := (alarmDrive s).overTempDetectorState } := by
  unfold alarmDrive
  by_cases ha : s.alarmState = true
  · rw [if_pos ha]
    dsimp only
    split_ifs
    · rw [blinkIfDue_frame]
    · rw [blinkIfDue_frame]
    · rw [blinkIfDue_frame]
    · rfl
  · rw [if_neg ha]

theorem alarmActivationUpdate_frame (s : State) (reading : ℚ) (mq2 button : Bool) :
    alarmActivationUpdate s reading mq2 button =
      { s with
        alarmLed := (alarmActivationUpdate s reading mq2 button).alarmLed
        sirenPinIsOutput := (alarmActivationUpdate s reading mq2 button).sirenPinIsOutput
        sirenPinValue := (alarmActivationUpdate s reading mq2 button).sirenPinValue
        alarmState := (alarmActivationUpdate s reading mq2 button).alarmState
        overTempDetector := (alarmActivationUpdate s reading mq2 button).overTempDetector
        accumulatedTimeAlarm := (alarmActivationUpdate s reading mq2 button).accumulatedTimeAlarm
        gasDetectorState := (alarmActivationUpdate s reading mq2 button).gasDetectorState
        overTempDetectorState :=
          (alarmActivationUpdate s reading mq2 button).overTempDetectorState
        lm35ReadingsAverage := (alarmActivationUpdate s reading mq2 button).lm35ReadingsAverage
        lm35ReadingsSum := (alarmActivationUpdate s reading mq2 button).lm35ReadingsSum
        lm35ReadingsArray := (alarmActivationUpdate s reading mq2 button).lm35ReadingsArray
        lm35TempC := (alarmActivationUpdate s reading mq2 button).lm35TempC
        lm35SampleIndex := (alarmActivationUpdate s reading mq2 button).lm35SampleIndex } := by
  unfold alarmActivationUpdate
  rw [alarmDrive_frame, alarmTriggers_eq]
  rfl

theorem keypadStoreKey_frame (s : State) (keyReleased : Char) :
    keypadStoreKey s keyReleased =
      { s with
        keyPressed := (keypadStoreKey s keyReleased).keyPressed
        matrixKeypadCodeIndex := (keypadStoreKey s keyReleased).matrixKeypadCodeIndex } := by
  cases s
  unfold keypadStoreKey
  dsimp only
  split_ifs <;> rfl

theorem keypadCheckCode_frame (s : State) (keyReleased : Char) :
    keypadCheckCode s keyReleased =
      { s with
        incorrectCodeLed := (keypadCheckCode s keyReleased).incorrectCodeLed
        alarmState := (keypadCheckCode s keyReleased).alarmState
        numberOfIncorrectCodes := (keypadCheckCode s keyReleased).numberOfIncorrectCodes
        matrixKeypadCodeIndex := (keypadCheckCode s keyReleased).matrixKeypadCodeIndex } := by
  cases s
  unfold keypadCheckCode
  dsimp only
  split_ifs <;> rfl

theorem systemElementStateUpdate_frame (s : State) (lastState currentState : Bool)
    (elementName : String) (now : Nat) :
    systemElementStateUpdate s lastState currentState elementName now =
      { s with
        eventsIndex :=
          (systemElementStateUpdate s lastState currentState elementName now).eventsIndex
        arrayOfStoredEvents :=
          (systemElementStateUpdate s lastState currentState elementName now).arrayOfStoredEvents
      } := by
  cases s
  unfold systemElementStateUpdate
  dsimp only
  split_ifs <;> rfl

theorem alarmDeactivationUpdate_of_blocked (s : State) (keypad : Nat → Nat → Bool)
    (hblocked : 5 ≤ s.numberOfIncorrectCodes) :
    alarmDeactivationUpdate s keypad = { s with systemBlockedLed := true } := by
  unfold alarmDeactivationUpdate
  rw [if_neg (by omega)]

/-! ### The secret and the failure counter along one iteration -/

theorem alarmActivationUpdate_codeSequence (s : State) (reading : ℚ) (mq2 button : Bool) :
    (alarmActivationUpdate s reading mq2 button).codeSequence = s.codeSequence := by
  rw [alarmActivationUpdate_frame]

theorem alarmActivationUpdate_numberOfIncorrectCodes (s : State) (reading : ℚ)
    (mq2 button : Bool) :
    (alarmActivationUpdate s reading mq2 button).numberOfIncorrectCodes =
      s.numberOfIncorrectCodes := by
  rw [alarmActivationUpdate_frame]

theorem alarmDeactivationUpdate_codeSequence (s : State) (keypad : Nat → Nat → Bool) :
    (alarmDeactivationUpdate s keypad).codeSequence = s.codeSequence := by
  unfold alarmDeactivationUpdate
  split_ifs
  · dsimp only
    rw [keypadCheckCode_frame, keypadStoreKey_frame, matrixKeypadUpdate_frame]
  · rfl

theorem uartTask_codeSequence (s : State) (readable : Bool) (rx : Nat → Char) :
    (uartTask s readable rx).1.codeSequence = s.codeSequence := by
  unfold uartTask
  split_ifs
  · dsimp only
    rw [uartEnterCode_fold]
    split_ifs <;> rfl
  all_goals rfl

theorem eventLogFrame_start (s : State) : EventLogFrame s s := by
  unfold EventLogFrame
  rfl

theorem eventLogFrame_record {s x : State} (h : EventLogFrame s x) (lastState currentState : Bool)
    (elementName : String) (now : Nat) :
    EventLogFrame s (systemElementStateUpdate x lastState currentState elementName now) := by
  unfold EventLogFrame at *
  have hx := systemElementStateUpdate_frame x lastState currentState elementName now
  generalize systemElementStateUpdate x lastState currentState elementName now = y at hx ⊢
  rw [hx, h]

theorem eventLogFrame_lastValues {s x : State} {a g t i b : Bool} (h : EventLogFrame s x) :
    EventLogFrame s { x with
      alarmLastState := a, gasLastState := g, tempLastState := t, ICLastState := i,
      SBLastState := b } := by
  unfold EventLogFrame at *
  rw [h]

theorem eventLogUpdate_frame (s : State) (mq2 : Bool) (now : Nat) :
    EventLogFrame s (eventLogUpdate s mq2 now) := by
  unfold eventLogUpdate
  iterate 5
    apply eventLogFrame_lastValues
    apply eventLogFrame_record
  exact eventLogFrame_start s

theorem eventLogUpdate_codeSequence (s : State) (mq2 : Bool) (now : Nat) :
    (eventLogUpdate s mq2 now).codeSequence = s.codeSequence := by
  rw [eventLogUpdate_frame s mq2 now]

theorem eventLogUpdate_numberOfIncorrectCodes (s : State) (mq2 : Bool) (now : Nat) :
    (eventLogUpdate s mq2 now).numberOfIncorrectCodes = s.numberOfIncorrectCodes := by
  rw [eventLogUpdate_frame s mq2 now]

theorem mainLoopTick_codeSequence (s : State) (inp : TickInput) :
    (mainLoopTick s inp).codeSequence = s.codeSequence := by
  unfold mainLoopTick
  dsimp only
  rw [eventLogUpdate_codeSequence, uartTask_codeSequence, alarmDeactivationUpdate_codeSequence,
    alarmActivationUpdate_codeSequence]

theorem uartTask_lockout_kept (s : State) (readable : Bool) (rx : Nat → Char)
    (hblocked : 5 ≤ s.numberOfIncorrectCodes)
    (hno : ¬ (readable = true ∧ rx 0 = '4' ∧
      ∀ i, i < 4 → rx (1 + i) = s.codeSequence.getD i NUL)) :
    5 ≤ (uartTask s readable rx).1.numberOfIncorrectCodes := by
  unfold uartTask
  by_cases hr : readable = true
  · rw [if_pos hr]
    dsimp only
    by_cases hcmd : rx 0 = '4'
    · rw [if_pos hcmd]
      have hcode : ¬ ∀ i, i < 4 → rx (1 + i) = s.codeSequence.getD i NUL :=
        fun h => hno ⟨hr, hcmd, h⟩
      rw [uartEnterCode_incorrect s rx hcode]
      show 5 ≤ s.numberOfIncorrectCodes + 1
      omega
    · rw [if_neg hcmd]
      split_ifs <;> exact hblocked
  · rw [if_neg hr]
    exact hblocked

theorem mainLoopTick_lockout_kept (s : State) (inp : TickInput)
    (hblocked : 5 ≤ s.numberOfIncorrectCodes)
    (hno : consoleDisarms s.codeSequence inp = false) :
    5 ≤ (mainLoopTick s inp).numberOfIncorrectCodes := by
  unfold mainLoopTick
  dsimp only
  rw [eventLogUpdate_numberOfIncorrectCodes]
  apply uartTask_lockout_kept
  · rw [alarmDeactivationUpdate_of_blocked, alarmActivationUpdate_numberOfIncorrectCodes]
    · exact hblocked
    · rw [alarmActivationUpdate_numberOfIncorrectCodes]
      exact hblocked
  · rw [alarmDeactivationUpdate_codeSequence, alarmActivationUpdate_codeSequence]
    intro h
    rw [(consoleDisarms_iff s.codeSequence inp).mpr h] at hno
    exact Bool.noConfusion hno

theorem mainLoopTick_console_disarm (s : State) (inp : TickInput)
    (hyes : consoleDisarms s.codeSequence inp = true) :
    (mainLoopTick s inp).numberOfIncorrectCodes = 0 := by
  have h := (consoleDisarms_iff s.codeSequence inp).mp hyes
  unfold mainLoopTick
  dsimp only
  rw [eventLogUpdate_numberOfIncorrectCodes]
  unfold uartTask
  rw [if_pos h.1]
  dsimp only
  rw [if_pos h.2.1, uartEnterCode_correct]
  rw [alarmDeactivationUpdate_codeSequence, alarmActivationUpdate_codeSequence]
  exact h.2.2

theorem mainLoop_lockout_kept (inputs : List TickInput) (s : State)
    (hblocked : 5 ≤ s.numberOfIncorrectCodes)
    (hno : ∀ inp, inp ∈ inputs → consoleDisarms s.codeSequence inp = false) :
    5 ≤ (mainLoop s inputs).numberOfIncorrectCodes := by
  induction inputs generalizing s with
  | nil => exact hblocked
  | cons inp rest ih =>
    show 5 ≤ (mainLoop (mainLoopTick s inp) rest).numberOfIncorrectCodes
    apply ih
    · exact mainLoopTick_lockout_kept s inp hblocked (hno inp (List.mem_cons_self _ _))
    · intro inp2 hmem
      rw [mainLoopTick_codeSequence]
      exact hno inp2 (List.mem_cons_of_mem _ hmem)

/-! ## Keypad FSM: single steps -/

theorem matrixKeypadUpdate_scanning (s : State) (keypad : Nat → Nat → Bool)
    (hstate : s.matrixKeypadState = MATRIX_KEYPAD_SCANNING) :
    matrixKeypadUpdate s keypad =
      if matrixKeypadScan keypad ≠ NUL then
        (NUL, { s with
          matrixKeypadLastKeyPressed := matrixKeypadScan keypad
          accumulatedDebounceMatrixKeypadTime := 0
          matrixKeypadState := MATRIX_KEYPAD_DEBOUNCE })
      else (NUL, s) := by
  cases s
  dsimp only at hstate
  subst hstate
  rfl

theorem matrixKeypadUpdate_debounce_wait (s : State) (keypad : Nat → Nat → Bool)
    (hstate : s.matrixKeypadState = MATRIX_KEYPAD_DEBOUNCE)
    (hacc : s.accumulatedDebounceMatrixKeypadTime < DEBOUNCE_KEY_TIME_MS) :
    matrixKeypadUpdate s keypad =
      (NUL, { s with
        accumulatedDebounceMatrixKeypadTime :=
          s.accumulatedDebounceMatrixKeypadTime + TIME_INCREMENT_MS }) := by
  cases s
  dsimp only at hstate hacc
  subst hstate
  unfold matrixKeypadUpdate
  dsimp only
  rw [if_neg (by omega)]

theorem matrixKeypadUpdate_debounce_rescan (s : State) (keypad : Nat → Nat → Bool)
    (hstate : s.matrixKeypadState = MATRIX_KEYPAD_DEBOUNCE)
    (hacc : DEBOUNCE_KEY_TIME_MS ≤ s.accumulatedDebounceMatrixKeypadTime) :
    matrixKeypadUpdate s keypad =
      (NUL, { s with
        matrixKeypadState :=
          if matrixKeypadScan keypad = s.matrixKeypadLastKeyPressed then
            MATRIX_KEYPAD_KEY_HOLD_PRESSED
          else MATRIX_KEYPAD_SCANNING
        accumulatedDebounceMatrixKeypadTime :=
          s.accumulatedDebounceMatrixKeypadTime + TIME_INCREMENT_MS }) := by
  cases s
  dsimp only at hstate hacc
  subst hstate
  unfold matrixKeypadUpdate
  dsimp only
  rw [if_pos hacc]
  split_ifs <;> rfl

theorem matrixKeypadUpdate_hold (s : State) (keypad : Nat → Nat → Bool)
    (hstate : s.matrixKeypadState = MATRIX_KEYPAD_KEY_HOLD_PRESSED) :
    matrixKeypadUpdate s keypad =
      if matrixKeypadScan keypad ≠ s.matrixKeypadLastKeyPressed then
        (if matrixKeypadScan keypad = NUL then s.matrixKeypadLastKeyPressed else NUL,
          { s with matrixKeypadState := MATRIX_KEYPAD_SCANNING })
      else (NUL, s) := by
  cases s
  dsimp only at hstate
  subst hstate
  rfl

/-! ## Keypad FSM: runs -/

theorem matrixKeypadRun_append (s : State) (xs ys : List (Nat → Nat → Bool)) :
    matrixKeypadRun s (xs ++ ys) =
      ((matrixKeypadRun s xs).1 ++ (matrixKeypadRun (matrixKeypadRun s xs).2 ys).1,
        (matrixKeypadRun (matrixKeypadRun s xs).2 ys).2) := by
  induction xs generalizing s with
  | nil => rfl
  | cons x xs ih =>
    show ((matrixKeypadUpdate s x).1 ::
        (matrixKeypadRun (matrixKeypadUpdate s x).2 (xs ++ ys)).1,
      (matrixKeypadRun (matrixKeypadUpdate s x).2 (xs ++ ys)).2) = _
    rw [ih]
    rfl

/-- While the debounce time has not reached `DEBOUNCE_KEY_TIME_MS`, each call waits: nothing
is returned, the keypad is not consulted, and 10 ms are added. -/
theorem matrixKeypadRun_debounce_wait (waits : List (Nat → Nat → Bool)) (s : State)
    (hstate : s.matrixKeypadState = MATRIX_KEYPAD_DEBOUNCE)
    (hacc : s.accumulatedDebounceMatrixKeypadTime + TIME_INCREMENT_MS * waits.length ≤
      DEBOUNCE_KEY_TIME_MS) :
    (matrixKeypadRun s waits).1 = List.replicate waits.length NUL ∧
    (matrixKeypadRun s waits).2.matrixKeypadState = MATRIX_KEYPAD_DEBOUNCE ∧
    (matrixKeypadRun s waits).2.matrixKeypadLastKeyPressed = s.matrixKeypadLastKeyPressed ∧
    (matrixKeypadRun s waits).2.accumulatedDebounceMatrixKeypadTime =
      s.accumulatedDebounceMatrixKeypadTime + TIME_INCREMENT_MS * waits.length := by
  induction waits generalizing s with
  | nil => exact ⟨rfl, hstate, rfl, rfl⟩
  | cons w waits ih =>
    have hlen : (w :: waits).length = waits.length + 1 := rfl
    rw [hlen] at hacc ⊢
    have hlt : s.accumulatedDebounceMatrixKeypadTime < DEBOUNCE_KEY_TIME_MS := by
      unfold TIME_INCREMENT_MS at hacc
      omega
    have hstep := matrixKeypadUpdate_debounce_wait s w hstate hlt
    have hrec := ih (matrixKeypadUpdate s w).2 (by rw [hstep]; exact hstate)
      (by rw [hstep]; show s.accumulatedDebounceMatrixKeypadTime + TIME_INCREMENT_MS +
            TIME_INCREMENT_MS * waits.length ≤ DEBOUNCE_KEY_TIME_MS
          rw [Nat.mul_succ] at hacc; omega)
    obtain ⟨h1, h2, h3, h4⟩ := hrec
    refine ⟨?_, h2, ?_, ?_⟩
    · show (matrixKeypadUpdate s w).1 :: (matrixKeypadRun (matrixKeypadUpdate s w).2 waits).1 = _
      rw [h1, hstep]
      rfl
    · show (matrixKeypadRun (matrixKeypadUpdate s w).2 waits).2.matrixKeypadLastKeyPressed = _
      rw [h3, hstep]
    · show (matrixKeypadRun (matrixKeypadUpdate s w).2
        waits).2.accumulatedDebounceMatrixKeypadTime = _
      rw [h4, hstep]
      show s.accumulatedDebounceMatrixKeypadTime + TIME_INCREMENT_MS +
        TIME_INCREMENT_MS * waits.length = _
      rw [Nat.mul_succ]
      omega

/-- While the scan keeps seeing the recorded key, `KEY_HOLD_PRESSED` returns nothing and
nothing changes. -/
theorem matrixKeypadRun_hold (holds : List (Nat → Nat → Bool)) (s : State)
    (hstate : s.matrixKeypadState = MATRIX_KEYPAD_KEY_HOLD_PRESSED)
    (hsame : ∀ keypad, keypad ∈ holds → matrixKeypadScan keypad = s.matrixKeypadLastKeyPressed) :
    matrixKeypadRun s holds = (List.replicate holds.length NUL, s) := by
  induction holds with
  | nil => rfl
  | cons w holds ih =>
    have hstep : matrixKeypadUpdate s w = (NUL, s) := by
      rw [matrixKeypadUpdate_hold s w hstate,
        if_neg (not_not.mpr (hsame w (List.mem_cons_self _ _)))]
    have hrec := ih (fun keypad hmem => hsame keypad (List.mem_cons_of_mem _ hmem))
    show ((matrixKeypadUpdate s w).1 :: (matrixKeypadRun (matrixKeypadUpdate s w).2 holds).1,
      (matrixKeypadRun (matrixKeypadUpdate s w).2 holds).2) = _
    rw [hstep]
    dsimp only
    rw [hrec]
    rfl

/-- From `SCANNING`, a detected key followed by the four waiting calls of `DEBOUNCE`: nothing
is returned and the FSM is in `DEBOUNCE` with the key recorded and 40 ms accumulated. -/
theorem matrixKeypadRun_detect (s : State) (detect : Nat → Nat → Bool)
    (waits : List (Nat → Nat → Bool))
    (hstate : s.matrixKeypadState = MATRIX_KEYPAD_SCANNING)
    (hkey : matrixKeypadScan detect ≠ NUL) (hwaits : waits.length = 4) :
    (matrixKeypadRun s (detect :: waits)).1 = List.replicate 5 NUL ∧
    (matrixKeypadRun s (detect :: waits)).2.matrixKeypadState = MATRIX_KEYPAD_DEBOUNCE ∧
    (matrixKeypadRun s (detect :: waits)).2.matrixKeypadLastKeyPressed =
      matrixKeypadScan detect ∧
    (matrixKeypadRun s (detect :: waits)).2.accumulatedDebounceMatrixKeypadTime =
      DEBOUNCE_KEY_TIME_MS := by
  have hstep : matrixKeypadUpdate s detect =
      (NUL, { s with
        matrixKeypadLastKeyPressed := matrixKeypadScan detect
        accumulatedDebounceMatrixKeypadTime := 0
        matrixKeypadState := MATRIX_KEYPAD_DEBOUNCE }) := by
    rw [matrixKeypadUpdate_scanning s detect hstate, if_pos hkey]
  have hrec := matrixKeypadRun_debounce_wait waits (matrixKeypadUpdate s detect).2
    (by rw [hstep]) (by rw [hstep, hwaits]; exact Nat.le_refl 40)
  obtain ⟨h1, h2, h3, h4⟩ := hrec
  refine ⟨?_, h2, ?_, ?_⟩
  · show (matrixKeypadUpdate s detect).1 ::
      (matrixKeypadRun (matrixKeypadUpdate s detect).2 waits).1 = _
    rw [h1, hstep, hwaits]
    rfl
  · show (matrixKeypadRun (matrixKeypadUpdate s detect).2 waits).2.matrixKeypadLastKeyPressed = _
    rw [h3, hstep]
  · show (matrixKeypadRun (matrixKeypadUpdate s detect).2
      waits).2.accumulatedDebounceMatrixKeypadTime = _
    rw [h4, hstep, hwaits]
    rfl

/-! ## Keypad FSM: one press, one release -/

/-- C5: starting in `SCANNING`, if the scan sees key `k` on the detection call, on the
confirmation rescan (the fifth `DEBOUNCE` call) and on each of the following `holds`
calls in `KEY_HOLD_PRESSED`, and then sees no key, then every call before the last returns
`NUL`, the last call (the first whose scan sees no key) returns `k`, and the FSM is back
in `SCANNING`; this holds for any number of holding calls. -/
theorem matrixKeypadUpdate_single_release (s : State) (k : Char)
    (detect confirm release : Nat → Nat → Bool) (waits holds : List (Nat → Nat → Bool))
    (hstate : s.matrixKeypadState = MATRIX_KEYPAD_SCANNING)
    (hk : k ≠ NUL)
    (hdetect : matrixKeypadScan detect = k)
    (hwaits : waits.length = 4)
    (hconfirm : matrixKeypadScan confirm = k)
    (hholds : ∀ keypad, keypad ∈ holds → matrixKeypadScan keypad = k)
    (hrelease : matrixKeypadScan release = NUL) :
    (matrixKeypadRun s ((detect :: waits) ++ (confirm :: holds) ++ [release])).1 =
      List.replicate (6 + holds.length) NUL ++ [k] ∧
    (matrixKeypadRun s
      ((detect :: waits) ++ (confirm :: holds) ++ [release])).2.matrixKeypadState =
        MATRIX_KEYPAD_SCANNING := by
  obtain ⟨d1, d2, d3, d4⟩ := matrixKeypadRun_detect s detect waits hstate
    (by rw [hdetect]; exact hk) hwaits
  rw [hdetect] at d3
  rw [matrixKeypadRun_append, matrixKeypadRun_append]
  generalize (matrixKeypadRun s (detect :: waits)).2 = s1 at d2 d3 d4 ⊢
  have hc : matrixKeypadUpdate s1 confirm =
      (NUL, { s1 with
        matrixKeypadState := MATRIX_KEYPAD_KEY_HOLD_PRESSED
        accumulatedDebounceMatrixKeypadTime :=
          s1.accumulatedDebounceMatrixKeypadTime + TIME_INCREMENT_MS }) := by
    rw [matrixKeypadUpdate_debounce_rescan s1 confirm d2 (by rw [d4]),
      if_pos (by rw [hconfirm, d3])]
  have hrun2 : matrixKeypadRun s1 (confirm :: holds) =
      (NUL :: List.replicate holds.length NUL, (matrixKeypadUpdate s1 confirm).2) := by
    show ((matrixKeypadUpdate s1 confirm).1 ::
        (matrixKeypadRun (matrixKeypadUpdate s1 confirm).2 holds).1,
      (matrixKeypadRun (matrixKeypadUpdate s1 confirm).2 holds).2) = _
    rw [matrixKeypadRun_hold holds (matrixKeypadUpdate s1 confirm).2 (by rw [hc])
      (by rw [hc]; intro keypad hmem; rw [hholds keypad hmem]; exact d3.symm)]
    rw [hc]
  rw [hrun2]
  dsimp only
  generalize hs2 : (matrixKeypadUpdate s1 confirm).2 = s2
  have e2 : s2.matrixKeypadState = MATRIX_KEYPAD_KEY_HOLD_PRESSED := by rw [← hs2, hc]
  have e3 : s2.matrixKeypadLastKeyPressed = k := by rw [← hs2, hc]; exact d3
  have hr : matrixKeypadUpdate s2 release =
      (k, { s2 with matrixKeypadState := MATRIX_KEYPAD_SCANNING }) := by
    rw [matrixKeypadUpdate_hold s2 release e2, hrelease, e3, if_pos (Ne.symm hk), if_pos rfl]
  have hrun3 : matrixKeypadRun s2 [release] =
      ([k], { s2 with matrixKeypadState := MATRIX_KEYPAD_SCANNING }) := by
    show ((matrixKeypadUpdate s2 release).1 :: [], (matrixKeypadUpdate s2 release).2) = _
    rw [hr]
  rw [hrun3, d1]
  refine ⟨?_, rfl⟩
  show List.replicate 5 NUL ++ NUL :: List.replicate holds.length NUL ++ [k] = _
  rw [show 6 + holds.length = 5 + (holds.length + 1) by omega, List.replicate_add]
  rfl

/-- Witness for C5: key `1` (row 0, column 0) seen on detection, on the rescan and on three
holding calls, then nothing. -/
theorem matrixKeypadUpdate_single_release_witness :
    (matrixKeypadRun initialState
      ((keypadKey 0 0 :: [keypadIdle, keypadIdle, keypadKey 0 0, keypadKey 0 0]) ++
        (keypadKey 0 0 :: [keypadKey 0 0, keypadKey 0 0, keypadKey 0 0]) ++ [keypadIdle])).1 =
      List.replicate (6 + 3) NUL ++ ['1'] ∧
    (matrixKeypadRun initialState
      ((keypadKey 0 0 :: [keypadIdle, keypadIdle, keypadKey 0 0, keypadKey 0 0]) ++
        (keypadKey 0 0 :: [keypadKey 0 0, keypadKey 0 0, keypadKey 0 0]) ++
          [keypadIdle])).2.matrixKeypadState = MATRIX_KEYPAD_SCANNING :=
  matrixKeypadUpdate_single_release initialState '1' (keypadKey 0 0) (keypadKey 0 0) keypadIdle
    [keypadIdle, keypadIdle, keypadKey 0 0, keypadKey 0 0]
    [keypadKey 0 0, keypadKey 0 0, keypadKey 0 0]
    (by decide) (by decide) (by decide) (by decide) (by decide)
    (by intro keypad hmem; simp only [List.mem_cons, List.mem_singleton, List.not_mem_nil,
          or_false] at hmem
        rcases hmem with h | h | h <;> rw [h] <;> decide)
    (by decide)

/-- C6: starting in `SCANNING`, if a key `k` is detected and the confirmation rescan (the
fifth `DEBOUNCE` call) sees anything other than `k`, then every call from the detection call
through the confirmation call returns `NUL` and the FSM is back in `SCANNING`. -/
theorem matrixKeypadUpdate_bounce_rejected (s : State) (k : Char)
    (detect confirm : Nat → Nat → Bool) (waits : List (Nat → Nat → Bool))
    (hstate : s.matrixKeypadState = MATRIX_KEYPAD_SCANNING)
    (hk : k ≠ NUL)
    (hdetect : matrixKeypadScan detect = k)
    (hwaits : waits.length = 4)
    (hconfirm : matrixKeypadScan confirm ≠ k) :
    (matrixKeypadRun s ((detect :: waits) ++ [confirm])).1 = List.replicate 6 NUL ∧
    (matrixKeypadRun s ((detect :: waits) ++ [confirm])).2.matrixKeypadState =
      MATRIX_KEYPAD_SCANNING := by
  obtain ⟨d1, d2, d3, d4⟩ := matrixKeypadRun_detect s detect waits hstate
    (by rw [hdetect]; exact hk) hwaits
  rw [hdetect] at d3
  rw [matrixKeypadRun_append]
  generalize (matrixKeypadRun s (detect :: waits)).2 = s1 at d2 d3 d4 ⊢
  have hc : matrixKeypadUpdate s1 confirm =
      (NUL, { s1 with
        matrixKeypadState := MATRIX_KEYPAD_SCANNING
        accumulatedDebounceMatrixKeypadTime :=
          s1.accumulatedDebounceMatrixKeypadTime + TIME_INCREMENT_MS }) := by
    rw [matrixKeypadUpdate_debounce_rescan s1 confirm d2 (by rw [d4]),
      if_neg (by rw [d3]; exact hconfirm)]
  have hrun : matrixKeypadRun s1 [confirm] =
      ([(matrixKeypadUpdate s1 confirm).1], (matrixKeypadUpdate s1 confirm).2) := rfl
  rw [hrun, hc, d1]
  exact ⟨rfl, rfl⟩

/-- Witness for C6: key `1` is detected and has gone at the confirmation rescan. -/
theorem matrixKeypadUpdate_bounce_rejected_witness :
    (matrixKeypadRun initialState
      ((keypadKey 0 0 :: [keypadKey 0 0, keypadIdle, keypadIdle, keypadIdle]) ++
        [keypadIdle])).1 = List.replicate 6 NUL ∧
    (matrixKeypadRun initialState
      ((keypadKey 0 0 :: [keypadKey 0 0, keypadIdle, keypadIdle, keypadIdle]) ++
        [keypadIdle])).2.matrixKeypadState = MATRIX_KEYPAD_SCANNING :=
  matrixKeypadUpdate_bounce_rejected initialState '1' (keypadKey 0 0) keypadIdle
    [keypadKey 0 0, keypadIdle, keypadIdle, keypadIdle]
    (by decide) (by decide) (by decide) (by decide) (by decide)

/-- C7, counterexample: in `KEY_HOLD_PRESSED` with key `1` recorded, a scan that sees the
different key `2` makes `matrixKeypadUpdate` return `NUL`, not the recorded key `1`. -/
theorem matrixKeypadUpdate_hold_other_key_no_release :
    (stateKeyHeld '1').matrixKeypadState = MATRIX_KEYPAD_KEY_HOLD_PRESSED ∧
    (stateKeyHeld '1').matrixKeypadLastKeyPressed = '1' ∧
    matrixKeypadScan (keypadKey 0 1) = '2' ∧
    (matrixKeypadUpdate (stateKeyHeld '1') (keypadKey 0 1)).1 = NUL ∧
    (matrixKeypadUpdate (stateKeyHeld '1') (keypadKey 0 1)).1 ≠ '1' := by
  decide

/-- C7, amended: in `KEY_HOLD_PRESSED`, a scan result different from the recorded key moves
the FSM to `SCANNING`; the recorded key is returned as the released character when the scan
sees no key, and `NUL` is returned when the scan sees a different key.  While the scan equals
the recorded key, `NUL` is returned and the FSM stays in `KEY_HOLD_PRESSED`. -/
theorem matrixKeypadUpdate_hold_pressed (s : State) (keypad : Nat → Nat → Bool)
    (hstate : s.matrixKeypadState = MATRIX_KEYPAD_KEY_HOLD_PRESSED) :
    (matrixKeypadScan keypad ≠ s.matrixKeypadLastKeyPressed →
      (matrixKeypadUpdate s keypad).2.matrixKeypadState = MATRIX_KEYPAD_SCANNING ∧
      (matrixKeypadScan keypad = NUL →
        (matrixKeypadUpdate s keypad).1 = s.matrixKeypadLastKeyPressed) ∧
      (matrixKeypadScan keypad ≠ NUL → (matrixKeypadUpdate s keypad).1 = NUL)) ∧
    (matrixKeypadScan keypad = s.matrixKeypadLastKeyPressed →
      (matrixKeypadUpdate s keypad).1 = NUL ∧
      (matrixKeypadUpdate s keypad).2.matrixKeypadState = MATRIX_KEYPAD_KEY_HOLD_PRESSED) := by
  rw [matrixKeypadUpdate_hold s keypad hstate]
  constructor
  · intro hne
    rw [if_pos hne]
    refine ⟨rfl, ?_, ?_⟩
    · intro h0
      show (if matrixKeypadScan keypad = NUL then s.matrixKeypadLastKeyPressed else NUL) = _
      rw [if_pos h0]
    · intro h0
      show (if matrixKeypadScan keypad = NUL then s.matrixKeypadLastKeyPressed else NUL) = _
      rw [if_neg h0]
  · intro heq
    rw [if_neg (not_not.mpr heq)]
    exact ⟨rfl, hstate⟩

/-- Witness for the amended C7: key `1` held, then no key seen. -/
theorem matrixKeypadUpdate_hold_pressed_witness :
    (stateKeyHeld '1').matrixKeypadState = MATRIX_KEYPAD_KEY_HOLD_PRESSED ∧
    (matrixKeypadUpdate (stateKeyHeld '1') keypadIdle).2.matrixKeypadState =
      MATRIX_KEYPAD_SCANNING ∧
    (matrixKeypadUpdate (stateKeyHeld '1') keypadIdle).1 = '1' :=
  ⟨by decide,
    ((matrixKeypadUpdate_hold_pressed (stateKeyHeld '1') keypadIdle (by decide)).1
      (by decide)).1,
    ((matrixKeypadUpdate_hold_pressed (stateKeyHeld '1') keypadIdle (by decide)).1
      (by decide)).2.1 (by decide)⟩


/-! ## Frames of the keypad and console tasks -/

theorem alarmDeactivationUpdate_frame (s : State) (keypad : Nat → Nat → Bool) :
    alarmDeactivationUpdate s keypad =
      { s with
        incorrectCodeLed := (alarmDeactivationUpdate s keypad).incorrectCodeLed
        systemBlockedLed := (alarmDeactivationUpdate s keypad).systemBlockedLed
        alarmState := (alarmDeactivationUpdate s keypad).alarmState
        numberOfIncorrectCodes := (alarmDeactivationUpdate s keypad).numberOfIncorrectCodes
        keyPressed := (alarmDeactivationUpdate s keypad).keyPressed
        accumulatedDebounceMatrixKeypadTime :=
          (alarmDeactivationUpdate s keypad).accumulatedDebounceMatrixKeypadTime
        matrixKeypadCodeIndex := (alarmDeactivationUpdate s keypad).matrixKeypadCodeIndex
        matrixKeypadLastKeyPressed :=
          (alarmDeactivationUpdate s keypad).matrixKeypadLastKeyPressed
        matrixKeypadState := (alarmDeactivationUpdate s keypad).matrixKeypadState } := by
  unfold alarmDeactivationUpdate
  by_cases h : s.numberOfIncorrectCodes < 5
  · rw [if_pos h]
    dsimp only
    have h1 := matrixKeypadUpdate_frame s keypad
    generalize matrixKeypadUpdate s keypad = r at h1 ⊢
    have h2 := keypadStoreKey_frame r.2 r.1
    generalize keypadStoreKey r.2 r.1 = x2 at h2 ⊢
    have h3 := keypadCheckCode_frame x2 r.1
    generalize keypadCheckCode x2 r.1 = x3 at h3 ⊢
    rw [h3, h2, h1]
  · rw [if_neg h]

theorem uartTask_frame (s : State) (readable : Bool) (rx : Nat → Char) :
    (uartTask s readable rx).1 =
      { s with
        incorrectCodeLed := (uartTask s readable rx).1.incorrectCodeLed
        alarmState := (uartTask s readable rx).1.alarmState
        incorrectCode := (uartTask s readable rx).1.incorrectCode
        numberOfIncorrectCodes := (uartTask s readable rx).1.numberOfIncorrectCodes
        keyBeingCompared := (uartTask s readable rx).1.keyBeingCompared } := by
  unfold uartTask
  by_cases hr : readable = true
  · rw [if_pos hr]
    dsimp only
    by_cases hcmd : rx 0 = '4'
    · rw [if_pos hcmd]
      dsimp only
      rw [uartEnterCode_fold]
      split_ifs <;> rfl
    · rw [if_neg hcmd]
      split_ifs <;> rfl
  · rw [if_neg hr]

/-! ## Event ring buffer -/

theorem systemElementStateUpdate_changed (s : State) (lastState currentState : Bool)
    (elementName : String) (now : Nat) (hchange : lastState ≠ currentState) :
    systemElementStateUpdate s lastState currentState elementName now =
      { s with
        arrayOfStoredEvents :=
          s.arrayOfStoredEvents.set s.eventsIndex
            ⟨now, elementName ++ (if currentState then "_ON" else "_OFF")⟩
        eventsIndex := if s.eventsIndex < EVENT_MAX_STORAGE - 1 then s.eventsIndex + 1 else 0 } := by
  unfold systemElementStateUpdate
  rw [if_pos hchange]
  dsimp only
  rw [String.empty_append]
  cases currentState <;> split_ifs <;> rfl

theorem systemElementStateUpdate_bounded (s : State) (lastState currentState : Bool)
    (elementName : String) (now : Nat) (h : EventLogBounded s) :
    EventLogBounded (systemElementStateUpdate s lastState currentState elementName now) := by
  by_cases hchange : lastState = currentState
  · unfold systemElementStateUpdate
    rw [if_neg (not_not.mpr hchange)]
    exact h
  · rw [systemElementStateUpdate_changed s lastState currentState elementName now hchange]
    unfold EventLogBounded EVENT_MAX_STORAGE at *
    dsimp only
    refine ⟨?_, ?_⟩
    · split_ifs <;> omega
    · rw [List.length_set]
      exact h.2

theorem eventLogBounded_lastValues {x : State} {a g t i b : Bool} (h : EventLogBounded x) :
    EventLogBounded { x with
      alarmLastState := a, gasLastState := g, tempLastState := t, ICLastState := i,
      SBLastState := b } := h

theorem eventLogUpdate_bounded (s : State) (mq2 : Bool) (now : Nat) (h : EventLogBounded s) :
    EventLogBounded (eventLogUpdate s mq2 now) := by
  unfold eventLogUpdate
  iterate 5
    apply eventLogBounded_lastValues
    apply systemElementStateUpdate_bounded
  exact h

theorem mainLoopTick_bounded (s : State) (inp : TickInput) (h : EventLogBounded s) :
    EventLogBounded (mainLoopTick s inp) := by
  unfold mainLoopTick
  dsimp only
  apply eventLogUpdate_bounded
  rw [uartTask_frame, alarmDeactivationUpdate_frame, alarmActivationUpdate_frame]
  exact h

theorem mainLoop_bounded (inputs : List TickInput) (s : State) (h : EventLogBounded s) :
    EventLogBounded (mainLoop s inputs) := by
  induction inputs generalizing s with
  | nil => exact h
  | cons inp rest ih => exact ih (mainLoopTick s inp) (mainLoopTick_bounded s inp h)

theorem initialState_bounded : EventLogBounded initialState := by
  unfold EventLogBounded
  decide

theorem recordEvents_index (events : List (Bool × String × Nat)) (s : State)
    (h : EventLogBounded s) :
    EventLogBounded (recordEvents s events) ∧
    (recordEvents s events).eventsIndex = (s.eventsIndex + events.length) % EVENT_MAX_STORAGE := by
  induction events generalizing s with
  | nil =>
    refine ⟨h, ?_⟩
    show s.eventsIndex = (s.eventsIndex + 0) % EVENT_MAX_STORAGE
    rw [Nat.add_zero, Nat.mod_eq_of_lt h.1]
  | cons e rest ih =>
    have hb := systemElementStateUpdate_bounded s (!e.1) e.1 e.2.1 e.2.2 h
    have hstep := systemElementStateUpdate_changed s (!e.1) e.1 e.2.1 e.2.2
      (by cases e.1 <;> decide)
    obtain ⟨h1, h2⟩ := ih (systemElementStateUpdate s (!e.1) e.1 e.2.1 e.2.2) hb
    refine ⟨h1, ?_⟩
    show (recordEvents (systemElementStateUpdate s (!e.1) e.1 e.2.1 e.2.2) rest).eventsIndex = _
    rw [h2, hstep]
    dsimp only
    have hlt := h.1
    unfold EVENT_MAX_STORAGE at *
    rw [List.length_cons]
    split_ifs <;> omega

theorem recordEvents_append (s : State) (events : List (Bool × String × Nat))
    (e : Bool × String × Nat) :
    recordEvents s (events ++ [e]) =
      systemElementStateUpdate (recordEvents s events) (!e.1) e.1 e.2.1 e.2.2 := by
  unfold recordEvents
  rw [List.foldl_append]
  rfl

/-- C10: a call of `systemElementStateUpdate` with `lastState != currentState`, in a state
whose cursor and log have the bounds they have in every reachable state, writes the record
`{now, label}` into slot `eventsIndex`, leaves every other slot unchanged and sets
`eventsIndex` to `(eventsIndex + 1) mod 100`.  In every state the main loop reaches from the
initial state the cursor is below 100 (and the log has 100 slots), and after 100 recorded
events from the initial state the cursor is 0 again, so the 101st event is written to slot
0. -/
theorem systemElementStateUpdate_ring_buffer (s : State) (lastState currentState : Bool)
    (elementName : String) (now : Nat)
    (hchange : lastState ≠ currentState)
    (hidx : s.eventsIndex < EVENT_MAX_STORAGE)
    (hlen : s.arrayOfStoredEvents.length = EVENT_MAX_STORAGE) :
    (systemElementStateUpdate s lastState currentState elementName now).arrayOfStoredEvents[
        s.eventsIndex]? =
      some ⟨now, elementName ++ (if currentState then "_ON" else "_OFF")⟩ ∧
    (∀ j, j ≠ s.eventsIndex →
      (systemElementStateUpdate s lastState currentState elementName now).arrayOfStoredEvents[
          j]? = s.arrayOfStoredEvents[j]?) ∧
    (systemElementStateUpdate s lastState currentState elementName now).eventsIndex =
      (s.eventsIndex + 1) % 100 ∧
    (∀ inputs : List TickInput,
      (mainLoop initialState inputs).eventsIndex < 100 ∧
      (mainLoop initialState inputs).arrayOfStoredEvents.length = 100) ∧
    (∀ (events : List (Bool × String × Nat)) (e : Bool × String × Nat),
      events.length = 100 →
        (recordEvents initialState events).eventsIndex = 0 ∧
        (recordEvents initialState (events ++ [e])).arrayOfStoredEvents[0]? =
          some ⟨e.2.2, e.2.1 ++ (if e.1 then "_ON" else "_OFF")⟩) := by
  rw [systemElementStateUpdate_changed s lastState currentState elementName now hchange]
  dsimp only
  unfold EVENT_MAX_STORAGE at hidx hlen
  refine ⟨?_, ?_, ?_, ?_, ?_⟩
  · rw [List.getElem?_set_self (by rw [hlen]; exact hidx)]
  · intro j hj
    rw [List.getElem?_set_ne (Ne.symm hj)]
  · unfold EVENT_MAX_STORAGE
    split_ifs <;> omega
  · intro inputs
    exact mainLoop_bounded inputs initialState initialState_bounded
  · intro events e hevents
    obtain ⟨hb, hi⟩ := recordEvents_index events initialState initialState_bounded
    have hzero : (recordEvents initialState events).eventsIndex = 0 := by
      rw [hi, hevents]
      decide
    refine ⟨hzero, ?_⟩
    rw [recordEvents_append,
      systemElementStateUpdate_changed _ (!e.1) e.1 e.2.1 e.2.2 (by cases e.1 <;> decide)]
    dsimp only
    rw [hzero, List.getElem?_set_self (by rw [hb.2]; decide)]

/-- Witness for C10: the first event recorded in the initial state. -/
theorem systemElementStateUpdate_ring_buffer_witness :
    (systemElementStateUpdate initialState false true "ALARM" 7).arrayOfStoredEvents[
        initialState.eventsIndex]? = some ⟨7, "ALARM" ++ (if true then "_ON" else "_OFF")⟩ ∧
    (systemElementStateUpdate initialState false true "ALARM" 7).eventsIndex =
      (initialState.eventsIndex + 1) % 100 :=
  ⟨(systemElementStateUpdate_ring_buffer initialState false true "ALARM" 7
      (by decide) (by decide) (by decide)).1,
    (systemElementStateUpdate_ring_buffer initialState false true "ALARM" 7
      (by decide) (by decide) (by decide)).2.2.1⟩


/-! ## Sensor filter -/

theorem getD_range_sum (l : List ℚ) :
    (List.range l.length).foldl (fun sum i => sum + l.getD i 0) 0 = l.sum := by
  have hmap : (List.range l.length).map (fun i => l.getD i 0) = l := by
    apply List.ext_getElem
    · simp
    · intro n h1 h2
      simp [List.getElem?_eq_getElem h2]
  have hfold : (List.range l.length).foldl (fun sum i => sum + l.getD i 0) 0 =
      ((List.range l.length).map (fun i => l.getD i 0)).foldl (fun sum x => sum + x) 0 := by
    rw [List.foldl_map]
  rw [hfold, hmap, List.sum_eq_foldl]

theorem set_rotate_succ (l : List ℚ) (i : Nat) (x : ℚ) (hi : i < l.length) :
    (l.set i x).rotate ((i + 1) % l.length) = (l.rotate i).tail ++ [x] := by
  have hset : l.set i x = (l.take i ++ [x]) ++ l.drop (i + 1) := by
    rw [List.set_eq_take_append_cons_drop, if_pos hi]
    simp
  have hlen : (l.take i ++ [x]).length = i + 1 := by
    rw [List.length_append, List.length_take]
    simp
    omega
  have hrot : (l.set i x).rotate (i + 1) = l.drop (i + 1) ++ (l.take i ++ [x]) := by
    have hr := List.rotate_append_length_eq (l.take i ++ [x]) (l.drop (i + 1))
    rw [hlen] at hr
    rw [hset]
    exact hr
  have hmod : (l.set i x).rotate ((i + 1) % l.length) = (l.set i x).rotate (i + 1) := by
    have := List.rotate_mod (l.set i x) (i + 1)
    rw [List.length_set] at this
    exact this
  rw [hmod, hrot, List.rotate_eq_drop_append_take (Nat.le_of_lt hi),
    List.drop_eq_getElem_cons hi, List.cons_append, List.tail_cons, List.append_assoc]

/-- What the filter holds after the samples `xs` have been fed: the buffer has 100 slots, the
cursor is `xs.length mod 100`, and the buffer read from the cursor on is the window of the
last 100 values of the zero-padded sample sequence. -/
theorem lm35Sample_window (xs : List ℚ) (s : State) (x : ℚ)
    (hlen : s.lm35ReadingsArray.length = NUMBER_OF_AVG_SAMPLES)
    (hidx : s.lm35SampleIndex = xs.length % NUMBER_OF_AVG_SAMPLES)
    (hwin : s.lm35ReadingsArray.rotate s.lm35SampleIndex =
      (List.replicate NUMBER_OF_AVG_SAMPLES (0 : ℚ) ++ xs).drop xs.length) :
    (lm35Sample s x).lm35ReadingsArray.length = NUMBER_OF_AVG_SAMPLES ∧
    (lm35Sample s x).lm35SampleIndex = (xs ++ [x]).length % NUMBER_OF_AVG_SAMPLES ∧
    (lm35Sample s x).lm35ReadingsArray.rotate (lm35Sample s x).lm35SampleIndex =
      (List.replicate NUMBER_OF_AVG_SAMPLES (0 : ℚ) ++ (xs ++ [x])).drop (xs ++ [x]).length := by
  unfold NUMBER_OF_AVG_SAMPLES at *
  have hlt : s.lm35SampleIndex < 100 := by rw [hidx]; exact Nat.mod_lt _ (by decide)
  have hidx' : (lm35Sample s x).lm35SampleIndex = (s.lm35SampleIndex + 1) % 100 := by
    show (if s.lm35SampleIndex + 1 ≥ NUMBER_OF_AVG_SAMPLES then 0 else s.lm35SampleIndex + 1) = _
    unfold NUMBER_OF_AVG_SAMPLES
    split_ifs <;> omega
  have harr : (lm35Sample s x).lm35ReadingsArray = s.lm35ReadingsArray.set s.lm35SampleIndex x :=
    rfl
  refine ⟨?_, ?_, ?_⟩
  · rw [harr, List.length_set, hlen]
  · rw [hidx', hidx, List.length_append, List.length_singleton]
    omega
  · rw [hidx', harr]
    have h := set_rotate_succ s.lm35ReadingsArray s.lm35SampleIndex x (by rw [hlen]; exact hlt)
    rw [hlen] at h
    have hpad : (List.replicate 100 (0 : ℚ) ++ (xs ++ [x])).drop (xs.length + 1) =
        (List.replicate 100 (0 : ℚ) ++ xs).drop (xs.length + 1) ++ [x] := by
      rw [← List.append_assoc]
      exact List.drop_append_of_le_length (by simp)
    rw [h, hwin, List.tail_drop, List.length_append, List.length_singleton, hpad]

theorem lm35Sample_average (s : State) (x : ℚ)
    (hlen : s.lm35ReadingsArray.length = NUMBER_OF_AVG_SAMPLES) :
    (lm35Sample s x).lm35ReadingsAverage =
      ((lm35Sample s x).lm35ReadingsArray.rotate (lm35Sample s x).lm35SampleIndex).sum / 100 := by
  have hlen' : (s.lm35ReadingsArray.set s.lm35SampleIndex x).length = NUMBER_OF_AVG_SAMPLES := by
    rw [List.length_set, hlen]
  have hsum : (lm35Sample s x).lm35ReadingsAverage =
      (List.range NUMBER_OF_AVG_SAMPLES).foldl
        (fun sum i => sum + (s.lm35ReadingsArray.set s.lm35SampleIndex x).getD i 0) 0 /
          (NUMBER_OF_AVG_SAMPLES : ℚ) := rfl
  rw [hsum]
  conv_lhs => rw [← hlen']
  rw [getD_range_sum, ((List.rotate_perm _ _).sum_eq)]
  rw [hlen']
  unfold NUMBER_OF_AVG_SAMPLES
  norm_num
  rfl

theorem window_sum (xs : List ℚ) :
    ((List.replicate NUMBER_OF_AVG_SAMPLES (0 : ℚ) ++ xs).drop xs.length).sum =
      (xs.drop (xs.length - min xs.length 100)).sum := by
  unfold NUMBER_OF_AVG_SAMPLES
  rw [List.drop_append_eq_append_drop, List.drop_replicate, List.sum_append,
    List.sum_replicate, List.length_replicate]
  have h : xs.length - min xs.length 100 = xs.length - 100 := by omega
  rw [h]
  simp

theorem alarmActivationUpdate_filter (s : State) (x : ℚ) (mq2 button : Bool) :
    (alarmActivationUpdate s x mq2 button).lm35ReadingsArray = (lm35Sample s x).lm35ReadingsArray ∧
    (alarmActivationUpdate s x mq2 button).lm35SampleIndex = (lm35Sample s x).lm35SampleIndex ∧
    (alarmActivationUpdate s x mq2 button).lm35ReadingsAverage =
      (lm35Sample s x).lm35ReadingsAverage := by
  unfold alarmActivationUpdate
  rw [alarmDrive_frame, alarmTriggers_eq]
  exact ⟨rfl, rfl, rfl⟩

/-- The filter invariant along a run of `alarmActivationUpdate` from a state in which the
samples `xs` have been fed already. -/
theorem alarmActivationRun_window (inputs : List (ℚ × Bool × Bool)) (xs : List ℚ) (s : State)
    (hlen : s.lm35ReadingsArray.length = NUMBER_OF_AVG_SAMPLES)
    (hidx : s.lm35SampleIndex = xs.length % NUMBER_OF_AVG_SAMPLES)
    (hwin : s.lm35ReadingsArray.rotate s.lm35SampleIndex =
      (List.replicate NUMBER_OF_AVG_SAMPLES (0 : ℚ) ++ xs).drop xs.length)
    (havg : s.lm35ReadingsAverage =
      (s.lm35ReadingsArray.rotate s.lm35SampleIndex).sum / 100) :
    (alarmActivationRun s inputs).lm35ReadingsAverage =
      ((List.replicate NUMBER_OF_AVG_SAMPLES (0 : ℚ) ++ (xs ++ inputs.map (fun inp => inp.1))).drop
        (xs ++ inputs.map (fun inp => inp.1)).length).sum / 100 := by
  induction inputs generalizing xs s with
  | nil =>
    show s.lm35ReadingsAverage = _
    rw [havg, hwin, List.map_nil, List.append_nil]
  | cons inp rest ih =>
    obtain ⟨f1, f2, f3⟩ := alarmActivationUpdate_filter s inp.1 inp.2.1 inp.2.2
    obtain ⟨w1, w2, w3⟩ := lm35Sample_window xs s inp.1 hlen hidx hwin
    have hav := lm35Sample_average s inp.1 hlen
    have hrec := ih (xs ++ [inp.1]) (alarmActivationUpdate s inp.1 inp.2.1 inp.2.2)
      (by rw [f1]; exact w1) (by rw [f2]; exact w2) (by rw [f1, f2]; exact w3)
      (by rw [f1, f2, f3]; exact hav)
    show (alarmActivationRun (alarmActivationUpdate s inp.1 inp.2.1 inp.2.2) rest).lm35ReadingsAverage
      = _
    rw [hrec, List.map_cons, List.append_assoc, List.singleton_append]

/-- C9: starting from the zero-filled 100-slot buffer with the write cursor at 0 (the initial
state), after any sequence of `k` samples has been fed through `alarmActivationUpdate`,
`lm35ReadingsAverage` is the sum of the last `min(k, 100)` samples divided by 100; for
`k >= 100` these are exactly the last 100 samples, so the average is their arithmetic mean. -/
theorem lm35ReadingsAverage_last_samples (inputs : List (ℚ × Bool × Bool)) :
    (alarmActivationRun initialState inputs).lm35ReadingsAverage =
      ((inputs.map (fun inp => inp.1)).drop
        (inputs.length - min inputs.length 100)).sum / 100 ∧
    (100 ≤ inputs.length →
      (alarmActivationRun initialState inputs).lm35ReadingsAverage =
        ((inputs.map (fun inp => inp.1)).drop (inputs.length - 100)).sum / 100 ∧
      ((inputs.map (fun inp => inp.1)).drop (inputs.length - 100)).length = 100) := by
  have harr : initialState.lm35ReadingsArray = List.replicate 100 0 := by decide
  have hidx : initialState.lm35SampleIndex = 0 := rfl
  have havg : initialState.lm35ReadingsAverage = 0 := rfl
  have h := alarmActivationRun_window inputs [] initialState (by decide) (by decide)
    (by decide) (by rw [harr, hidx, havg]; simp)
  rw [List.nil_append, window_sum, List.length_map] at h
  refine ⟨h, ?_⟩
  intro hk
  rw [h, List.length_drop, List.length_map, Nat.min_eq_right hk]
  exact ⟨rfl, by omega⟩

/-- Witness for C9: one hundred samples fill the window exactly. -/
theorem lm35ReadingsAverage_last_samples_witness :
    100 ≤ (List.replicate 100 ((1 / 2 : ℚ), true, false)).length ∧
    (alarmActivationRun initialState
      (List.replicate 100 ((1 / 2 : ℚ), true, false))).lm35ReadingsAverage =
        (((List.replicate 100 ((1 / 2 : ℚ), true, false)).map (fun inp => inp.1)).drop
          ((List.replicate 100 ((1 / 2 : ℚ), true, false)).length - 100)).sum / 100 :=
  ⟨by decide,
    ((lm35ReadingsAverage_last_samples (List.replicate 100 ((1 / 2 : ℚ), true, false))).2
      (by decide)).1⟩

/-! ## Blink cadence -/

theorem blinkIfDue_eq (s : State) (period : Nat) :
    (blinkIfDue s period).accumulatedTimeAlarm =
      (if period ≤ s.accumulatedTimeAlarm then 0 else s.accumulatedTimeAlarm) ∧
    (blinkIfDue s period).alarmLed =
      (if period ≤ s.accumulatedTimeAlarm then !s.alarmLed else s.alarmLed) := by
  unfold blinkIfDue
  split_ifs <;> exact ⟨rfl, rfl⟩

/-- One call of `alarmDrive` with the alarm on: the alarm and the sub-flags keep their
values, and the blink timer and the LED follow the branch selected by the sub-flags. -/
theorem alarmDrive_on (t : State) (hon : t.alarmState = true) :
    (alarmDrive t).alarmState = true ∧
    (alarmDrive t).gasDetectorState = t.gasDetectorState ∧
    (alarmDrive t).overTempDetectorState = t.overTempDetectorState ∧
    (t.gasDetectorState = true → t.overTempDetectorState = true →
      (alarmDrive t).accumulatedTimeAlarm =
        (if BLINKING_TIME_GAS_AND_OVER_TEMP_ALARM ≤ t.accumulatedTimeAlarm + TIME_INCREMENT_MS
          then 0 else t.accumulatedTimeAlarm + TIME_INCREMENT_MS) ∧
      (alarmDrive t).alarmLed =
        (if BLINKING_TIME_GAS_AND_OVER_TEMP_ALARM ≤ t.accumulatedTimeAlarm + TIME_INCREMENT_MS
          then !t.alarmLed else t.alarmLed)) ∧
    (t.gasDetectorState = true → t.overTempDetectorState = false →
      (alarmDrive t).accumulatedTimeAlarm =
        (if BLINKING_TIME_GAS_ALARM ≤ t.accumulatedTimeAlarm + TIME_INCREMENT_MS
          then 0 else t.accumulatedTimeAlarm + TIME_INCREMENT_MS) ∧
      (alarmDrive t).alarmLed =
        (if BLINKING_TIME_GAS_ALARM ≤ t.accumulatedTimeAlarm + TIME_INCREMENT_MS
          then !t.alarmLed else t.alarmLed)) ∧
    (t.gasDetectorState = false → t.overTempDetectorState = true →
      (alarmDrive t).accumulatedTimeAlarm =
        (if BLINKING_TIME_OVER_TEMP_ALARM ≤ t.accumulatedTimeAlarm + TIME_INCREMENT_MS
          then 0 else t.accumulatedTimeAlarm + TIME_INCREMENT_MS) ∧
      (alarmDrive t).alarmLed =
        (if BLINKING_TIME_OVER_TEMP_ALARM ≤ t.accumulatedTimeAlarm + TIME_INCREMENT_MS
          then !t.alarmLed else t.alarmLed)) := by
  unfold alarmDrive
  rw [if_pos hon]
  dsimp only
  cases hg : t.gasDetectorState <;> cases ho : t.overTempDetectorState
  · refine ⟨hon, rfl, rfl, ?_, ?_, ?_⟩ <;> intro h1 h2 <;> simp at h1 h2
  · simp only [Bool.false_and, Bool.false_eq_true, if_false, if_true]
    rw [blinkIfDue_frame]
    refine ⟨hon, rfl, rfl, ?_, ?_, ?_⟩
    · intro h1; simp at h1
    · intro h1; simp at h1
    · intro _ _
      exact blinkIfDue_eq _ _
  · simp only [Bool.and_false, Bool.false_eq_true, if_false, if_true]
    rw [blinkIfDue_frame]
    refine ⟨hon, rfl, rfl, ?_, ?_, ?_⟩
    · intro _ h2; simp at h2
    · intro _ _
      exact blinkIfDue_eq _ _
    · intro h1; simp at h1
  · simp only [Bool.and_self, if_true]
    rw [blinkIfDue_frame]
    refine ⟨hon, rfl, rfl, ?_, ?_, ?_⟩
    · intro _ _
      exact blinkIfDue_eq _ _
    · intro _ h2; simp at h2
    · intro h1; simp at h1

theorem alarmTriggers_on (s : State) (mq2 button : Bool) (hon : s.alarmState = true) :
    (alarmTriggers s mq2 button).alarmState = true ∧
    (alarmTriggers s mq2 button).accumulatedTimeAlarm = s.accumulatedTimeAlarm ∧
    (alarmTriggers s mq2 button).alarmLed = s.alarmLed ∧
    (s.gasDetectorState = true → (alarmTriggers s mq2 button).gasDetectorState = true) ∧
    (s.overTempDetectorState = true →
      (alarmTriggers s mq2 button).overTempDetectorState = true) := by
  rw [alarmTriggers_eq]
  dsimp only
  refine ⟨?_, rfl, rfl, ?_, ?_⟩
  · rw [hon]; rfl
  · intro h; rw [h]; rfl
  · intro h; rw [h]; rfl

/-- One call of `alarmActivationUpdate` with the alarm on, in terms of the sub-flags after
the call. -/
theorem alarmActivationUpdate_on (s : State) (x : ℚ) (mq2 button : Bool)
    (hon : s.alarmState = true) (period : Nat)
    (hperiod :
      ((alarmActivationUpdate s x mq2 button).gasDetectorState = true ∧
        (alarmActivationUpdate s x mq2 button).overTempDetectorState = true ∧
        period = BLINKING_TIME_GAS_AND_OVER_TEMP_ALARM) ∨
      ((alarmActivationUpdate s x mq2 button).gasDetectorState = true ∧
        (alarmActivationUpdate s x mq2 button).overTempDetectorState = false ∧
        period = BLINKING_TIME_GAS_ALARM) ∨
      ((alarmActivationUpdate s x mq2 button).gasDetectorState = false ∧
        (alarmActivationUpdate s x mq2 button).overTempDetectorState = true ∧
        period = BLINKING_TIME_OVER_TEMP_ALARM)) :
    (alarmActivationUpdate s x mq2 button).alarmState = true ∧
    (alarmActivationUpdate s x mq2 button).accumulatedTimeAlarm =
      (if period ≤ s.accumulatedTimeAlarm + TIME_INCREMENT_MS then 0
        else s.accumulatedTimeAlarm + TIME_INCREMENT_MS) ∧
    (alarmActivationUpdate s x mq2 button).alarmLed =
      (if period ≤ s.accumulatedTimeAlarm + TIME_INCREMENT_MS then !s.alarmLed
        else s.alarmLed) := by
  unfold alarmActivationUpdate at *
  obtain ⟨t1, t2, t3, -, -⟩ := alarmTriggers_on (lm35Sample s x) mq2 button hon
  have t2' : (alarmTriggers (lm35Sample s x) mq2 button).accumulatedTimeAlarm =
      s.accumulatedTimeAlarm := t2
  have t3' : (alarmTriggers (lm35Sample s x) mq2 button).alarmLed = s.alarmLed := t3
  generalize alarmTriggers (lm35Sample s x) mq2 button = t at *
  obtain ⟨d1, d2, d3, d4, d5, d6⟩ := alarmDrive_on t t1
  rw [d2, d3] at hperiod
  rw [← t2', ← t3']
  rcases hperiod with ⟨hg, ho, hp⟩ | ⟨hg, ho, hp⟩ | ⟨hg, ho, hp⟩
  · rw [hp]; exact ⟨d1, d4 hg ho⟩
  · rw [hp]; exact ⟨d1, d5 hg ho⟩
  · rw [hp]; exact ⟨d1, d6 hg ho⟩

theorem alarmActivationRun_take_succ (s : State) (inputs : List (ℚ × Bool × Bool)) (j : Nat)
    (hj : j < inputs.length) :
    alarmActivationRun s (inputs.take (j + 1)) =
      alarmActivationUpdate (alarmActivationRun s (inputs.take j))
        (inputs.get ⟨j, hj⟩).1 (inputs.get ⟨j, hj⟩).2.1 (inputs.get ⟨j, hj⟩).2.2 := by
  unfold alarmActivationRun
  rw [List.take_succ, List.foldl_append, List.getElem?_eq_getElem hj]
  rfl

theorem next_div_mod (p j : Nat) (hp : 0 < p) :
    (p ≤ j % p + 1 → (j + 1) % p = 0 ∧ (j + 1) / p = j / p + 1) ∧
    (¬ p ≤ j % p + 1 → (j + 1) % p = j % p + 1 ∧ (j + 1) / p = j / p) := by
  have hdm := Nat.div_add_mod j p
  have hlt := Nat.mod_lt j hp
  constructor
  · intro h
    have hj : j + 1 = p * (j / p + 1) := by
      rw [Nat.mul_add, Nat.mul_one]
      omega
    rw [hj]
    exact ⟨Nat.mul_mod_right _ _, Nat.mul_div_cancel_left _ hp⟩
  · intro h
    have hj : j + 1 = p * (j / p) + (j % p + 1) := by omega
    have hr : j % p + 1 < p := by omega
    constructor
    · conv_lhs => rw [hj]
      rw [Nat.mul_add_mod, Nat.mod_eq_of_lt hr]
    · conv_lhs => rw [hj]
      rw [Nat.mul_add_div hp, Nat.div_eq_of_lt hr, Nat.add_zero]

/-- Closed form of the blink timer and the LED along a run in which every call takes the
blink branch with period `10 * p` ms. -/
theorem alarmActivationRun_blink (p : Nat) (hp : 0 < p) (s : State)
    (inputs : List (ℚ × Bool × Bool))
    (hacc : s.accumulatedTimeAlarm = 0)
    (hstep : ∀ j, j < inputs.length →
      (alarmActivationRun s (inputs.take (j + 1))).accumulatedTimeAlarm =
        (if TIME_INCREMENT_MS * p ≤
            (alarmActivationRun s (inputs.take j)).accumulatedTimeAlarm + TIME_INCREMENT_MS
          then 0
          else (alarmActivationRun s (inputs.take j)).accumulatedTimeAlarm + TIME_INCREMENT_MS) ∧
      (alarmActivationRun s (inputs.take (j + 1))).alarmLed =
        (if TIME_INCREMENT_MS * p ≤
            (alarmActivationRun s (inputs.take j)).accumulatedTimeAlarm + TIME_INCREMENT_MS
          then !(alarmActivationRun s (inputs.take j)).alarmLed
          else (alarmActivationRun s (inputs.take j)).alarmLed))
    (j : Nat) (hj : j ≤ inputs.length) :
    (alarmActivationRun s (inputs.take j)).accumulatedTimeAlarm = TIME_INCREMENT_MS * (j % p) ∧
    (alarmActivationRun s (inputs.take j)).alarmLed =
      (if (j / p) % 2 = 0 then s.alarmLed else !s.alarmLed) := by
  induction j with
  | zero =>
    refine ⟨?_, ?_⟩
    · show s.accumulatedTimeAlarm = _
      rw [hacc, Nat.zero_mod, Nat.mul_zero]
    · show s.alarmLed = _
      rw [Nat.zero_div]
      rfl
  | succ j ih =>
    obtain ⟨ia, il⟩ := ih (Nat.le_of_succ_le hj)
    obtain ⟨sa, sl⟩ := hstep j hj
    obtain ⟨n1, n2⟩ := next_div_mod p j hp
    rw [sa, sl, ia, il]
    unfold TIME_INCREMENT_MS
    by_cases hdue : p ≤ j % p + 1
    · obtain ⟨m1, m2⟩ := n1 hdue
      rw [if_pos (by omega), if_pos (by omega), m1, m2]
      refine ⟨rfl, ?_⟩
      by_cases hpar : j / p % 2 = 0
      · rw [if_pos hpar, if_neg (by omega)]
      · rw [if_neg hpar, if_pos (by omega), Bool.not_not]
    · obtain ⟨m1, m2⟩ := n2 hdue
      rw [if_neg (by omega), if_neg (by omega), m1, m2]
      exact ⟨by omega, rfl⟩

theorem alarmActivationUpdate_stays_on (s : State) (x : ℚ) (mq2 button : Bool)
    (hon : s.alarmState = true) :
    (alarmActivationUpdate s x mq2 button).alarmState = true ∧
    (s.gasDetectorState = true →
      (alarmActivationUpdate s x mq2 button).gasDetectorState = true) ∧
    (s.overTempDetectorState = true →
      (alarmActivationUpdate s x mq2 button).overTempDetectorState = true) := by
  unfold alarmActivationUpdate
  obtain ⟨t1, -, -, t4, t5⟩ := alarmTriggers_on (lm35Sample s x) mq2 button hon
  obtain ⟨d1, d2, d3, -⟩ := alarmDrive_on _ t1
  rw [d2, d3]
  exact ⟨d1, t4, t5⟩

theorem alarmActivationRun_stays_on (inputs : List (ℚ × Bool × Bool)) (s : State)
    (hon : s.alarmState = true) :
    (alarmActivationRun s inputs).alarmState = true ∧
    (s.gasDetectorState = true → (alarmActivationRun s inputs).gasDetectorState = true) ∧
    (s.overTempDetectorState = true →
      (alarmActivationRun s inputs).overTempDetectorState = true) := by
  induction inputs generalizing s with
  | nil => exact ⟨hon, id, id⟩
  | cons inp rest ih =>
    obtain ⟨u1, u2, u3⟩ := alarmActivationUpdate_stays_on s inp.1 inp.2.1 inp.2.2 hon
    obtain ⟨r1, r2, r3⟩ := ih (alarmActivationUpdate s inp.1 inp.2.1 inp.2.2) u1
    exact ⟨r1, fun h => r2 (u2 h), fun h => r3 (u3 h)⟩

theorem alarmActivationRun_cadence (p period : Nat) (hp : 0 < p)
    (hperiod : period = TIME_INCREMENT_MS * p) (s : State) (inputs : List (ℚ × Bool × Bool))
    (hon : s.alarmState = true) (hacc : s.accumulatedTimeAlarm = 0)
    (hbranch : ∀ j, j < inputs.length →
      ((alarmActivationRun s (inputs.take (j + 1))).gasDetectorState = true ∧
        (alarmActivationRun s (inputs.take (j + 1))).overTempDetectorState = true ∧
        period = BLINKING_TIME_GAS_AND_OVER_TEMP_ALARM) ∨
      ((alarmActivationRun s (inputs.take (j + 1))).gasDetectorState = true ∧
        (alarmActivationRun s (inputs.take (j + 1))).overTempDetectorState = false ∧
        period = BLINKING_TIME_GAS_ALARM) ∨
      ((alarmActivationRun s (inputs.take (j + 1))).gasDetectorState = false ∧
        (alarmActivationRun s (inputs.take (j + 1))).overTempDetectorState = true ∧
        period = BLINKING_TIME_OVER_TEMP_ALARM))
    (j : Nat) (hj : j ≤ inputs.length) :
    (alarmActivationRun s (inputs.take j)).accumulatedTimeAlarm = TIME_INCREMENT_MS * (j % p) ∧
    (alarmActivationRun s (inputs.take j)).alarmLed =
      (if (j / p) % 2 = 0 then s.alarmLed else !s.alarmLed) := by
  apply alarmActivationRun_blink p hp s inputs hacc _ j hj
  intro i hi
  have hb := hbranch i hi
  rw [alarmActivationRun_take_succ s inputs i hi] at hb ⊢
  have hon_i := (alarmActivationRun_stays_on (inputs.take i) s hon).1
  have h := alarmActivationUpdate_on (alarmActivationRun s (inputs.take i))
    (inputs.get ⟨i, hi⟩).1 (inputs.get ⟨i, hi⟩).2.1 (inputs.get ⟨i, hi⟩).2.2 hon_i period hb
  rw [← hperiod]
  exact h.2

/-- C8: while the alarm is on, starting with `accumulatedTimeAlarm = 0` and with the
sub-flags keeping the values `gas` and `temp` along the run, after `j` calls of
`alarmActivationUpdate` the timer is `10 * (j mod p)` and `alarmLed` has been toggled
`j / p` times, where `p` is 10 calls (100 ms) when both sub-flags are on, 100 calls (1000 ms)
when only `gasDetectorState` is on and 50 calls (500 ms) when only `overTempDetectorState` is
on: the LED toggles on exactly every `p`-th call, the timer is 0 after each toggle, and the
LED does not change on any other call. -/
theorem alarmLed_blink_cadence (s : State) (inputs : List (ℚ × Bool × Bool)) (gas temp : Bool)
    (hon : s.alarmState = true) (hacc : s.accumulatedTimeAlarm = 0)
    (hflags : ∀ j, j ≤ inputs.length →
      (alarmActivationRun s (inputs.take j)).gasDetectorState = gas ∧
      (alarmActivationRun s (inputs.take j)).overTempDetectorState = temp)
    (j : Nat) (hj : j ≤ inputs.length) :
    (gas = true → temp = true →
      (alarmActivationRun s (inputs.take j)).accumulatedTimeAlarm = 10 * (j % 10) ∧
      (alarmActivationRun s (inputs.take j)).alarmLed =
        (if (j / 10) % 2 = 0 then s.alarmLed else !s.alarmLed)) ∧
    (gas = true → temp = false →
      (alarmActivationRun s (inputs.take j)).accumulatedTimeAlarm = 10 * (j % 100) ∧
      (alarmActivationRun s (inputs.take j)).alarmLed =
        (if (j / 100) % 2 = 0 then s.alarmLed else !s.alarmLed)) ∧
    (gas = false → temp = true →
      (alarmActivationRun s (inputs.take j)).accumulatedTimeAlarm = 10 * (j % 50) ∧
      (alarmActivationRun s (inputs.take j)).alarmLed =
        (if (j / 50) % 2 = 0 then s.alarmLed else !s.alarmLed)) := by
  refine ⟨?_, ?_, ?_⟩
  · intro hg ht
    exact alarmActivationRun_cadence 10 BLINKING_TIME_GAS_AND_OVER_TEMP_ALARM (by decide) rfl
      s inputs hon hacc
      (fun i hi => Or.inl ⟨(hflags (i + 1) hi).1.trans hg, (hflags (i + 1) hi).2.trans ht, rfl⟩)
      j hj
  · intro hg ht
    exact alarmActivationRun_cadence 100 BLINKING_TIME_GAS_ALARM (by decide) rfl
      s inputs hon hacc
      (fun i hi => Or.inr (Or.inl
        ⟨(hflags (i + 1) hi).1.trans hg, (hflags (i + 1) hi).2.trans ht, rfl⟩))
      j hj
  · intro hg ht
    exact alarmActivationRun_cadence 50 BLINKING_TIME_OVER_TEMP_ALARM (by decide) rfl
      s inputs hon hacc
      (fun i hi => Or.inr (Or.inr
        ⟨(hflags (i + 1) hi).1.trans hg, (hflags (i + 1) hi).2.trans ht, rfl⟩))
      j hj

/-- Witness for C8: both sub-flags on, ten calls: the timer is back at 0 and the LED has
toggled once. -/
theorem alarmLed_blink_cadence_witness :
    stateBothAlarms.alarmState = true ∧ stateBothAlarms.accumulatedTimeAlarm = 0 ∧
    (alarmActivationRun stateBothAlarms
      ((List.replicate 10 ((0 : ℚ), true, false)).take 10)).accumulatedTimeAlarm
        = 10 * (10 % 10) ∧
    (alarmActivationRun stateBothAlarms
      ((List.replicate 10 ((0 : ℚ), true, false)).take 10)).alarmLed =
        (if (10 / 10) % 2 = 0 then stateBothAlarms.alarmLed else !stateBothAlarms.alarmLed) :=
  ⟨by decide, by decide,
    (alarmLed_blink_cadence stateBothAlarms (List.replicate 10 ((0 : ℚ), true, false))
      true true (by decide) (by decide)
      (fun j _ => ⟨(alarmActivationRun_stays_on _ stateBothAlarms (by decide)).2.1 (by decide),
        (alarmActivationRun_stays_on _ stateBothAlarms (by decide)).2.2 (by decide)⟩)
      10 (by decide)).1 rfl rfl⟩

/-! ## Failed console attempts from the initial state -/

theorem alarmDeactivationUpdate_idle (s : State) (keypad : Nat → Nat → Bool)
    (hstate : s.matrixKeypadState = MATRIX_KEYPAD_SCANNING)
    (hidle : matrixKeypadScan keypad = NUL) :
    (alarmDeactivationUpdate s keypad).numberOfIncorrectCodes = s.numberOfIncorrectCodes ∧
    (alarmDeactivationUpdate s keypad).matrixKeypadState = MATRIX_KEYPAD_SCANNING := by
  unfold alarmDeactivationUpdate
  by_cases h : s.numberOfIncorrectCodes < 5
  · rw [if_pos h]
    dsimp only
    have hstep : matrixKeypadUpdate s keypad = (NUL, s) := by
      rw [matrixKeypadUpdate_scanning s keypad hstate, if_neg (not_not.mpr hidle)]
    rw [hstep]
    dsimp only
    have hstore : keypadStoreKey s NUL = s := by
      unfold keypadStoreKey
      rw [if_neg (fun h => h.1 rfl)]
    have hcheck : keypadCheckCode s NUL = s := by
      unfold keypadCheckCode
      rw [if_neg (by decide)]
    rw [hstore, hcheck]
    exact ⟨rfl, hstate⟩
  · rw [if_neg h]
    exact ⟨rfl, hstate⟩

/-- One iteration with an idle keypad in which the console delivers command `4` and a wrong
code adds one failure. -/
theorem mainLoopTick_console_failure (s : State) (inp : TickInput)
    (hstate : s.matrixKeypadState = MATRIX_KEYPAD_SCANNING)
    (hidle : matrixKeypadScan inp.keypad = NUL)
    (hread : inp.uartReadable = true) (hcmd : inp.uartRx 0 = '4')
    (hwrong : ¬ ∀ i, i < 4 → inp.uartRx (1 + i) = s.codeSequence.getD i NUL) :
    (mainLoopTick s inp).numberOfIncorrectCodes = s.numberOfIncorrectCodes + 1 ∧
    (mainLoopTick s inp).matrixKeypadState = MATRIX_KEYPAD_SCANNING ∧
    (mainLoopTick s inp).codeSequence = s.codeSequence := by
  refine ⟨?_, ?_, mainLoopTick_codeSequence s inp⟩
  all_goals
    unfold mainLoopTick
    dsimp only
    have h1 := alarmActivationUpdate_frame s inp.lm35 inp.mq2 inp.alarmTestButton
    generalize alarmActivationUpdate s inp.lm35 inp.mq2 inp.alarmTestButton = s1 at h1 ⊢
    have hs1 : s1.matrixKeypadState = MATRIX_KEYPAD_SCANNING := by rw [h1]; exact hstate
    have hc1 : s1.codeSequence = s.codeSequence := by rw [h1]
    have hn1 : s1.numberOfIncorrectCodes = s.numberOfIncorrectCodes := by rw [h1]
    obtain ⟨hn2, hs2⟩ := alarmDeactivationUpdate_idle s1 inp.keypad hs1 hidle
    have hc2 := alarmDeactivationUpdate_codeSequence s1 inp.keypad
    generalize alarmDeactivationUpdate s1 inp.keypad = s2 at hn2 hs2 hc2 ⊢
    have hu : (uartTask s2 inp.uartReadable inp.uartRx).1 = uartEnterCode s2 inp.uartRx := by
      unfold uartTask
      rw [if_pos hread]
      dsimp only
      rw [if_pos hcmd]
    rw [eventLogUpdate_frame _ inp.mq2Log inp.now, hu,
      uartEnterCode_incorrect s2 inp.uartRx (by rw [hc2, hc1]; exact hwrong)]
  · show s2.numberOfIncorrectCodes + 1 = _
    rw [hn2, hn1]
  · exact hs2

theorem mainLoop_cons (s : State) (inp : TickInput) (rest : List TickInput) :
    mainLoop s (inp :: rest) = mainLoop (mainLoopTick s inp) rest := rfl

theorem mainLoop_console_failures (n : Nat) (s : State)
    (hstate : s.matrixKeypadState = MATRIX_KEYPAD_SCANNING)
    (hcode : s.codeSequence = ['1', '8', '0', '5']) :
    (mainLoop s (List.replicate n (tickConsole ['4', '0', '0', '0', '0']))).numberOfIncorrectCodes
      = s.numberOfIncorrectCodes + n ∧
    (mainLoop s (List.replicate n (tickConsole ['4', '0', '0', '0', '0']))).codeSequence =
      ['1', '8', '0', '5'] := by
  induction n generalizing s with
  | zero => exact ⟨rfl, hcode⟩
  | succ n ih =>
    obtain ⟨t1, t2, t3⟩ := mainLoopTick_console_failure s (tickConsole ['4', '0', '0', '0', '0'])
      hstate (by decide) (by decide) (by decide) (by rw [hcode]; decide)
    obtain ⟨r1, r2⟩ := ih (mainLoopTick s (tickConsole ['4', '0', '0', '0', '0'])) t2
      (by rw [t3]; exact hcode)
    rw [List.replicate_succ, mainLoop_cons]
    refine ⟨?_, r2⟩
    rw [r1, t1]
    omega

theorem mainLoop_append (s : State) (xs ys : List TickInput) :
    mainLoop s (xs ++ ys) = mainLoop (mainLoop s xs) ys := by
  unfold mainLoop
  rw [List.foldl_append]

/-! ## Lockout -/

/-- An iteration that starts with five or more failures lights `systemBlockedLed`. -/
theorem mainLoopTick_blocked_led (s : State) (inp : TickInput)
    (hblocked : 5 ≤ s.numberOfIncorrectCodes) :
    (mainLoopTick s inp).systemBlockedLed = true := by
  have n := alarmActivationUpdate_numberOfIncorrectCodes s inp.lm35 inp.mq2 inp.alarmTestButton
  unfold mainLoopTick
  dsimp only
  generalize alarmActivationUpdate s inp.lm35 inp.mq2 inp.alarmTestButton = s1 at n ⊢
  have d := alarmDeactivationUpdate_of_blocked s1 inp.keypad (by rw [n]; exact hblocked)
  generalize alarmDeactivationUpdate s1 inp.keypad = s2 at d ⊢
  have u := uartTask_frame s2 inp.uartReadable inp.uartRx
  generalize (uartTask s2 inp.uartReadable inp.uartRx).1 = s3 at u ⊢
  have e := eventLogUpdate_frame s3 inp.mq2Log inp.now
  generalize eventLogUpdate s3 inp.mq2Log inp.now = s4 at e ⊢
  unfold EventLogFrame at e
  rw [e, u, d]

/-- C4, the code at the failing input: from the initial state, five iterations in each of
which the console delivers command `4` and the wrong code `0000` bring the failure counter to
5, the lockout; one more iteration in which the console delivers command `4` and the secret
`1805` resets the counter to 0, so the lockout does not persist, while that same iteration
has lit `systemBlockedLed`, which stays lit. -/
theorem lockout_cleared_by_console_code :
    (mainLoop initialState
      (List.replicate 5 (tickConsole ['4', '0', '0', '0', '0']))).numberOfIncorrectCodes = 5 ∧
    (mainLoop initialState
      (List.replicate 5 (tickConsole ['4', '0', '0', '0', '0']) ++
        [tickConsole ['4', '1', '8', '0', '5']])).numberOfIncorrectCodes = 0 ∧
    ¬ 5 ≤ (mainLoop initialState
      (List.replicate 5 (tickConsole ['4', '0', '0', '0', '0']) ++
        [tickConsole ['4', '1', '8', '0', '5']])).numberOfIncorrectCodes ∧
    (mainLoop initialState
      (List.replicate 5 (tickConsole ['4', '0', '0', '0', '0']) ++
        [tickConsole ['4', '1', '8', '0', '5']])).systemBlockedLed = true := by
  obtain ⟨h1, h2⟩ := mainLoop_console_failures 5 initialState (by decide) (by decide)
  have h3 : (mainLoop initialState
      (List.replicate 5 (tickConsole ['4', '0', '0', '0', '0']) ++
        [tickConsole ['4', '1', '8', '0', '5']])).numberOfIncorrectCodes = 0 := by
    rw [mainLoop_append]
    exact mainLoopTick_console_disarm _ _ (by rw [h2]; decide)
  have h4 : (mainLoop initialState
      (List.replicate 5 (tickConsole ['4', '0', '0', '0', '0']) ++
        [tickConsole ['4', '1', '8', '0', '5']])).systemBlockedLed = true := by
    rw [mainLoop_append]
    exact mainLoopTick_blocked_led _ _ (Nat.le_of_eq h1.symm)
  refine ⟨h1, h3, ?_, h4⟩
  rw [h3]
  decide

/-- The lockout away from that input: once the failure counter has reached 5 it is still 5 or
more after any number of iterations of the main loop in none of which the console delivers
command `4` followed by the four characters of the secret; an iteration in which the console
does deliver them resets the counter to 0. -/
theorem lockout_persists_without_console_code (s : State) (inputs : List TickInput)
    (hblocked : 5 ≤ s.numberOfIncorrectCodes) :
    ((∀ inp, inp ∈ inputs → consoleDisarms s.codeSequence inp = false) →
      5 ≤ (mainLoop s inputs).numberOfIncorrectCodes) ∧
    (∀ inp, consoleDisarms s.codeSequence inp = true →
      (mainLoopTick s inp).numberOfIncorrectCodes = 0) :=
  ⟨mainLoop_lockout_kept inputs s hblocked, fun inp => mainLoopTick_console_disarm s inp⟩

/-- An instance of `lockout_persists_without_console_code`: after five failures, a held `#`
with the right code in the buffer and a further wrong console code leave the counter at 5 or
more. -/
theorem lockout_persists_without_console_code_witness :
    5 ≤ (stateHashHeld ['1', '8', '0', '5'] 5).numberOfIncorrectCodes ∧
    5 ≤ (mainLoop (stateHashHeld ['1', '8', '0', '5'] 5)
      [tickIdle, tickConsole ['4', '1', '8', '0', '6']]).numberOfIncorrectCodes ∧
    (mainLoopTick (stateHashHeld ['1', '8', '0', '5'] 5)
      (tickConsole ['4', '1', '8', '0', '5'])).numberOfIncorrectCodes = 0 :=
  ⟨by decide,
    (lockout_persists_without_console_code (stateHashHeld ['1', '8', '0', '5'] 5)
      [tickIdle, tickConsole ['4', '1', '8', '0', '6']] (by decide)).1 (by decide),
    (lockout_persists_without_console_code (stateHashHeld ['1', '8', '0', '5'] 5)
      [tickIdle, tickConsole ['4', '1', '8', '0', '6']] (by decide)).2 _ (by decide)⟩


/-! ## Edge detection in the event log -/

theorem systemElementStateUpdate_as_record (x : State) (lastState currentState : Bool)
    (elementName : String) (now : Nat) :
    systemElementStateUpdate x lastState currentState elementName now =
      recordEvents x (eventIfChanged lastState currentState elementName now) := by
  unfold eventIfChanged
  by_cases h : lastState = currentState
  · rw [if_neg (not_not.mpr h)]
    unfold systemElementStateUpdate
    rw [if_neg (not_not.mpr h)]
    rfl
  · rw [if_pos h]
    have hl : lastState = !currentState := by
      cases lastState <;> cases currentState <;> simp_all
    rw [hl]
    rfl

theorem systemElementStateUpdate_lastValues (x : State) (a g t i b lastState currentState : Bool)
    (elementName : String) (now : Nat) :
    systemElementStateUpdate
        { x with alarmLastState := a, gasLastState := g, tempLastState := t, ICLastState := i,
                 SBLastState := b } lastState currentState elementName now =
      { systemElementStateUpdate x lastState currentState elementName now with
        alarmLastState := a, gasLastState := g, tempLastState := t, ICLastState := i,
        SBLastState := b } := by
  unfold systemElementStateUpdate
  split_ifs <;> rfl

theorem recordEvents_lastValues (evs : List (Bool × String × Nat)) (x : State)
    (a g t i b : Bool) :
    recordEvents
        { x with alarmLastState := a, gasLastState := g, tempLastState := t, ICLastState := i,
                 SBLastState := b } evs =
      { recordEvents x evs with
        alarmLastState := a, gasLastState := g, tempLastState := t, ICLastState := i,
        SBLastState := b } := by
  induction evs generalizing x with
  | nil => rfl
  | cons e rest ih =>
    show recordEvents (systemElementStateUpdate _ (!e.1) e.1 e.2.1 e.2.2) rest = _
    rw [systemElementStateUpdate_lastValues, ih]
    rfl

theorem recordEvents_frame (evs : List (Bool × String × Nat)) (x : State) :
    recordEvents x evs =
      { x with
        eventsIndex := (recordEvents x evs).eventsIndex
        arrayOfStoredEvents := (recordEvents x evs).arrayOfStoredEvents } := by
  induction evs generalizing x with
  | nil => rfl
  | cons e rest ih =>
    have hk := systemElementStateUpdate_frame x (!e.1) e.1 e.2.1 e.2.2
    have hl := ih (systemElementStateUpdate x (!e.1) e.1 e.2.1 e.2.2)
    have hstep : recordEvents x (e :: rest) =
        recordEvents (systemElementStateUpdate x (!e.1) e.1 e.2.1 e.2.2) rest := rfl
    rw [hstep]
    generalize recordEvents (systemElementStateUpdate x (!e.1) e.1 e.2.1 e.2.2) rest = y at hl ⊢
    generalize systemElementStateUpdate x (!e.1) e.1 e.2.1 e.2.2 = x1 at hk hl
    rw [hl, hk]

theorem recordEvents_concat (s : State) (xs ys : List (Bool × String × Nat)) :
    recordEvents (recordEvents s xs) ys = recordEvents s (xs ++ ys) := by
  unfold recordEvents
  rw [List.foldl_append]

theorem eventLogAfter_start (s : State) :
    EventLogAfter s s [] s.alarmLastState s.gasLastState s.tempLastState s.ICLastState
      s.SBLastState := by
  unfold EventLogAfter
  rfl

/-- One stanza of `eventLogUpdate`: the call of `systemElementStateUpdate` for a signal whose
stored last value is `lastState` and whose current value is `currentState`. -/
theorem eventLogAfter_record {s x : State} {evs : List (Bool × String × Nat)}
    {a g t i b : Bool} (h : EventLogAfter s x evs a g t i b) (lastState currentState : Bool)
    (elementName : String) (now : Nat) :
    EventLogAfter s (systemElementStateUpdate x lastState currentState elementName now)
      (evs ++ eventIfChanged lastState currentState elementName now) a g t i b := by
  unfold EventLogAfter at *
  rw [h, systemElementStateUpdate_as_record, recordEvents_lastValues, recordEvents_concat]

theorem eventLogAfter_lastValues {s x : State} {evs : List (Bool × String × Nat)}
    {a g t i b : Bool} (h : EventLogAfter s x evs a g t i b) (a' g' t' i' b' : Bool) :
    EventLogAfter s
      { x with alarmLastState := a', gasLastState := g', tempLastState := t',
               ICLastState := i', SBLastState := b' } evs a' g' t' i' b' := by
  unfold EventLogAfter at *
  rw [h]

theorem eventLogAfter_signals {s x : State} {evs : List (Bool × String × Nat)}
    {a g t i b : Bool} (h : EventLogAfter s x evs a g t i b) :
    x.alarmState = s.alarmState ∧ x.overTempDetector = s.overTempDetector ∧
    x.incorrectCodeLed = s.incorrectCodeLed ∧ x.systemBlockedLed = s.systemBlockedLed ∧
    x.alarmLastState = a ∧ x.gasLastState = g ∧ x.tempLastState = t ∧ x.ICLastState = i ∧
    x.SBLastState = b := by
  unfold EventLogAfter at h
  have hf := recordEvents_frame evs s
  generalize recordEvents s evs = y at h hf
  rw [h, hf]
  exact ⟨rfl, rfl, rfl, rfl, rfl, rfl, rfl, rfl, rfl⟩

theorem eventLogAfter_set_alarm {s x : State} {evs : List (Bool × String × Nat)}
    {a g t i b : Bool} (h : EventLogAfter s x evs a g t i b) (v : Bool) :
    EventLogAfter s { x with alarmLastState := v } evs v g t i b := by
  unfold EventLogAfter at *
  rw [h]

theorem eventLogAfter_set_gas {s x : State} {evs : List (Bool × String × Nat)}
    {a g t i b : Bool} (h : EventLogAfter s x evs a g t i b) (v : Bool) :
    EventLogAfter s { x with gasLastState := v } evs a v t i b := by
  unfold EventLogAfter at *
  rw [h]

theorem eventLogAfter_set_temp {s x : State} {evs : List (Bool × String × Nat)}
    {a g t i b : Bool} (h : EventLogAfter s x evs a g t i b) (v : Bool) :
    EventLogAfter s { x with tempLastState := v } evs a g v i b := by
  unfold EventLogAfter at *
  rw [h]

theorem eventLogAfter_set_incorrectCode {s x : State} {evs : List (Bool × String × Nat)}
    {a g t i b : Bool} (h : EventLogAfter s x evs a g t i b) (v : Bool) :
    EventLogAfter s { x with ICLastState := v } evs a g t v b := by
  unfold EventLogAfter at *
  rw [h]

theorem eventLogAfter_set_systemBlocked {s x : State} {evs : List (Bool × String × Nat)}
    {a g t i b : Bool} (h : EventLogAfter s x evs a g t i b) (v : Bool) :
    EventLogAfter s { x with SBLastState := v } evs a g t i v := by
  unfold EventLogAfter at *
  rw [h]

/-- The `ALARM` stanza of `eventLogUpdate`. -/
theorem eventLogAfter_alarm {s x : State} {evs : List (Bool × String × Nat)}
    {a g t i b : Bool} (h : EventLogAfter s x evs a g t i b) (now : Nat) :
    EventLogAfter s
      { systemElementStateUpdate x x.alarmLastState x.alarmState "ALARM" now with
        alarmLastState := (systemElementStateUpdate x x.alarmLastState x.alarmState "ALARM" now).alarmState }
      (evs ++ eventIfChanged a s.alarmState "ALARM" now) s.alarmState g t i b := by
  have e1 : x.alarmLastState = a := (eventLogAfter_signals h).2.2.2.2.1
  have e2 : x.alarmState = s.alarmState := (eventLogAfter_signals h).1
  have r := eventLogAfter_record h x.alarmLastState x.alarmState "ALARM" now
  have e3 := (eventLogAfter_signals r).1
  rw [e3]
  rw [e1, e2] at r ⊢
  exact eventLogAfter_set_alarm r s.alarmState

/-- The `GAS_DET` stanza of `eventLogUpdate`. -/
theorem eventLogAfter_gas {s x : State} {evs : List (Bool × String × Nat)}
    {a g t i b : Bool} (h : EventLogAfter s x evs a g t i b) (mq2 : Bool) (now : Nat) :
    EventLogAfter s
      { systemElementStateUpdate x x.gasLastState (!mq2) "GAS_DET" now with
        gasLastState := (!mq2) }
      (evs ++ eventIfChanged g (!mq2) "GAS_DET" now) a (!mq2) t i b := by
  have e1 : x.gasLastState = g := (eventLogAfter_signals h).2.2.2.2.2.1
  have r := eventLogAfter_record h x.gasLastState (!mq2) "GAS_DET" now
  rw [e1] at r ⊢
  exact eventLogAfter_set_gas r (!mq2)

/-- The `OVER_TEMP` stanza of `eventLogUpdate`. -/
theorem eventLogAfter_temp {s x : State} {evs : List (Bool × String × Nat)}
    {a g t i b : Bool} (h : EventLogAfter s x evs a g t i b) (now : Nat) :
    EventLogAfter s
      { systemElementStateUpdate x x.tempLastState x.overTempDetector "OVER_TEMP" now with
        tempLastState := (systemElementStateUpdate x x.tempLastState x.overTempDetector "OVER_TEMP" now).overTempDetector }
      (evs ++ eventIfChanged t s.overTempDetector "OVER_TEMP" now) a g s.overTempDetector i b := by
  have e1 : x.tempLastState = t := (eventLogAfter_signals h).2.2.2.2.2.2.1
  have e2 : x.overTempDetector = s.overTempDetector := (eventLogAfter_signals h).2.1
  have r := eventLogAfter_record h x.tempLastState x.overTempDetector "OVER_TEMP" now
  have e3 := (eventLogAfter_signals r).2.1
  rw [e3]
  rw [e1, e2] at r ⊢
  exact eventLogAfter_set_temp r s.overTempDetector

/-- The `LED_IC` stanza of `eventLogUpdate`. -/
theorem eventLogAfter_incorrectCode {s x : State} {evs : List (Bool × String × Nat)}
    {a g t i b : Bool} (h : EventLogAfter s x evs a g t i b) (now : Nat) :
    EventLogAfter s
      { systemElementStateUpdate x x.ICLastState x.incorrectCodeLed "LED_IC" now with
        ICLastState := (systemElementStateUpdate x x.ICLastState x.incorrectCodeLed "LED_IC" now).incorrectCodeLed }
      (evs ++ eventIfChanged i s.incorrectCodeLed "LED_IC" now) a g t s.incorrectCodeLed b := by
  have e1 : x.ICLastState = i := (eventLogAfter_signals h).2.2.2.2.2.2.2.1
  have e2 : x.incorrectCodeLed = s.incorrectCodeLed := (eventLogAfter_signals h).2.2.1
  have r := eventLogAfter_record h x.ICLastState x.incorrectCodeLed "LED_IC" now
  have e3 := (eventLogAfter_signals r).2.2.1
  rw [e3]
  rw [e1, e2] at r ⊢
  exact eventLogAfter_set_incorrectCode r s.incorrectCodeLed

/-- The `LED_SB` stanza of `eventLogUpdate`. -/
theorem eventLogAfter_systemBlocked {s x : State} {evs : List (Bool × String × Nat)}
    {a g t i b : Bool} (h : EventLogAfter s x evs a g t i b) (now : Nat) :
    EventLogAfter s
      { systemElementStateUpdate x x.SBLastState x.systemBlockedLed "LED_SB" now with
        SBLastState := (systemElementStateUpdate x x.SBLastState x.systemBlockedLed "LED_SB" now).systemBlockedLed }
      (evs ++ eventIfChanged b s.systemBlockedLed "LED_SB" now) a g t i s.systemBlockedLed := by
  have e1 : x.SBLastState = b := (eventLogAfter_signals h).2.2.2.2.2.2.2.2
  have e2 : x.systemBlockedLed = s.systemBlockedLed := (eventLogAfter_signals h).2.2.2.1
  have r := eventLogAfter_record h x.SBLastState x.systemBlockedLed "LED_SB" now
  have e3 := (eventLogAfter_signals r).2.2.2.1
  rw [e3]
  rw [e1, e2] at r ⊢
  exact eventLogAfter_set_systemBlocked r s.systemBlockedLed

/-- One call of `eventLogUpdate` in closed form: the pending events are recorded in order
and every stored last value becomes the current value of its signal. -/
theorem eventLogUpdate_eq (s : State) (mq2 : Bool) (now : Nat) :
    EventLogAfter s (eventLogUpdate s mq2 now) (pendingEvents s mq2 now)
      s.alarmState (!mq2) s.overTempDetector s.incorrectCodeLed s.systemBlockedLed :=
  eventLogAfter_systemBlocked (eventLogAfter_incorrectCode (eventLogAfter_temp
    (eventLogAfter_gas (eventLogAfter_alarm (eventLogAfter_start s) now) mq2 now) now) now) now

theorem eventIfChanged_same (v : Bool) (elementName : String) (now : Nat) :
    eventIfChanged v v elementName now = [] := by
  unfold eventIfChanged
  rw [if_neg (not_not.mpr rfl)]

theorem pendingEvents_settled (x : State) (mq2 : Bool) (now : Nat)
    (ha : x.alarmLastState = x.alarmState) (hg : x.gasLastState = !mq2)
    (ht : x.tempLastState = x.overTempDetector) (hi : x.ICLastState = x.incorrectCodeLed)
    (hb : x.SBLastState = x.systemBlockedLed) :
    pendingEvents x mq2 now = [] := by
  unfold pendingEvents
  rw [ha, hg, ht, hi, hb]
  simp only [eventIfChanged_same, List.append_nil]

theorem eventLogUpdate_settled (x : State) (mq2 : Bool) (now : Nat)
    (ha : x.alarmLastState = x.alarmState) (hg : x.gasLastState = !mq2)
    (ht : x.tempLastState = x.overTempDetector) (hi : x.ICLastState = x.incorrectCodeLed)
    (hb : x.SBLastState = x.systemBlockedLed) :
    eventLogUpdate x mq2 now = x := by
  have h := eventLogUpdate_eq x mq2 now
  rw [pendingEvents_settled x mq2 now ha hg ht hi hb] at h
  unfold EventLogAfter at h
  rw [h, ← ha, ← hg, ← ht, ← hi, ← hb]
  rfl

theorem pendingEvents_length (s : State) (mq2 : Bool) (now : Nat) :
    (pendingEvents s mq2 now).length ≤ 5 := by
  unfold pendingEvents eventIfChanged
  simp only [List.length_append]
  split_ifs <;> simp

theorem pendingEvents_time (s : State) (mq2 : Bool) (now : Nat) (e : Bool × String × Nat)
    (he : e ∈ pendingEvents s mq2 now) : e.2.2 = now := by
  unfold pendingEvents eventIfChanged at he
  simp only [List.mem_append] at he
  rcases he with (((h | h) | h) | h) | h
  all_goals
    split_ifs at h
    · rw [List.mem_singleton] at h
      rw [h]
    · exact absurd h (List.not_mem_nil _)

/-- The slots written by `events.length` successive recorded events, starting at the cursor,
and the slots left alone. -/
theorem recordEvents_slots (events : List (Bool × String × Nat)) (s : State)
    (hb : EventLogBounded s) (hlen : events.length ≤ EVENT_MAX_STORAGE) :
    (∀ (j : Nat) (e : Bool × String × Nat), events[j]? = some e →
      (recordEvents s events).arrayOfStoredEvents[(s.eventsIndex + j) % EVENT_MAX_STORAGE]? =
        some ⟨e.2.2, e.2.1 ++ (if e.1 then "_ON" else "_OFF")⟩) ∧
    (∀ i : Nat, (∀ j, j < events.length → i ≠ (s.eventsIndex + j) % EVENT_MAX_STORAGE) →
      (recordEvents s events).arrayOfStoredEvents[i]? = s.arrayOfStoredEvents[i]?) := by
  induction events generalizing s with
  | nil =>
    refine ⟨?_, ?_⟩
    · intro j e he
      rw [List.getElem?_nil] at he
      exact Option.noConfusion he
    · intro i _
      rfl
  | cons e rest ih =>
    have hb1 := systemElementStateUpdate_bounded s (!e.1) e.1 e.2.1 e.2.2 hb
    have hstep := systemElementStateUpdate_changed s (!e.1) e.1 e.2.1 e.2.2
      (by cases e.1 <;> decide)
    have hrun : recordEvents s (e :: rest) =
        recordEvents (systemElementStateUpdate s (!e.1) e.1 e.2.1 e.2.2) rest := rfl
    have hcur : (systemElementStateUpdate s (!e.1) e.1 e.2.1 e.2.2).eventsIndex =
        (s.eventsIndex + 1) % EVENT_MAX_STORAGE := by
      rw [hstep]
      dsimp only
      have hlt := hb.1
      unfold EVENT_MAX_STORAGE at *
      split_ifs <;> omega
    have harr : (systemElementStateUpdate s (!e.1) e.1 e.2.1 e.2.2).arrayOfStoredEvents =
        s.arrayOfStoredEvents.set s.eventsIndex
          ⟨e.2.2, e.2.1 ++ (if e.1 then "_ON" else "_OFF")⟩ := by
      rw [hstep]
    rw [List.length_cons] at hlen
    obtain ⟨ih1, ih2⟩ := ih (systemElementStateUpdate s (!e.1) e.1 e.2.1 e.2.2) hb1
      (Nat.le_of_succ_le hlen)
    rw [hcur] at ih1 ih2
    have hidx := hb.1
    have hsize := hb.2
    unfold EVENT_MAX_STORAGE at *
    refine ⟨?_, ?_⟩
    · intro j e1 he1
      cases j with
      | zero =>
        rw [List.getElem?_cons_zero] at he1
        cases he1
        rw [hrun, ih2 ((s.eventsIndex + 0) % 100) (by intro j hj; omega), harr]
        have h0 : (s.eventsIndex + 0) % 100 = s.eventsIndex := by omega
        rw [h0, List.getElem?_set_self (by rw [hsize]; exact hidx)]
      | succ j =>
        rw [List.getElem?_cons_succ] at he1
        have h1 := ih1 j e1 he1
        have hmod : ((s.eventsIndex + 1) % 100 + j) % 100 = (s.eventsIndex + (j + 1)) % 100 := by
          omega
        rw [hmod] at h1
        rw [hrun]
        exact h1
    · intro i hi
      have h0 := hi 0 (by rw [List.length_cons]; omega)
      have hne : s.eventsIndex ≠ i := by omega
      rw [hrun, ih2 i (by
        intro j hj
        have := hi (j + 1) (by rw [List.length_cons]; omega)
        omega), harr, List.getElem?_set_ne hne]

/-- C11: in a state whose log has its 100 slots and whose cursor is below 100, one call of
`eventLogUpdate` appends exactly the pending events, that is one record for each of the five
monitored signals whose current value differs from its stored last value, in the order
`ALARM`, `GAS_DET`, `OVER_TEMP`, `LED_IC`, `LED_SB`, and none for an unchanged signal: the
cursor `eventsIndex` advances (modulo 100) by the number of changed signals, the `j`-th
changed signal has its record `{now, name_ON or name_OFF}` in slot `eventsIndex + j`
(modulo 100), and every other slot keeps its content.  Nothing but the log, its cursor and
the stored last values changes.  Afterwards every stored last value equals the current value
of its signal, so an immediately repeated call with the same signal values has nothing
pending and leaves the state (records and `eventsIndex` included) as it is. -/
theorem eventLogUpdate_edge_detection (s : State) (mq2 : Bool) (now later : Nat)
    (hidx : s.eventsIndex < EVENT_MAX_STORAGE)
    (hlen : s.arrayOfStoredEvents.length = EVENT_MAX_STORAGE) :
    (eventLogUpdate s mq2 now).eventsIndex =
      (s.eventsIndex + (pendingEvents s mq2 now).length) % 100 ∧
    (∀ (j : Nat) (e : Bool × String × Nat), (pendingEvents s mq2 now)[j]? = some e →
      (eventLogUpdate s mq2 now).arrayOfStoredEvents[(s.eventsIndex + j) % 100]? =
        some ⟨now, e.2.1 ++ (if e.1 then "_ON" else "_OFF")⟩) ∧
    (∀ i : Nat,
      (∀ j, j < (pendingEvents s mq2 now).length → i ≠ (s.eventsIndex + j) % 100) →
      (eventLogUpdate s mq2 now).arrayOfStoredEvents[i]? = s.arrayOfStoredEvents[i]?) ∧
    (eventLogUpdate s mq2 now).arrayOfStoredEvents.length = 100 ∧
    eventLogUpdate s mq2 now =
      { recordEvents s (pendingEvents s mq2 now) with
        alarmLastState := s.alarmState
        gasLastState := !mq2
        tempLastState := s.overTempDetector
        ICLastState := s.incorrectCodeLed
        SBLastState := s.systemBlockedLed } ∧
    ((eventLogUpdate s mq2 now).alarmLastState = (eventLogUpdate s mq2 now).alarmState ∧
      (eventLogUpdate s mq2 now).gasLastState = (!mq2) ∧
      (eventLogUpdate s mq2 now).tempLastState = (eventLogUpdate s mq2 now).overTempDetector ∧
      (eventLogUpdate s mq2 now).ICLastState = (eventLogUpdate s mq2 now).incorrectCodeLed ∧
      (eventLogUpdate s mq2 now).SBLastState = (eventLogUpdate s mq2 now).systemBlockedLed) ∧
    pendingEvents (eventLogUpdate s mq2 now) mq2 later = [] ∧
    eventLogUpdate (eventLogUpdate s mq2 now) mq2 later = eventLogUpdate s mq2 now ∧
    (eventLogUpdate (eventLogUpdate s mq2 now) mq2 later).arrayOfStoredEvents =
      (eventLogUpdate s mq2 now).arrayOfStoredEvents ∧
    (eventLogUpdate (eventLogUpdate s mq2 now) mq2 later).eventsIndex =
      (eventLogUpdate s mq2 now).eventsIndex := by
  have h := eventLogUpdate_eq s mq2 now
  obtain ⟨c1, c2, c3, c4, l1, l2, l3, l4, l5⟩ := eventLogAfter_signals h
  have ha := l1.trans c1.symm
  have ht := l3.trans c2.symm
  have hi := l4.trans c3.symm
  have hb := l5.trans c4.symm
  have hrep := eventLogUpdate_settled (eventLogUpdate s mq2 now) mq2 later ha l2 ht hi hb
  have hbounded : EventLogBounded s := ⟨hidx, hlen⟩
  have hcursor : (eventLogUpdate s mq2 now).eventsIndex =
      (recordEvents s (pendingEvents s mq2 now)).eventsIndex := by
    have h2 := h
    unfold EventLogAfter at h2
    rw [h2]
  have hlog : (eventLogUpdate s mq2 now).arrayOfStoredEvents =
      (recordEvents s (pendingEvents s mq2 now)).arrayOfStoredEvents := by
    have h2 := h
    unfold EventLogAfter at h2
    rw [h2]
  obtain ⟨r1, r2⟩ := recordEvents_index (pendingEvents s mq2 now) s hbounded
  obtain ⟨w1, w2⟩ := recordEvents_slots (pendingEvents s mq2 now) s hbounded
    (Nat.le_trans (pendingEvents_length s mq2 now) (by decide))
  refine ⟨hcursor.trans r2, ?_, ?_, ?_, h, ⟨ha, l2, ht, hi, hb⟩,
    pendingEvents_settled (eventLogUpdate s mq2 now) mq2 later ha l2 ht hi hb, hrep,
    by rw [hrep], by rw [hrep]⟩
  · intro j e he
    have hslot := w1 j e he
    rw [pendingEvents_time s mq2 now e (List.mem_iff_getElem?.mpr ⟨j, he⟩)] at hslot
    rw [hlog]
    exact hslot
  · intro i hfree
    rw [hlog]
    exact w2 i hfree
  · rw [hlog]
    exact r1.2

/-- Witness for C11: the alarm and the gas signal have gone on since the last call (the
over-temperature flag and the two LEDs have not changed): two records are appended, in slots
0 and 1, and slot 2 is left as it was. -/
theorem eventLogUpdate_edge_detection_witness :
    pendingEvents stateGasAlarm false 7 = [(true, "ALARM", 7), (true, "GAS_DET", 7)] ∧
    (eventLogUpdate stateGasAlarm false 7).eventsIndex = 2 ∧
    (eventLogUpdate stateGasAlarm false 7).arrayOfStoredEvents[0]? = some ⟨7, "ALARM_ON"⟩ ∧
    (eventLogUpdate stateGasAlarm false 7).arrayOfStoredEvents[1]? = some ⟨7, "GAS_DET_ON"⟩ ∧
    (eventLogUpdate stateGasAlarm false 7).arrayOfStoredEvents[2]? =
      stateGasAlarm.arrayOfStoredEvents[2]? ∧
    (eventLogUpdate (eventLogUpdate stateGasAlarm false 7) false 8).eventsIndex =
      (eventLogUpdate stateGasAlarm false 7).eventsIndex :=
  have h := eventLogUpdate_edge_detection stateGasAlarm false 7 8 (by decide) (by decide)
  ⟨by decide, h.1, h.2.1 0 (true, "ALARM", 7) (by decide),
    h.2.1 1 (true, "GAS_DET", 7) (by decide), h.2.2.1 2 (by decide),
    h.2.2.2.2.2.2.2.2.2⟩


/-! ## Sub-flags and the alarm state -/

theorem alarmDrive_alarmState (t : State) : (alarmDrive t).alarmState = t.alarmState := by
  rw [alarmDrive_frame]

theorem alarmTriggers_flags (s : State) (mq2 button : Bool) :
    (s.gasDetectorState = true → (alarmTriggers s mq2 button).gasDetectorState = true) ∧
    (s.overTempDetectorState = true →
      (alarmTriggers s mq2 button).overTempDetectorState = true) ∧
    ((alarmTriggers s mq2 button).alarmState = true →
      s.alarmState = true ∨ (alarmTriggers s mq2 button).gasDetectorState = true ∨
        (alarmTriggers s mq2 button).overTempDetectorState = true) := by
  rw [alarmTriggers_eq]
  dsimp only
  refine ⟨?_, ?_, ?_⟩
  · intro h; rw [h]; rfl
  · intro h; rw [h]; rfl
  · cases s.alarmState <;> cases mq2 <;> cases s.overTempDetector <;> cases button <;> simp

/-- C19: for every call of `alarmActivationUpdate` that ends with the alarm on, a sub-flag
that was on before the call is still on after it, whatever the gas sensor, the temperature
and the test button read; so a sub-flag that was on and is off after the call was switched
off by a call that ends with the alarm off. -/
theorem alarmActivationUpdate_subflags_sticky (s : State) (reading : ℚ) (mq2 button : Bool) :
    ((alarmActivationUpdate s reading mq2 button).alarmState = true →
      (s.gasDetectorState = true →
        (alarmActivationUpdate s reading mq2 button).gasDetectorState = true) ∧
      (s.overTempDetectorState = true →
        (alarmActivationUpdate s reading mq2 button).overTempDetectorState = true)) ∧
    (s.gasDetectorState = true →
      (alarmActivationUpdate s reading mq2 button).gasDetectorState = false →
        (alarmActivationUpdate s reading mq2 button).alarmState = false) ∧
    (s.overTempDetectorState = true →
      (alarmActivationUpdate s reading mq2 button).overTempDetectorState = false →
        (alarmActivationUpdate s reading mq2 button).alarmState = false) := by
  have key : (alarmActivationUpdate s reading mq2 button).alarmState = true →
      (s.gasDetectorState = true →
        (alarmActivationUpdate s reading mq2 button).gasDetectorState = true) ∧
      (s.overTempDetectorState = true →
        (alarmActivationUpdate s reading mq2 button).overTempDetectorState = true) := by
    unfold alarmActivationUpdate
    intro hon
    rw [alarmDrive_alarmState] at hon
    obtain ⟨-, d2, d3, -⟩ := alarmDrive_on _ hon
    obtain ⟨t1, t2, -⟩ := alarmTriggers_flags (lm35Sample s reading) mq2 button
    rw [d2, d3]
    exact ⟨t1, t2⟩
  refine ⟨key, ?_, ?_⟩
  · intro hg hoff
    cases hal : (alarmActivationUpdate s reading mq2 button).alarmState
    · rfl
    · rw [(key hal).1 hg] at hoff
      exact absurd hoff (by decide)
  · intro ht hoff
    cases hal : (alarmActivationUpdate s reading mq2 button).alarmState
    · rfl
    · rw [(key hal).2 ht] at hoff
      exact absurd hoff (by decide)

/-- Witness for C19: gas flag on, alarm on, and a call in which the gas sensor, the
temperature and the test button are all inactive. -/
theorem alarmActivationUpdate_subflags_sticky_witness :
    stateGasAlarm.gasDetectorState = true ∧
    (alarmActivationUpdate stateGasAlarm 0 true false).alarmState = true ∧
    (alarmActivationUpdate stateGasAlarm 0 true false).gasDetectorState = true :=
  ⟨by decide, (alarmActivationUpdate_stays_on stateGasAlarm 0 true false (by decide)).1,
    ((alarmActivationUpdate_subflags_sticky stateGasAlarm 0 true false).1
      (alarmActivationUpdate_stays_on stateGasAlarm 0 true false (by decide)).1).1 (by decide)⟩

/-- Console command `5` reads four characters and stores none of them: only the loop counter
`keyBeingCompared` changes, and five characters are consumed. -/
theorem uartTask_new_code (s : State) (rx : Nat → Char) (hcmd : rx 0 = '5') :
    uartTask s true rx = ({ s with keyBeingCompared := NUMBER_OF_KEYS }, 1 + NUMBER_OF_KEYS) := by
  unfold uartTask
  rw [if_pos rfl]
  dsimp only
  rw [if_neg (by rw [hcmd]; decide), if_pos hcmd]

theorem uartTask_enter_code_flag (s : State) (rx : Nat → Char) (hcmd : rx 0 = '4') :
    (uartTask s true rx).1.incorrectCode = false ↔
      ∀ i, i < 4 → rx (1 + i) = s.codeSequence.getD i NUL := by
  have hrun : (uartTask s true rx).1 = uartEnterCode s rx := by
    unfold uartTask
    rw [if_pos rfl]
    dsimp only
    rw [if_pos hcmd]
  rw [hrun]
  by_cases hcode : ∀ i, i < 4 → rx (1 + i) = s.codeSequence.getD i NUL
  · rw [uartEnterCode_correct s rx hcode]
    exact ⟨fun _ => hcode, fun _ => rfl⟩
  · rw [uartEnterCode_incorrect s rx hcode]
    exact ⟨fun h => Bool.noConfusion h, fun h => absurd h hcode⟩

/-- Where the checked store is defined it is the store of `keypadStoreKey`. -/
theorem keypadStoreKeyChecked_eq (s t : State) (keyReleased : Char)
    (h : keypadStoreKeyChecked s keyReleased = some t) : t = keypadStoreKey s keyReleased := by
  unfold keypadStoreKeyChecked at h
  split_ifs at h with h1 h2
  · exact (Option.some.inj h).symm
  · rw [← Option.some.inj h]
    unfold keypadStoreKey
    rw [if_neg h1]

/-- Where the checked call is defined it is the call of `alarmDeactivationUpdate`. -/
theorem alarmDeactivationUpdateChecked_eq (s t : State) (keypad : Nat → Nat → Bool)
    (h : alarmDeactivationUpdateChecked s keypad = some t) :
    t = alarmDeactivationUpdate s keypad := by
  unfold alarmDeactivationUpdateChecked at h
  unfold alarmDeactivationUpdate
  by_cases hc : s.numberOfIncorrectCodes < 5
  · rw [if_pos hc] at h ⊢
    dsimp only at h ⊢
    cases hstore : keypadStoreKeyChecked (matrixKeypadUpdate s keypad).2
        (matrixKeypadUpdate s keypad).1 with
    | none =>
      rw [hstore] at h
      exact Option.noConfusion h
    | some u =>
      rw [hstore] at h
      rw [← keypadStoreKeyChecked_eq _ u _ hstore]
      exact (Option.some.inj h).symm
  · rw [if_neg hc] at h ⊢
    exact (Option.some.inj h).symm

/-- A checked run that is defined is the run of `alarmDeactivationRun`, and it leaves the
secret as it is. -/
theorem alarmDeactivationRunChecked_eq (keypads : List (Nat → Nat → Bool)) (s t : State)
    (h : alarmDeactivationRunChecked s keypads = some t) :
    t = alarmDeactivationRun s keypads ∧ t.codeSequence = s.codeSequence := by
  induction keypads generalizing s with
  | nil =>
    have ht : s = t := Option.some.inj h
    rw [← ht]
    exact ⟨rfl, rfl⟩
  | cons keypad rest ih =>
    unfold alarmDeactivationRunChecked at h
    cases hstep : alarmDeactivationUpdateChecked s keypad with
    | none =>
      rw [hstep] at h
      exact Option.noConfusion h
    | some u =>
      rw [hstep] at h
      have hu := alarmDeactivationUpdateChecked_eq s u keypad hstep
      obtain ⟨h1, h2⟩ := ih u h
      rw [hu] at h1 h2
      rw [alarmDeactivationUpdate_codeSequence] at h2
      exact ⟨h1, h2⟩

/-! ## Debounce timing -/

theorem matrixKeypadRun_debounce_blind (waits others : List (Nat → Nat → Bool)) (s : State)
    (hlen : others.length = waits.length)
    (hstate : s.matrixKeypadState = MATRIX_KEYPAD_DEBOUNCE)
    (hacc : s.accumulatedDebounceMatrixKeypadTime + TIME_INCREMENT_MS * waits.length ≤
      DEBOUNCE_KEY_TIME_MS) :
    matrixKeypadRun s others = matrixKeypadRun s waits := by
  induction waits generalizing s others with
  | nil =>
    cases others with
    | nil => rfl
    | cons o os => exact absurd hlen (by simp)
  | cons w waits ih =>
    cases others with
    | nil => exact absurd hlen (by simp)
    | cons o os =>
      have hl : os.length = waits.length := by simpa using hlen
      have hlen2 : (w :: waits).length = waits.length + 1 := rfl
      rw [hlen2, Nat.mul_succ] at hacc
      have hlt : s.accumulatedDebounceMatrixKeypadTime < DEBOUNCE_KEY_TIME_MS := by
        unfold TIME_INCREMENT_MS at hacc
        omega
      have hw := matrixKeypadUpdate_debounce_wait s w hstate hlt
      have ho := matrixKeypadUpdate_debounce_wait s o hstate hlt
      have hrec := ih os (matrixKeypadUpdate s w).2 hl (by rw [hw]; exact hstate)
        (by rw [hw]
            show s.accumulatedDebounceMatrixKeypadTime + TIME_INCREMENT_MS +
              TIME_INCREMENT_MS * waits.length ≤ DEBOUNCE_KEY_TIME_MS
            omega)
      show ((matrixKeypadUpdate s o).1 :: (matrixKeypadRun (matrixKeypadUpdate s o).2 os).1,
          (matrixKeypadRun (matrixKeypadUpdate s o).2 os).2) =
        ((matrixKeypadUpdate s w).1 :: (matrixKeypadRun (matrixKeypadUpdate s w).2 waits).1,
          (matrixKeypadRun (matrixKeypadUpdate s w).2 waits).2)
      rw [ho, ← hw, hrec]

/-- C18: after `SCANNING` detects a key (the key is recorded, the debounce time is reset to 0
and the state is `DEBOUNCE`), each of the next four calls returns `NUL`, stays in `DEBOUNCE`
and adds 10 to the debounce time, without consulting the keypad (any other keypad readings
give the same result); the fifth `DEBOUNCE` call, entered with a debounce time of 40,
rescans: it returns `NUL`, also adds 10, and moves to `KEY_HOLD_PRESSED` if and only if the
scan equals the recorded key and to `SCANNING` otherwise. -/
theorem matrixKeypadUpdate_debounce_timing (s : State) (detect confirm : Nat → Nat → Bool)
    (waits : List (Nat → Nat → Bool))
    (hstate : s.matrixKeypadState = MATRIX_KEYPAD_SCANNING)
    (hkey : matrixKeypadScan detect ≠ NUL) (hwaits : waits.length = 4) :
    ((matrixKeypadUpdate s detect).2.matrixKeypadState = MATRIX_KEYPAD_DEBOUNCE ∧
      (matrixKeypadUpdate s detect).2.accumulatedDebounceMatrixKeypadTime = 0 ∧
      (matrixKeypadUpdate s detect).2.matrixKeypadLastKeyPressed = matrixKeypadScan detect) ∧
    (∀ n, n ≤ 4 →
      (matrixKeypadRun (matrixKeypadUpdate s detect).2 (waits.take n)).1 =
        List.replicate n NUL ∧
      (matrixKeypadRun (matrixKeypadUpdate s detect).2 (waits.take n)).2.matrixKeypadState =
        MATRIX_KEYPAD_DEBOUNCE ∧
      (matrixKeypadRun (matrixKeypadUpdate s detect).2
        (waits.take n)).2.accumulatedDebounceMatrixKeypadTime = 10 * n ∧
      (matrixKeypadRun (matrixKeypadUpdate s detect).2
        (waits.take n)).2.matrixKeypadLastKeyPressed = matrixKeypadScan detect) ∧
    (∀ others : List (Nat → Nat → Bool), others.length = 4 →
      matrixKeypadRun (matrixKeypadUpdate s detect).2 others =
        matrixKeypadRun (matrixKeypadUpdate s detect).2 waits) ∧
    (matrixKeypadUpdate (matrixKeypadRun (matrixKeypadUpdate s detect).2 waits).2 confirm).1 =
      NUL ∧
    (matrixKeypadUpdate (matrixKeypadRun (matrixKeypadUpdate s detect).2 waits).2
      confirm).2.accumulatedDebounceMatrixKeypadTime = 50 ∧
    ((matrixKeypadUpdate (matrixKeypadRun (matrixKeypadUpdate s detect).2 waits).2
        confirm).2.matrixKeypadState = MATRIX_KEYPAD_KEY_HOLD_PRESSED ↔
      matrixKeypadScan confirm = matrixKeypadScan detect) ∧
    ((matrixKeypadUpdate (matrixKeypadRun (matrixKeypadUpdate s detect).2 waits).2
        confirm).2.matrixKeypadState = MATRIX_KEYPAD_SCANNING ↔
      matrixKeypadScan confirm ≠ matrixKeypadScan detect) := by
  have hstep : matrixKeypadUpdate s detect =
      (NUL, { s with
        matrixKeypadLastKeyPressed := matrixKeypadScan detect
        accumulatedDebounceMatrixKeypadTime := 0
        matrixKeypadState := MATRIX_KEYPAD_DEBOUNCE }) := by
    rw [matrixKeypadUpdate_scanning s detect hstate, if_pos hkey]
  have e1 : (matrixKeypadUpdate s detect).2.matrixKeypadState = MATRIX_KEYPAD_DEBOUNCE := by
    rw [hstep]
  have e2 : (matrixKeypadUpdate s detect).2.accumulatedDebounceMatrixKeypadTime = 0 := by
    rw [hstep]
  have e3 : (matrixKeypadUpdate s detect).2.matrixKeypadLastKeyPressed =
      matrixKeypadScan detect := by
    rw [hstep]
  generalize (matrixKeypadUpdate s detect).2 = s0 at e1 e2 e3 ⊢
  have hprefix : ∀ n, n ≤ 4 →
      (matrixKeypadRun s0 (waits.take n)).1 = List.replicate n NUL ∧
      (matrixKeypadRun s0 (waits.take n)).2.matrixKeypadState = MATRIX_KEYPAD_DEBOUNCE ∧
      (matrixKeypadRun s0 (waits.take n)).2.accumulatedDebounceMatrixKeypadTime = 10 * n ∧
      (matrixKeypadRun s0 (waits.take n)).2.matrixKeypadLastKeyPressed =
        matrixKeypadScan detect := by
    intro n hn
    have hl : (waits.take n).length = n := by
      rw [List.length_take, hwaits]
      omega
    obtain ⟨w1, w2, w3, w4⟩ := matrixKeypadRun_debounce_wait (waits.take n) s0 e1
      (by rw [hl, e2]; unfold TIME_INCREMENT_MS DEBOUNCE_KEY_TIME_MS; omega)
    rw [hl] at w1 w4
    refine ⟨w1, w2, ?_, w3.trans e3⟩
    rw [w4, e2]
    unfold TIME_INCREMENT_MS
    omega
  have hfull : waits.take 4 = waits := by
    rw [← hwaits, List.take_length]
  obtain ⟨-, f2, f3, f4⟩ := hprefix 4 (Nat.le_refl 4)
  rw [hfull] at f2 f3 f4
  refine ⟨⟨e1, e2, e3⟩, hprefix, ?_, ?_⟩
  · intro others hothers
    exact matrixKeypadRun_debounce_blind waits others s0 (by rw [hothers, hwaits]) e1
      (by rw [hwaits, e2]; decide)
  · generalize (matrixKeypadRun s0 waits).2 = s4 at f2 f3 f4 ⊢
    rw [matrixKeypadUpdate_debounce_rescan s4 confirm f2 (by rw [f3]; decide)]
    dsimp only
    rw [f3, f4]
    refine ⟨rfl, rfl, ?_, ?_⟩
    · by_cases h : matrixKeypadScan confirm = matrixKeypadScan detect
      · rw [if_pos h]; exact ⟨fun _ => h, fun _ => rfl⟩
      · rw [if_neg h]
        exact ⟨fun hc => matrixKeypadState_t.noConfusion hc, fun hc => absurd hc h⟩
    · by_cases h : matrixKeypadScan confirm = matrixKeypadScan detect
      · rw [if_pos h]
        exact ⟨fun hc => matrixKeypadState_t.noConfusion hc, fun hc => absurd h hc⟩
      · rw [if_neg h]; exact ⟨fun _ => h, fun _ => rfl⟩

/-- Witness for C18: key `1` detected in the initial state, then confirmed. -/
theorem matrixKeypadUpdate_debounce_timing_witness :
    initialState.matrixKeypadState = MATRIX_KEYPAD_SCANNING ∧
    (matrixKeypadUpdate (matrixKeypadRun (matrixKeypadUpdate initialState (keypadKey 0 0)).2
        [keypadIdle, keypadKey 0 1, keypadIdle, keypadKey 0 0]).2
      (keypadKey 0 0)).2.matrixKeypadState = MATRIX_KEYPAD_KEY_HOLD_PRESSED ∧
    (matrixKeypadUpdate (matrixKeypadRun (matrixKeypadUpdate initialState (keypadKey 0 0)).2
        [keypadIdle, keypadKey 0 1, keypadIdle, keypadKey 0 0]).2
      (keypadKey 0 0)).2.accumulatedDebounceMatrixKeypadTime = 50 :=
  ⟨by decide,
    (matrixKeypadUpdate_debounce_timing initialState (keypadKey 0 0) (keypadKey 0 0)
      [keypadIdle, keypadKey 0 1, keypadIdle, keypadKey 0 0]
      (by decide) (by decide) (by decide)).2.2.2.2.2.1.mpr (by decide),
    (matrixKeypadUpdate_debounce_timing initialState (keypadKey 0 0) (keypadKey 0 0)
      [keypadIdle, keypadKey 0 1, keypadIdle, keypadKey 0 0]
      (by decide) (by decide) (by decide)).2.2.2.2.1⟩


/-! ## Keypad scan -/

theorem findSome?_range_none {α : Type} (g : Nat → Option α) (n : Nat)
    (h : ∀ i, i < n → g i = none) : (List.range n).findSome? g = none := by
  rw [List.findSome?_eq_none_iff]
  intro i hi
  exact h i (List.mem_range.mp hi)

theorem findSome?_range_first {α : Type} (g : Nat → Option α) (n k : Nat) (v : α)
    (hk : k < n) (hbefore : ∀ i, i < k → g i = none) (hat : g k = some v) :
    (List.range n).findSome? g = some v := by
  induction n with
  | zero => exact absurd hk (Nat.not_lt_zero k)
  | succ n ih =>
    rw [List.range_succ, List.findSome?_append]
    by_cases hkn : k < n
    · rw [ih hkn]
      rfl
    · have hkeq : k = n := by omega
      subst hkeq
      rw [findSome?_range_none g k hbefore]
      show (List.findSome? g [k]) = some v
      rw [List.findSome?_cons, hat]

theorem matrixKeypadIndexToCharArray_nonNull (i : Nat) (hi : i < 16) :
    matrixKeypadIndexToCharArray.getD i NUL ≠ NUL := by
  interval_cases i <;> decide

/-- C16: with the keypad given as a 4x4 matrix of pressed keys, `matrixKeypadScan` returns
`NUL` when no key is pressed, and for the first pressed key `(r, c)` in row-major order it
returns `matrixKeypadIndexToCharArray[4 * r + c]`, whatever other keys are pressed after it;
the index `4 * r + c` lies within the 16 entries of the key map (and the entry is not
`NUL`). -/
theorem matrixKeypadScan_first_pressed (keypad : Nat → Nat → Bool) :
    ((∀ r c, r < 4 → c < 4 → keypad r c = false) → matrixKeypadScan keypad = NUL) ∧
    (∀ r c, r < 4 → c < 4 → keypad r c = true →
      (∀ r' c', r' < 4 → c' < 4 → (r' < r ∨ (r' = r ∧ c' < c)) → keypad r' c' = false) →
        matrixKeypadScan keypad = matrixKeypadIndexToCharArray.getD (4 * r + c) NUL ∧
        4 * r + c < matrixKeypadIndexToCharArray.length ∧
        matrixKeypadScan keypad ≠ NUL) := by
  constructor
  · intro hnone
    unfold matrixKeypadScan KEYPAD_NUMBER_OF_ROWS KEYPAD_NUMBER_OF_COLS
    rw [findSome?_range_none _ 4 (fun r hr => findSome?_range_none _ 4 (fun c hc => by
      rw [hnone r c hr hc]
      rfl))]
  · intro r c hr hc hpressed hfirst
    have hscan : matrixKeypadScan keypad =
        matrixKeypadIndexToCharArray.getD (4 * r + c) NUL := by
      unfold matrixKeypadScan KEYPAD_NUMBER_OF_ROWS KEYPAD_NUMBER_OF_COLS
      rw [findSome?_range_first _ 4 r (matrixKeypadIndexToCharArray.getD (r * 4 + c) NUL) hr
        (fun i hi => findSome?_range_none _ 4 (fun j hj => by
          rw [hfirst i j (by omega) hj (Or.inl hi)]
          rfl))
        (findSome?_range_first _ 4 c _ hc
          (fun j hj => by
            rw [hfirst r j hr (by omega) (Or.inr ⟨rfl, hj⟩)]
            rfl)
          (by rw [hpressed]; rfl))]
      dsimp only
      rw [Nat.mul_comm r 4]
    have hidx : 4 * r + c < 16 := by omega
    refine ⟨hscan, hidx, ?_⟩
    rw [hscan]
    exact matrixKeypadIndexToCharArray_nonNull _ hidx

/-- Witness for C16: keys `6` (row 1, column 2) and `7` (row 2, column 0) pressed together:
the scan reports `6` only. -/
theorem matrixKeypadScan_first_pressed_witness :
    keypadTwoKeys 1 2 = true ∧ keypadTwoKeys 2 0 = true ∧
    matrixKeypadScan keypadTwoKeys = matrixKeypadIndexToCharArray.getD (4 * 1 + 2) NUL ∧
    matrixKeypadIndexToCharArray.getD (4 * 1 + 2) NUL = '6' :=
  ⟨by decide, by decide,
    ((matrixKeypadScan_first_pressed keypadTwoKeys).2 1 2 (by decide) (by decide) (by decide)
      (by
        intro r' c' hr' hc' h
        interval_cases r' <;> interval_cases c' <;> first | rfl | omega)).1,
    by decide⟩


/-! ## Behaviour at the inputs where the code departs from the specification -/

/-- C13, the code at the failing input: after the keys `1`, `2`, `3`, `4` have been released
in the initial state, the code buffer holds them and `matrixKeypadCodeIndex` is 4, which is
not an index of the 4-element array `keyPressed`; with the key `5` held the index is still 4
and the next call releases `5`, so the fifth key is stored at index 4, and slot 0 still
holds the first key afterwards. -/
theorem keyPressed_fifth_key_past_end :
    (alarmDeactivationRun initialState
      (keyPressRelease 0 0 ++ keyPressRelease 0 1 ++ keyPressRelease 0 2 ++
        keyPressRelease 1 0)).keyPressed = ['1', '2', '3', '4'] ∧
    (alarmDeactivationRun initialState
      (keyPressRelease 0 0 ++ keyPressRelease 0 1 ++ keyPressRelease 0 2 ++
        keyPressRelease 1 0 ++ List.replicate 6 (keypadKey 1 1))).matrixKeypadCodeIndex = 4 ∧
    ¬ (alarmDeactivationRun initialState
      (keyPressRelease 0 0 ++ keyPressRelease 0 1 ++ keyPressRelease 0 2 ++
        keyPressRelease 1 0 ++ List.replicate 6 (keypadKey 1 1))).matrixKeypadCodeIndex <
      (alarmDeactivationRun initialState
        (keyPressRelease 0 0 ++ keyPressRelease 0 1 ++ keyPressRelease 0 2 ++
          keyPressRelease 1 0 ++ List.replicate 6 (keypadKey 1 1))).keyPressed.length ∧
    (matrixKeypadUpdate (alarmDeactivationRun initialState
      (keyPressRelease 0 0 ++ keyPressRelease 0 1 ++ keyPressRelease 0 2 ++
        keyPressRelease 1 0 ++ List.replicate 6 (keypadKey 1 1))) keypadIdle).1 = '5' ∧
    (alarmDeactivationRun initialState
      (keyPressRelease 0 0 ++ keyPressRelease 0 1 ++ keyPressRelease 0 2 ++
        keyPressRelease 1 0 ++ keyPressRelease 1 1)).keyPressed.getD 0 NUL = '1' ∧
    (alarmDeactivationRun initialState
      (keyPressRelease 0 0 ++ keyPressRelease 0 1 ++ keyPressRelease 0 2 ++
        keyPressRelease 1 0 ++ keyPressRelease 1 1)).matrixKeypadCodeIndex = 0 := by
  set_option maxRecDepth 100000 in decide

/-- C14, the code at the failing input: after `n` events have been recorded from the initial
state, command `e` prints `n mod 100` records; after the 100 events of `hundredEvents` the
cursor is 0 and the command prints nothing, although slots 0 and 99 (like all slots between)
hold recorded events. -/
theorem uartTask_events_dump_after_wrap (events : List (Bool × String × Nat)) :
    (uartTaskPrintedEvents (recordEvents initialState events) true (rxOf ['e'])).length =
      events.length % 100 ∧
    hundredEvents.length = 100 ∧
    (recordEvents initialState hundredEvents).eventsIndex = 0 ∧
    uartTaskPrintedEvents (recordEvents initialState hundredEvents) true (rxOf ['e']) = [] ∧
    (recordEvents initialState hundredEvents).arrayOfStoredEvents.getD 0 ⟨0, ""⟩ =
      ⟨0, "GAS_DET_ON"⟩ ∧
    (recordEvents initialState hundredEvents).arrayOfStoredEvents.getD 99 ⟨0, ""⟩ =
      ⟨99, "GAS_DET_OFF"⟩ := by
  have hcount : ∀ evs : List (Bool × String × Nat),
      (uartTaskPrintedEvents (recordEvents initialState evs) true (rxOf ['e'])).length =
        evs.length % 100 := by
    intro evs
    unfold uartTaskPrintedEvents
    rw [if_pos rfl, if_pos (by decide), List.length_map, List.length_range,
      (recordEvents_index evs initialState initialState_bounded).2]
    show (0 + evs.length) % 100 = _
    rw [Nat.zero_add]
  have hlen : hundredEvents.length = 100 := by
    unfold hundredEvents
    rw [List.length_map, List.length_range]
  have hidx : (recordEvents initialState hundredEvents).eventsIndex = 0 := by
    rw [(recordEvents_index hundredEvents initialState initialState_bounded).2, hlen]
    rfl
  refine ⟨hcount events, hlen, hidx, ?_, ?_, ?_⟩
  · have h := hcount hundredEvents
    rw [hlen] at h
    exact List.eq_nil_of_length_eq_zero h
  · set_option maxRecDepth 100000 in decide
  · set_option maxRecDepth 100000 in decide

/-- C17, the code at the failing input: with the alarm on and no failure so far, the keys
`0`, `0`, `0`, `0`, `#`, `1`, `8`, `0`, `5`, `#` are released one after the other.  After the
first `#` one failure is counted and `matrixKeypadCodeIndex` is still 4; the retyped `1` is
stored at index 4, the buffer ends as `8`, `0`, `5`, `0`, the comparison at the second `#`
fails, the alarm stays on and two failures are counted. -/
theorem retyped_code_rejected :
    (alarmDeactivationRun stateGasAlarm
      (keyPressRelease 3 1 ++ keyPressRelease 3 1 ++ keyPressRelease 3 1 ++ keyPressRelease 3 1 ++
        keyPressRelease 3 2)).numberOfIncorrectCodes = 1 ∧
    (alarmDeactivationRun stateGasAlarm
      (keyPressRelease 3 1 ++ keyPressRelease 3 1 ++ keyPressRelease 3 1 ++ keyPressRelease 3 1 ++
        keyPressRelease 3 2)).matrixKeypadCodeIndex = 4 ∧
    (alarmDeactivationRun stateGasAlarm
      (keyPressRelease 3 1 ++ keyPressRelease 3 1 ++ keyPressRelease 3 1 ++ keyPressRelease 3 1 ++
        keyPressRelease 3 2 ++ keyPressRelease 0 0 ++ keyPressRelease 2 1 ++
        keyPressRelease 3 1 ++ keyPressRelease 1 1)).keyPressed = ['8', '0', '5', '0'] ∧
    areEqual (alarmDeactivationRun stateGasAlarm
      (keyPressRelease 3 1 ++ keyPressRelease 3 1 ++ keyPressRelease 3 1 ++ keyPressRelease 3 1 ++
        keyPressRelease 3 2 ++ keyPressRelease 0 0 ++ keyPressRelease 2 1 ++
        keyPressRelease 3 1 ++ keyPressRelease 1 1)) = false ∧
    (alarmDeactivationRun stateGasAlarm
      (keyPressRelease 3 1 ++ keyPressRelease 3 1 ++ keyPressRelease 3 1 ++ keyPressRelease 3 1 ++
        keyPressRelease 3 2 ++ keyPressRelease 0 0 ++ keyPressRelease 2 1 ++
        keyPressRelease 3 1 ++ keyPressRelease 1 1 ++ keyPressRelease 3 2)).alarmState = true ∧
    (alarmDeactivationRun stateGasAlarm
      (keyPressRelease 3 1 ++ keyPressRelease 3 1 ++ keyPressRelease 3 1 ++ keyPressRelease 3 1 ++
        keyPressRelease 3 2 ++ keyPressRelease 0 0 ++ keyPressRelease 2 1 ++
        keyPressRelease 3 1 ++ keyPressRelease 1 1 ++
        keyPressRelease 3 2)).numberOfIncorrectCodes = 2 := by
  set_option maxRecDepth 100000 in decide


/-- C15, the code at the failing input: after the keys `1`, `2`, `3`, `4` have been released
in the initial state every store was made inside `keyPressed` and the secret is `1805`, but
`matrixKeypadCodeIndex` is `NUMBER_OF_KEYS`.  The key `5` is then held and released: the call
that sees the release stores it at index 4, outside the four elements of `keyPressed`, where
the behaviour of the source is undefined, so from that call on the code guarantees nothing
about the objects stored next to `keyPressed`, the secret `codeSequence` among them.  As long
as every store is made inside the array the secret is kept, and console command `5` with any
four characters keeps the secret, `alarmState` and `numberOfIncorrectCodes`. -/
theorem codeSequence_exposed_to_store_past_end :
    (alarmDeactivationRunChecked initialState
      (keyPressRelease 0 0 ++ keyPressRelease 0 1 ++ keyPressRelease 0 2 ++
        keyPressRelease 1 0)).isSome = true ∧
    (alarmDeactivationRun initialState
      (keyPressRelease 0 0 ++ keyPressRelease 0 1 ++ keyPressRelease 0 2 ++
        keyPressRelease 1 0)).codeSequence = ['1', '8', '0', '5'] ∧
    (alarmDeactivationRun initialState
      (keyPressRelease 0 0 ++ keyPressRelease 0 1 ++ keyPressRelease 0 2 ++
        keyPressRelease 1 0 ++ List.replicate 6 (keypadKey 1 1))).numberOfIncorrectCodes < 5 ∧
    (alarmDeactivationRunChecked initialState
      (keyPressRelease 0 0 ++ keyPressRelease 0 1 ++ keyPressRelease 0 2 ++
        keyPressRelease 1 0 ++ List.replicate 6 (keypadKey 1 1))).isSome = true ∧
    keypadStoreKeyChecked
      (matrixKeypadUpdate (alarmDeactivationRun initialState
        (keyPressRelease 0 0 ++ keyPressRelease 0 1 ++ keyPressRelease 0 2 ++
          keyPressRelease 1 0 ++ List.replicate 6 (keypadKey 1 1))) keypadIdle).2 '5' = none ∧
    alarmDeactivationUpdateChecked (alarmDeactivationRun initialState
      (keyPressRelease 0 0 ++ keyPressRelease 0 1 ++ keyPressRelease 0 2 ++
        keyPressRelease 1 0 ++ List.replicate 6 (keypadKey 1 1))) keypadIdle = none ∧
    alarmDeactivationRunChecked initialState
      (keyPressRelease 0 0 ++ keyPressRelease 0 1 ++ keyPressRelease 0 2 ++
        keyPressRelease 1 0 ++ keyPressRelease 1 1) = none ∧
    (∀ (keypads : List (Nat → Nat → Bool)) (t : State),
      alarmDeactivationRunChecked initialState keypads = some t →
        t.codeSequence = ['1', '8', '0', '5']) ∧
    (∀ (s : State) (rx : Nat → Char), rx 0 = '5' →
      (uartTask s true rx).1.codeSequence = s.codeSequence ∧
      (uartTask s true rx).1.alarmState = s.alarmState ∧
      (uartTask s true rx).1.numberOfIncorrectCodes = s.numberOfIncorrectCodes ∧
      (uartTask s true rx).2 = 1 + 4) := by
  refine ⟨?_, ?_, ?_, ?_, ?_, ?_, ?_, ?_, ?_⟩
  · set_option maxRecDepth 100000 in decide
  · set_option maxRecDepth 100000 in decide
  · set_option maxRecDepth 100000 in decide
  · set_option maxRecDepth 100000 in decide
  · set_option maxRecDepth 100000 in decide
  · set_option maxRecDepth 100000 in decide
  · set_option maxRecDepth 100000 in decide
  · intro keypads t h
    rw [(alarmDeactivationRunChecked_eq keypads initialState t h).2]
    decide
  · intro s rx hcmd
    rw [uartTask_new_code s rx hcmd]
    exact ⟨rfl, rfl, rfl, rfl⟩


/-! ## The gas scenario -/

theorem alarmDeactivationUpdate_quiet (s : State) (keypad : Nat → Nat → Bool)
    (hstate : s.matrixKeypadState = MATRIX_KEYPAD_SCANNING)
    (hidle : matrixKeypadScan keypad = NUL) (hcount : s.numberOfIncorrectCodes < 5) :
    alarmDeactivationUpdate s keypad = s := by
  unfold alarmDeactivationUpdate
  rw [if_pos hcount]
  dsimp only
  have hstep : matrixKeypadUpdate s keypad = (NUL, s) := by
    rw [matrixKeypadUpdate_scanning s keypad hstate, if_neg (not_not.mpr hidle)]
  rw [hstep]
  dsimp only
  have hstore : keypadStoreKey s NUL = s := by
    unfold keypadStoreKey
    rw [if_neg (fun h => h.1 rfl)]
  have hcheck : keypadCheckCode s NUL = s := by
    unfold keypadCheckCode
    rw [if_neg (by decide)]
  rw [hstore, hcheck]

theorem uartTask_silent (s : State) (rx : Nat → Char) : uartTask s false rx = (s, 0) := rfl

/-- One call of `alarmActivationUpdate` with the gas sensor asserted, the test button
inactive, no over-temperature and the blink period of gas alone not yet reached. -/
theorem alarmActivationUpdate_gas_only (s : State) (x : ℚ)
    (htemp : (lm35Sample s x).overTempDetector = false)
    (hflag : s.overTempDetectorState = false)
    (hacc : s.accumulatedTimeAlarm + TIME_INCREMENT_MS < BLINKING_TIME_GAS_ALARM) :
    alarmActivationUpdate s x false false = afterGasActivation s x := by
  have hflag2 : (lm35Sample s x).overTempDetectorState = false := hflag
  have hacc2 : (lm35Sample s x).accumulatedTimeAlarm + TIME_INCREMENT_MS <
      BLINKING_TIME_GAS_ALARM := hacc
  show alarmDrive (alarmTriggers (lm35Sample s x) false false) =
    { lm35Sample s x with
      gasDetectorState := true
      alarmState := true
      accumulatedTimeAlarm := (lm35Sample s x).accumulatedTimeAlarm + TIME_INCREMENT_MS
      sirenPinIsOutput := true
      sirenPinValue := false }
  generalize lm35Sample s x = L at htemp hflag2 hacc2 ⊢
  rw [alarmTriggers_eq]
  cases L
  dsimp only at htemp hflag2 hacc2
  subst htemp hflag2
  unfold alarmDrive blinkIfDue
  simp [Nat.not_le.mpr hacc2]

theorem mainLoopTick_gas (s : State) (inp : TickInput) (hg : GasTick inp)
    (hstate : s.matrixKeypadState = MATRIX_KEYPAD_SCANNING)
    (hcount : s.numberOfIncorrectCodes < 5)
    (hflag : s.overTempDetectorState = false)
    (hacc : s.accumulatedTimeAlarm + TIME_INCREMENT_MS < BLINKING_TIME_GAS_ALARM)
    (htemp : (lm35Sample s inp.lm35).overTempDetector = false) :
    mainLoopTick s inp = eventLogUpdate (afterGasActivation s inp.lm35) false inp.now := by
  obtain ⟨g1, g2, g3, g4, g5⟩ := hg
  unfold mainLoopTick
  dsimp only
  rw [g1, g2, g3, g5, alarmActivationUpdate_gas_only s inp.lm35 htemp hflag hacc,
    alarmDeactivationUpdate_quiet (afterGasActivation s inp.lm35) inp.keypad hstate g4 hcount,
    uartTask_silent]

theorem recordEvents_first_two (y : State) (e1 e2 : Bool × String × Nat)
    (hidx : y.eventsIndex = 0)
    (harr : y.arrayOfStoredEvents = List.replicate 100 ⟨0, ""⟩) :
    (recordEvents y [e1, e2]).eventsIndex = 2 ∧
    (recordEvents y [e1, e2]).arrayOfStoredEvents =
      ⟨e1.2.2, e1.2.1 ++ (if e1.1 then "_ON" else "_OFF")⟩ ::
        ⟨e2.2.2, e2.2.1 ++ (if e2.1 then "_ON" else "_OFF")⟩ :: List.replicate 98 ⟨0, ""⟩ := by
  have h : recordEvents y [e1, e2] =
      systemElementStateUpdate (systemElementStateUpdate y (!e1.1) e1.1 e1.2.1 e1.2.2)
        (!e2.1) e2.1 e2.2.1 e2.2.2 := rfl
  rw [h, systemElementStateUpdate_changed _ (!e2.1) e2.1 _ _ (by cases e2.1 <;> decide),
    systemElementStateUpdate_changed _ (!e1.1) e1.1 _ _ (by cases e1.1 <;> decide)]
  dsimp only
  rw [hidx, harr]
  exact ⟨rfl, rfl⟩

/-- The first iteration of the gas scenario. -/
theorem mainLoopTick_gas_first (inp : TickInput) (hg : GasTick inp)
    (htemp : (lm35Sample initialState inp.lm35).overTempDetector = false) :
    GasAlarmRunning (mainLoopTick initialState inp) inp.now 1 := by
  rw [mainLoopTick_gas initialState inp hg rfl (by decide) rfl (by decide) htemp]
  have hlog := eventLogUpdate_eq (afterGasActivation initialState inp.lm35) false inp.now
  have hpending : pendingEvents (afterGasActivation initialState inp.lm35) false inp.now =
      [(true, "ALARM", inp.now), (true, "GAS_DET", inp.now)] := by
    unfold pendingEvents
    rw [show (afterGasActivation initialState inp.lm35).overTempDetector = false from htemp]
    rfl
  obtain ⟨r1, r2⟩ := recordEvents_first_two (afterGasActivation initialState inp.lm35)
    (true, "ALARM", inp.now) (true, "GAS_DET", inp.now) rfl rfl
  have hframe := recordEvents_frame [(true, "ALARM", inp.now), (true, "GAS_DET", inp.now)]
    (afterGasActivation initialState inp.lm35)
  rw [hpending] at hlog
  unfold EventLogAfter at hlog
  rw [r1, r2] at hframe
  rw [hlog, hframe]
  unfold GasAlarmRunning
  exact ⟨rfl, rfl, rfl, rfl, rfl, rfl, rfl, rfl, rfl, rfl, rfl, htemp, rfl, rfl, htemp, rfl,
    rfl, rfl, rfl⟩

/-- A later iteration of the gas scenario, before the blink period of gas alone is reached. -/
theorem mainLoopTick_gas_next (s : State) (inp : TickInput) (t0 ticks : Nat)
    (h : GasAlarmRunning s t0 ticks) (hticks : ticks + 1 < 100) (hg : GasTick inp)
    (htemp : (lm35Sample s inp.lm35).overTempDetector = false) :
    GasAlarmRunning (mainLoopTick s inp) t0 (ticks + 1) := by
  obtain ⟨a1, a2, a3, a4, a5, a6, a7, a8, a9, a10, a11, a12, a13, a14, a15, a16, a17, a18,
    a19⟩ := h
  have hacc : s.accumulatedTimeAlarm + TIME_INCREMENT_MS < BLINKING_TIME_GAS_ALARM := by
    rw [a7]
    unfold TIME_INCREMENT_MS BLINKING_TIME_GAS_ALARM
    omega
  rw [mainLoopTick_gas s inp hg a19 (by rw [a18]; decide) a5 hacc htemp,
    eventLogUpdate_settled (afterGasActivation s inp.lm35) false inp.now a10 a11
      (a12.trans htemp.symm) (a13.trans a16.symm) (a14.trans a17.symm)]
  unfold GasAlarmRunning
  refine ⟨rfl, rfl, rfl, rfl, a5, a6, ?_, a8, a9, a10, a11, a12, a13, a14, htemp, a16, a17,
    a18, a19⟩
  show s.accumulatedTimeAlarm + TIME_INCREMENT_MS = TIME_INCREMENT_MS * (ticks + 1)
  rw [a7, Nat.mul_succ]

theorem alarmActivationUpdate_sample (s : State) (x : ℚ) (mq2 button : Bool) :
    (alarmActivationUpdate s x mq2 button).lm35TempC = (lm35Sample s x).lm35TempC ∧
    (alarmActivationUpdate s x mq2 button).lm35ReadingsArray =
      (lm35Sample s x).lm35ReadingsArray := by
  unfold alarmActivationUpdate
  rw [alarmDrive_frame, alarmTriggers_eq]
  exact ⟨rfl, rfl⟩

theorem mainLoopTick_sample (s : State) (inp : TickInput) :
    (mainLoopTick s inp).lm35TempC = (lm35Sample s inp.lm35).lm35TempC ∧
    (mainLoopTick s inp).lm35ReadingsArray = (lm35Sample s inp.lm35).lm35ReadingsArray := by
  obtain ⟨a1, a2⟩ := alarmActivationUpdate_sample s inp.lm35 inp.mq2 inp.alarmTestButton
  unfold mainLoopTick
  dsimp only
  generalize alarmActivationUpdate s inp.lm35 inp.mq2 inp.alarmTestButton = s1 at a1 a2 ⊢
  have d := alarmDeactivationUpdate_frame s1 inp.keypad
  generalize alarmDeactivationUpdate s1 inp.keypad = s2 at d ⊢
  have u := uartTask_frame s2 inp.uartReadable inp.uartRx
  generalize (uartTask s2 inp.uartReadable inp.uartRx).1 = s3 at u ⊢
  have e := eventLogUpdate_frame s3 inp.mq2Log inp.now
  generalize eventLogUpdate s3 inp.mq2Log inp.now = s4 at e ⊢
  unfold EventLogFrame at e
  rw [← a1, ← a2, e, u, d]
  exact ⟨rfl, rfl⟩

theorem overTempDetector_of_lm35TempC (s : State) (inp : TickInput)
    (h : (mainLoopTick s inp).lm35TempC ≤ OVER_TEMP_LEVEL) :
    (lm35Sample s inp.lm35).overTempDetector = false := by
  rw [(mainLoopTick_sample s inp).1] at h
  show decide ((lm35Sample s inp.lm35).lm35TempC > OVER_TEMP_LEVEL) = false
  exact decide_eq_false (not_lt.mpr h)

theorem mainLoop_snoc (s : State) (inputs : List TickInput) (inp : TickInput) :
    mainLoop s (inputs ++ [inp]) = mainLoopTick (mainLoop s inputs) inp := by
  rw [mainLoop_append]
  rfl

theorem gasAlarmRunning_mainLoop (first : TickInput) (rest : List TickInput)
    (hlen : rest.length ≤ 98)
    (hgas : ∀ inp, inp ∈ first :: rest → GasTick inp)
    (htemp : ∀ k, k ≤ rest.length →
      (mainLoop initialState (first :: rest.take k)).lm35TempC ≤ OVER_TEMP_LEVEL)
    (k : Nat) (hk : k ≤ rest.length) :
    GasAlarmRunning (mainLoop initialState (first :: rest.take k)) first.now (k + 1) := by
  induction k with
  | zero =>
    have h0 := htemp 0 (Nat.zero_le _)
    rw [List.take_zero] at h0 ⊢
    exact mainLoopTick_gas_first first (hgas first (List.mem_cons_self _ _))
      (overTempDetector_of_lm35TempC initialState first h0)
  | succ k ih =>
    have hlt : k < rest.length := hk
    have hprev := ih (Nat.le_of_lt hlt)
    have ht := htemp (k + 1) hk
    have htake : first :: rest.take (k + 1) = (first :: rest.take k) ++ [rest.get ⟨k, hlt⟩] := by
      rw [List.take_succ, List.getElem?_eq_getElem hlt]
      rfl
    rw [htake, mainLoop_snoc] at ht ⊢
    exact mainLoopTick_gas_next _ _ first.now (k + 1) hprev (by omega)
      (hgas _ (List.mem_cons_of_mem _ (List.get_mem rest k hlt)))
      (overTempDetector_of_lm35TempC _ _ ht)

/-- C12: from the initial state, the main loop is run for one iteration `first` and up to 98
further iterations `rest` (so at most 99 in all, the 15 of the scenario included), in each of
which the gas sensor is asserted, the test button is inactive, no key is pressed and no
console byte is available, and after each of which the scaled temperature average
`lm35TempC` is not above 50.  Then after every one of those iterations the alarm is on, the
siren pin is an output driven low, `gasDetectorState` is on and `overTempDetectorState` is
off, `alarmLed` is still off and the blink timer has run without a reset (the first toggle is
due at the 100th iteration), and the event log holds exactly the two records `ALARM_ON` and
`GAS_DET_ON`, written by the first iteration. -/
theorem gas_scenario (first : TickInput) (rest : List TickInput)
    (hlen : rest.length ≤ 98)
    (hgas : ∀ inp, inp ∈ first :: rest → GasTick inp)
    (htemp : ∀ k, k ≤ rest.length →
      (mainLoop initialState (first :: rest.take k)).lm35TempC ≤ OVER_TEMP_LEVEL)
    (k : Nat) (hk : k ≤ rest.length) :
    (mainLoop initialState (first :: rest.take k)).alarmState = true ∧
    (mainLoop initialState (first :: rest.take k)).sirenPinIsOutput = true ∧
    (mainLoop initialState (first :: rest.take k)).sirenPinValue = false ∧
    (mainLoop initialState (first :: rest.take k)).gasDetectorState = true ∧
    (mainLoop initialState (first :: rest.take k)).overTempDetectorState = false ∧
    (mainLoop initialState (first :: rest.take k)).alarmLed = false ∧
    (mainLoop initialState (first :: rest.take k)).accumulatedTimeAlarm = 10 * (k + 1) ∧
    (mainLoop initialState (first :: rest.take k)).eventsIndex = 2 ∧
    (mainLoop initialState (first :: rest.take k)).arrayOfStoredEvents =
      ⟨first.now, "ALARM_ON"⟩ :: ⟨first.now, "GAS_DET_ON"⟩ :: List.replicate 98 ⟨0, ""⟩ ∧
    (mainLoop initialState [first]).arrayOfStoredEvents =
      ⟨first.now, "ALARM_ON"⟩ :: ⟨first.now, "GAS_DET_ON"⟩ :: List.replicate 98 ⟨0, ""⟩ := by
  obtain ⟨a1, a2, a3, a4, a5, a6, a7, a8, a9, -⟩ :=
    gasAlarmRunning_mainLoop first rest hlen hgas htemp k hk
  obtain ⟨-, -, -, -, -, -, -, -, b9, -⟩ :=
    gasAlarmRunning_mainLoop first rest hlen hgas htemp 0 (Nat.zero_le _)
  rw [List.take_zero] at b9
  exact ⟨a1, a2, a3, a4, a5, a6, a7, a8, a9, b9⟩

theorem lm35Sample_zero (s : State)
    (harr : s.lm35ReadingsArray = List.replicate NUMBER_OF_AVG_SAMPLES 0) :
    (lm35Sample s 0).lm35ReadingsArray = List.replicate NUMBER_OF_AVG_SAMPLES 0 ∧
    (lm35Sample s 0).lm35TempC = 0 := by
  have h1 : (lm35Sample s 0).lm35ReadingsArray = List.replicate NUMBER_OF_AVG_SAMPLES 0 := by
    show s.lm35ReadingsArray.set s.lm35SampleIndex 0 = _
    rw [harr, List.set_replicate_self]
  refine ⟨h1, ?_⟩
  have havg := lm35Sample_average s 0 (by rw [harr, List.length_replicate])
  have htemp : (lm35Sample s 0).lm35TempC =
      analogReadingScaledWithTheLM35Formula (lm35Sample s 0).lm35ReadingsAverage := rfl
  rw [htemp, havg, h1, List.rotate_replicate]
  unfold analogReadingScaledWithTheLM35Formula
  simp

theorem mainLoop_zero_samples (inputs : List TickInput) (s : State)
    (hzero : ∀ inp, inp ∈ inputs → inp.lm35 = 0)
    (harr : s.lm35ReadingsArray = List.replicate NUMBER_OF_AVG_SAMPLES 0)
    (htemp : s.lm35TempC ≤ OVER_TEMP_LEVEL) :
    (mainLoop s inputs).lm35ReadingsArray = List.replicate NUMBER_OF_AVG_SAMPLES 0 ∧
    (mainLoop s inputs).lm35TempC ≤ OVER_TEMP_LEVEL := by
  induction inputs generalizing s with
  | nil => exact ⟨harr, htemp⟩
  | cons inp rest ih =>
    obtain ⟨t1, t2⟩ := mainLoopTick_sample s inp
    have hz := hzero inp (List.mem_cons_self _ _)
    rw [hz] at t1 t2
    obtain ⟨z1, z2⟩ := lm35Sample_zero s harr
    rw [mainLoop_cons]
    apply ih
    · intro i hi
      exact hzero i (List.mem_cons_of_mem _ hi)
    · rw [t2, z1]
    · rw [t1, z2]
      unfold OVER_TEMP_LEVEL
      norm_num

theorem gasTick_tickGas : GasTick tickGas := ⟨rfl, rfl, rfl, by decide, rfl⟩

/-- Witness for C12: fifteen iterations of `tickGas` (gas asserted, temperature samples 0). -/
theorem gas_scenario_witness :
    (List.replicate 14 tickGas).length ≤ 98 ∧
    (mainLoop initialState (tickGas :: (List.replicate 14 tickGas).take 14)).alarmState = true ∧
    (mainLoop initialState (tickGas :: (List.replicate 14 tickGas).take 14)).alarmLed = false ∧
    (mainLoop initialState
      (tickGas :: (List.replicate 14 tickGas).take 14)).accumulatedTimeAlarm = 10 * (14 + 1) ∧
    (mainLoop initialState
      (tickGas :: (List.replicate 14 tickGas).take 14)).arrayOfStoredEvents =
        ⟨tickGas.now, "ALARM_ON"⟩ :: ⟨tickGas.now, "GAS_DET_ON"⟩ ::
          List.replicate 98 ⟨0, ""⟩ :=
  have h := gas_scenario tickGas (List.replicate 14 tickGas) (by decide)
    (fun inp hmem => by
      rcases List.mem_cons.mp hmem with h | h
      · rw [h]; exact gasTick_tickGas
      · rw [List.eq_of_mem_replicate h]; exact gasTick_tickGas)
    (fun k _ => (mainLoop_zero_samples _ initialState
      (fun inp hmem => by
        rcases List.mem_cons.mp hmem with h | h
        · rw [h]; rfl
        · rw [List.eq_of_mem_replicate (List.mem_of_mem_take h)]; rfl)
      (by decide)
      (by show (0 : ℚ) ≤ OVER_TEMP_LEVEL
          unfold OVER_TEMP_LEVEL
          norm_num)).2)
    14 (by decide)
  ⟨by decide, h.1, h.2.2.2.2.2.1, h.2.2.2.2.2.2.1, h.2.2.2.2.2.2.2.2.1⟩

/-! ## Event labels -/

theorem pendingEvents_names (s : State) (mq2 : Bool) (now : Nat) (e : Bool × String × Nat)
    (he : e ∈ pendingEvents s mq2 now) : e.2.1 ∈ monitoredElementNames := by
  unfold pendingEvents eventIfChanged at he
  simp only [List.mem_append] at he
  rcases he with (((h | h) | h) | h) | h
  all_goals
    split_ifs at h
    · rw [List.mem_singleton] at h
      rw [h]
      show _ ∈ monitoredElementNames
      dsimp only
      decide
    · exact absurd h (List.not_mem_nil _)

/-- C21: a call of `systemElementStateUpdate` that sees a change stores, at the cursor, a
record whose label is `elementName` followed by `_ON` when `currentState` is true and by
`_OFF` when it is false.  Every event `eventLogUpdate` records carries one of the five names
`ALARM`, `GAS_DET`, `OVER_TEMP`, `LED_IC`, `LED_SB`, and for each of these names and both
suffixes the label has at most 13 characters, all of one byte, so the label and its
terminating NUL fit in `EVENT_NAME_MAX_LENGTH` bytes. -/
theorem systemElementStateUpdate_label (s : State) (lastState currentState : Bool)
    (elementName : String) (now : Nat) (hchange : lastState ≠ currentState)
    (hidx : s.eventsIndex < s.arrayOfStoredEvents.length) :
    (systemElementStateUpdate s lastState currentState elementName now).arrayOfStoredEvents.getD
        s.eventsIndex ⟨0, ""⟩ =
      ⟨now, if currentState then elementName ++ "_ON" else elementName ++ "_OFF"⟩ ∧
    (∀ (mq2 : Bool) (t : Nat) (e : Bool × String × Nat),
      e ∈ pendingEvents s mq2 t → e.2.1 ∈ monitoredElementNames) ∧
    (∀ name, name ∈ monitoredElementNames → ∀ state : Bool,
      (if state then name ++ "_ON" else name ++ "_OFF").length ≤ 13 ∧
      (if state then name ++ "_ON" else name ++ "_OFF").utf8ByteSize + 1 ≤
        EVENT_NAME_MAX_LENGTH) := by
  refine ⟨?_, fun mq2 t e he => pendingEvents_names s mq2 t e he, ?_⟩
  · rw [systemElementStateUpdate_changed s lastState currentState elementName now hchange]
    show (s.arrayOfStoredEvents.set s.eventsIndex _).getD s.eventsIndex _ = _
    rw [List.getD_eq_getElem _ _ (by rw [List.length_set]; exact hidx), List.getElem_set_self]
    cases currentState <;> rfl
  · decide

/-- Witness for C21: the over-temperature flag going on in the initial state. -/
theorem systemElementStateUpdate_label_witness :
    (systemElementStateUpdate initialState false true "OVER_TEMP" 5).arrayOfStoredEvents.getD
        0 ⟨0, ""⟩ = ⟨5, "OVER_TEMP_ON"⟩ ∧
    ("OVER_TEMP" ++ "_OFF").length = 13 :=
  ⟨(systemElementStateUpdate_label initialState false true "OVER_TEMP" 5 (by decide)
      (by decide)).1, by decide⟩

/-! ## Keypad FSM invariant -/

theorem matrixKeypadUpdate_keyRecorded (s : State) (keypad : Nat → Nat → Bool)
    (h : KeypadKeyRecorded s) : KeypadKeyRecorded (matrixKeypadUpdate s keypad).2 := by
  unfold KeypadKeyRecorded at *
  unfold matrixKeypadUpdate
  cases hstate : s.matrixKeypadState
  · dsimp only
    split_ifs with hkey
    · intro _
      exact hkey
    · intro hs
      exact h hs
  · dsimp only
    intro _
    have hlast := h (Or.inl hstate)
    split_ifs <;> exact hlast
  · dsimp only
    have hlast := h (Or.inr hstate)
    split_ifs
    all_goals
      intro _
      exact hlast

theorem matrixKeypadRun_keyRecorded (keypads : List (Nat → Nat → Bool)) (s : State)
    (h : KeypadKeyRecorded s) : KeypadKeyRecorded (matrixKeypadRun s keypads).2 := by
  induction keypads generalizing s with
  | nil => exact h
  | cons keypad rest ih =>
    exact ih (matrixKeypadUpdate s keypad).2 (matrixKeypadUpdate_keyRecorded s keypad h)

theorem matrixKeypadUpdate_release_only (s : State) (keypad : Nat → Nat → Bool)
    (hret : (matrixKeypadUpdate s keypad).1 ≠ NUL) :
    s.matrixKeypadState = MATRIX_KEYPAD_KEY_HOLD_PRESSED ∧
    (matrixKeypadUpdate s keypad).2.matrixKeypadState = MATRIX_KEYPAD_SCANNING ∧
    matrixKeypadScan keypad = NUL ∧
    (matrixKeypadUpdate s keypad).1 = s.matrixKeypadLastKeyPressed := by
  unfold matrixKeypadUpdate at hret ⊢
  cases hstate : s.matrixKeypadState
  · rw [hstate] at hret
    dsimp only at hret
    split_ifs at hret <;> exact absurd rfl hret
  · rw [hstate] at hret
    exact absurd rfl hret
  · rw [hstate] at hret
    dsimp only at hret ⊢
    split_ifs at hret with h1 h2
    · rw [if_pos h1, if_pos h2]
      exact ⟨rfl, rfl, h2, rfl⟩
    · exact absurd rfl hret
    · exact absurd rfl hret

/-- C22: the initial state has the keypad FSM in `SCANNING` with last key `'\0'`; in every
state reached from it by calls of `matrixKeypadUpdate` with arbitrary keypad readings, the
recorded `matrixKeypadLastKeyPressed` is not `'\0'` whenever the FSM is in `DEBOUNCE` or in
`KEY_HOLD_PRESSED`; and a call from such a state that returns a character other than `'\0'`
starts in `KEY_HOLD_PRESSED`, ends in `SCANNING`, and returns the recorded key. -/
theorem matrixKeypadUpdate_fsm_invariant (keypads : List (Nat → Nat → Bool))
    (keypad : Nat → Nat → Bool) :
    initialState.matrixKeypadState = MATRIX_KEYPAD_SCANNING ∧
    initialState.matrixKeypadLastKeyPressed = NUL ∧
    ((matrixKeypadRun initialState keypads).2.matrixKeypadState = MATRIX_KEYPAD_DEBOUNCE ∨
        (matrixKeypadRun initialState keypads).2.matrixKeypadState =
          MATRIX_KEYPAD_KEY_HOLD_PRESSED →
      (matrixKeypadRun initialState keypads).2.matrixKeypadLastKeyPressed ≠ NUL) ∧
    ((matrixKeypadUpdate (matrixKeypadRun initialState keypads).2 keypad).1 ≠ NUL →
      (matrixKeypadRun initialState keypads).2.matrixKeypadState =
        MATRIX_KEYPAD_KEY_HOLD_PRESSED ∧
      (matrixKeypadUpdate (matrixKeypadRun initialState keypads).2
        keypad).2.matrixKeypadState = MATRIX_KEYPAD_SCANNING ∧
      (matrixKeypadUpdate (matrixKeypadRun initialState keypads).2 keypad).1 =
        (matrixKeypadRun initialState keypads).2.matrixKeypadLastKeyPressed) := by
  have hinit : KeypadKeyRecorded initialState := by
    unfold KeypadKeyRecorded
    decide
  refine ⟨by decide, by decide, matrixKeypadRun_keyRecorded keypads initialState hinit, ?_⟩
  intro hret
  obtain ⟨h1, h2, -, h4⟩ := matrixKeypadUpdate_release_only _ keypad hret
  exact ⟨h1, h2, h4⟩

/-- Witness for C22: key `1` detected, debounced and confirmed (six calls) leaves the FSM in
`KEY_HOLD_PRESSED` with `1` recorded, and the call that then sees no key returns `1` and ends
in `SCANNING`. -/
theorem matrixKeypadUpdate_fsm_invariant_witness :
    (matrixKeypadRun initialState (List.replicate 6 (keypadKey 0 0))).2.matrixKeypadState =
      MATRIX_KEYPAD_KEY_HOLD_PRESSED ∧
    (matrixKeypadRun initialState
      (List.replicate 6 (keypadKey 0 0))).2.matrixKeypadLastKeyPressed ≠ NUL ∧
    (matrixKeypadUpdate (matrixKeypadRun initialState (List.replicate 6 (keypadKey 0 0))).2
      keypadIdle).1 = '1' ∧
    (matrixKeypadUpdate (matrixKeypadRun initialState (List.replicate 6 (keypadKey 0 0))).2
      keypadIdle).2.matrixKeypadState = MATRIX_KEYPAD_SCANNING :=
  ⟨by decide,
    (matrixKeypadUpdate_fsm_invariant (List.replicate 6 (keypadKey 0 0)) keypadIdle).2.2.1
      (Or.inr (by decide)),
    by decide,
    ((matrixKeypadUpdate_fsm_invariant (List.replicate 6 (keypadKey 0 0)) keypadIdle).2.2.2
      (by decide)).2.1⟩

/-! ## The blink timer is bounded -/

end AlarmSystem
